import Mathlib

/-!
VQEngine renderer: resource registries, shader constants and bind queues.

A shallow embedding of `Source/Renderer/Source/RendererD3D12.cpp`.

Conventions of the embedding

* Handles (`TextureID`, `BufferID`, ...) are C++ `int`s, embedded as `Int`;
  `static_cast<int>` of a `size_t` is `static_cast_int` (wrap to 32 bits).
* `std::vector` registries are `List`s; `std::queue` is a `List` whose head is
  the front of the queue and whose last element is the back.
* Device pointers are `Ptr = Option Nat`, `none` being `nullptr`.
* The graphics device, the image loaders and the file system are external: the
  outcome of every call made to them is an explicit argument of the embedded
  function, and every creation call issued on `m_device` is recorded in the
  ghost field `deviceCalls`. Text sent to `Log` is recorded in the ghost field
  `log`.
* `dbg = true` is the Debug configuration (`_DEBUG` defined, `assert` active),
  `dbg = false` the Release configuration (`NDEBUG`); `profile = true` says
  that `PROFILE` is defined. A function whose only build-dependent code is the
  debug name of `CreateTexture2D` (`#if defined(_DEBUG) || defined(PROFILE)`)
  takes the one flag `debugNames`, which stands for `dbg || profile`. A failed
  assertion, a call through a null pointer and an out-of-range `operator[]`
  are `none`.
* The mutex taken by `CreateTextureFromFile` is not modelled: every function is
  embedded as it executes on one thread.
* `size_t` arithmetic is arithmetic modulo 2^64 (`size_t_add`, `size_t_sub`);
  a loop that the source does not bound takes the number of iterations it may
  run as its first argument.
* Floating point is IEEE 754 with round to nearest, ties to even: the
  conversion of a `size_t` to `double` is `to_double`, `std::log2` returns the
  double nearest to the logarithm (`log2_truncated` is its truncation to
  `size_t`), and `static_cast<float>` of an `unsigned` is the nearest
  single-precision value.
* Release calls made by `Exit` on objects outside these sources are recorded,
  in order, in the trace that `Exit` returns.
-/

set_option autoImplicit false

namespace VQEngine

/-! ## Basic types -/

abbrev Ptr := Option Nat

abbrev TextureID := Int
abbrev BufferID := Int
abbrev SamplerID := Int
abbrev ShaderID := Int
abbrev RenderTargetID := Int
abbrev DepthTargetID := Int
abbrev RasterizerStateID := Int
abbrev BlendStateID := Int
abbrev DepthStencilStateID := Int

/-- The conversion `static_cast<int>(n)` of an unsigned size `n`. -/
def static_cast_int (n : Nat) : Int :=
  if n % 2 ^ 32 < 2 ^ 31 then ((n % 2 ^ 32 : Nat) : Int)
  else ((n % 2 ^ 32 : Nat) : Int) - 2 ^ 32

/-- The conversion of an `int` to `UINT`. -/
def to_UINT (i : Int) : Nat := (i % 2 ^ 32).toNat

/-- The iterator returned by `std::find_if`, as an index: the position of the
first element satisfying `p`, or the length of the list (`end()`). -/
def find_if {α : Type} (p : α → Bool) : List α → Nat
  | [] => 0
  | x :: xs => if p x then 0 else find_if p xs + 1

/-- The two-character string made of two double quotes. -/
def quotedEmpty : String := String.mk [Char.ofNat 34, Char.ofNat 34]

/-- Severity of a `Log` entry. -/
inductive LogLevel
  | Info
  | Warning
  | Error
  deriving DecidableEq, Repr

/-- One line handed to `Log::Info`, `Log::Warning` or `Log::Error`. -/
structure LogEntry where
  level : LogLevel
  text : String
  deriving DecidableEq, Repr

/-- Creation and upload entry points of the device used by the renderer. -/
inductive DeviceCall
  | CreateTexture2D (MipLevels : Nat)
  | CreateShaderResourceView
  | CreateUnorderedAccessView
  | CreateRenderTargetView
  | CreateDepthStencilView
  | CreateRasterizerState
  | CreateDepthStencilState
  | CreateBlendState
  | CreateSamplerState
  | CreateBuffer
  | UpdateConstantBuffer (slot : Nat)
  deriving DecidableEq, Repr

/-! ## Textures -/

/-- Modelled from the spec: the `Texture` record (`Texture.h` is not among the
sources): name, dimensions, backing resource and views, registry id. -/
structure Texture where
  _id : TextureID
  _name : String
  _width : Int
  _height : Int
  _depth : Int
  _tex2D : Ptr
  _srv : Ptr
  _uav : Ptr
  _srvArray : List Ptr
  _uavArray : List Ptr
  deriving DecidableEq, Repr

/-- Modelled from the spec: a default-constructed `Texture` has no name, no
backing resource, no view and the invalid id. -/
def Texture.new : Texture :=
  { _id := -1, _name := "", _width := 0, _height := 0, _depth := 0,
    _tex2D := none, _srv := none, _uav := none, _srvArray := [], _uavArray := [] }

/-- Modelled from the spec: the fields of `TextureDesc` that
`CreateTexture2D` reads (`Renderer.h` is not among the sources). -/
structure TextureDesc where
  width : Int
  height : Int
  format : Nat
  usage : Nat
  texFileName : String
  pData : Ptr
  dataPitch : Int
  dataSlicePitch : Int
  mipCount : Int
  arraySize : Int
  bIsCubeMap : Bool
  bGenerateMips : Bool
  cpuAccessMode : Nat
  deriving DecidableEq, Repr

/-- The value-initialised descriptor `TextureDesc texDesc = {}`. -/
def TextureDesc.zero : TextureDesc :=
  { width := 0, height := 0, format := 0, usage := 0, texFileName := "", pData := none,
    dataPitch := 0, dataSlicePitch := 0, mipCount := 0, arraySize := 0,
    bIsCubeMap := false, bGenerateMips := false, cpuAccessMode := 0 }

/-- The bind flag `D3D11_BIND_UNORDERED_ACCESS` (0x80). -/
def D3D11_BIND_UNORDERED_ACCESS : Nat := 128

/-- The usage `ETextureUsage::RENDER_TARGET_RW`: render target, shader
resource and unordered access bind flags. -/
def RENDER_TARGET_RW : Nat := 32 + 8 + 128

/-- The format `EImageFormat::RGBA32F` (`DXGI_FORMAT_R32G32B32A32_FLOAT`). -/
def RGBA32F : Nat := 2

/-- What the device hands back to one `CreateTexture2D(TextureDesc)` call: the
resource left in `tex._tex2D` and the view created for each first slice. -/
structure Tex2DOutcome where
  tex2D : Ptr
  srv : Nat → Ptr
  uav : Nat → Ptr

/-- What `LoadFromWICFile` and the `CreateShaderResourceView` helper of the
image library hand back for a file that loads. -/
structure ImageLoad where
  width : Nat
  height : Nat
  depth : Nat
  arraySize : Nat
  mipLevels : Nat
  format : Nat
  srv : Ptr
  tex2D : Option (Ptr × Nat × Nat)

/-- What `stbi_loadf` hands back for a file that loads. -/
structure HDRLoad where
  width : Int
  height : Int
  data : Nat

/-! ## Buffers, targets and fixed-function objects -/

/-- The buffer kinds of `EBufferType`; `UNKNOWN` is every other value. -/
inductive EBufferType
  | VERTEX_BUFER
  | INDEX_BUFFER
  | COMPUTE_RW_BUFFER
  | UNKNOWN
  deriving DecidableEq, Repr

/-- Modelled from the spec: a buffer descriptor (kind, element count, stride). -/
structure BufferDesc where
  mType : EBufferType
  mElementCount : Nat
  mStride : Nat
  deriving DecidableEq, Repr

/-- Modelled from the spec: a buffer owns its descriptor and a backing device
buffer. -/
structure Buffer where
  mDesc : BufferDesc
  mpGPUData : Ptr
  deriving DecidableEq, Repr

/-- A sampler registry entry. -/
structure Sampler where
  _id : SamplerID
  _samplerState : Ptr
  _name : String
  deriving DecidableEq, Repr

/-- A blend state registry entry. -/
structure BlendState where
  ptr : Ptr
  deriving DecidableEq, Repr

/-- A render target: a texture and its render-target view. -/
structure RenderTarget where
  texture : Texture
  pRenderTargetView : Ptr
  deriving DecidableEq, Repr

/-- A depth target: a texture and its depth-stencil view. -/
structure DepthTarget where
  texture : Texture
  pDepthStencilView : Ptr
  deriving DecidableEq, Repr

/-! ## Shaders -/

/-- Modelled from the spec: the CPU shadow of one shader constant. -/
structure CPUConstant where
  _name : String
  _size : Nat
  _data : List Nat
  deriving DecidableEq, Repr

/-- Modelled from the spec: one device constant buffer of a shader, with its
dirty flag. -/
structure ConstantBuffer where
  dirty : Bool
  data : Ptr
  deriving DecidableEq, Repr

/-- Modelled from the spec: a named binding point of a shader. -/
structure ShaderBinding where
  shaderStage : Nat
  slot : Nat
  deriving DecidableEq, Repr

/-- Modelled from the spec: the collaborator `Shader` (`Shader.h` is not among
the sources): the ordered (buffer slot, constant id) list, the CPU shadows, the
device constant buffers and the tables of named binding points. -/
structure Shader where
  mName : String
  m_constants : List (Nat × Nat)
  mCPUConstantBuffers : List CPUConstant
  mConstantBuffers : List ConstantBuffer
  mTextureBindings : List (String × ShaderBinding)
  mSamplerBindings : List (String × ShaderBinding)
  deriving DecidableEq, Repr

/-- Modelled from the spec: `Shader::HasTextureBinding`, an exact-match lookup
in the table of texture binding points. -/
def Shader.HasTextureBinding (s : Shader) (name : String) : Bool :=
  (s.mTextureBindings.find? (fun b => b.1 == name)).isSome

/-- Modelled from the spec: `Shader::GetTextureBinding`, the binding point the
name resolves to. -/
def Shader.GetTextureBinding (s : Shader) (name : String) : Option ShaderBinding :=
  (s.mTextureBindings.find? (fun b => b.1 == name)).map Prod.snd

/-- Modelled from the spec: `Shader::HasSamplerBinding`. -/
def Shader.HasSamplerBinding (s : Shader) (name : String) : Bool :=
  (s.mSamplerBindings.find? (fun b => b.1 == name)).isSome

/-- Modelled from the spec: `Shader::GetSamplerBinding`. -/
def Shader.GetSamplerBinding (s : Shader) (name : String) : Option ShaderBinding :=
  (s.mSamplerBindings.find? (fun b => b.1 == name)).map Prod.snd

/-! ## Commands and pipeline state -/

/-- Modelled from the spec: a deferred texture bind. -/
structure SetTextureCommand where
  textureIDs : List TextureID
  numTextures : Nat
  binding : ShaderBinding
  slice : Nat
  bUnorderedAccess : Bool
  deriving DecidableEq, Repr

/-- Modelled from the spec: a deferred sampler bind. -/
structure SetSamplerCommand where
  samplerID : SamplerID
  binding : ShaderBinding
  deriving DecidableEq, Repr

/-- The viewport rectangle. -/
structure Viewport where
  TopLeftX : Int
  TopLeftY : Int
  Width : Int
  Height : Int
  MinDepth : Int
  MaxDepth : Int
  deriving DecidableEq, Repr

/-- Modelled from the spec: the logical pipeline state. `renderTargets` is the
sequence of bound render-target slots: an assignment of a braced list makes it
exactly that list. -/
structure PipelineState where
  shader : ShaderID
  vertexBuffer : BufferID
  indexBuffer : BufferID
  topology : Nat
  viewPort : Viewport
  rasterizerState : RasterizerStateID
  depthStencilState : DepthStencilStateID
  blendState : BlendStateID
  renderTargets : List RenderTargetID
  depthTargets : DepthTargetID
  deriving DecidableEq, Repr

/-! ## The renderer -/

/-- The members of `Renderer` together with the two ghost traces. -/
structure Renderer where
  mTextures : List Texture
  mShaders : List Shader
  mVertexBuffers : List Buffer
  mIndexBuffers : List Buffer
  mUABuffers : List Buffer
  mSamplers : List Sampler
  mRasterizerStates : List Ptr
  mDepthStencilStates : List Ptr
  mBlendStates : List BlendState
  mRenderTargets : List RenderTarget
  mDepthTargets : List DepthTarget
  mPipelineState : PipelineState
  mSetTextureCmds : List SetTextureCommand
  mSetSamplerCmds : List SetSamplerCommand
  deviceCalls : List DeviceCall
  log : List LogEntry
  deriving DecidableEq, Repr

/-- Append one entry to the log. -/
def Renderer.logged (r : Renderer) (level : LogLevel) (text : String) : Renderer :=
  { r with log := r.log ++ [{ level := level, text := text }] }

/-- Record calls issued on the device. -/
def Renderer.called (r : Renderer) (calls : List DeviceCall) : Renderer :=
  { r with deviceCalls := r.deviceCalls ++ calls }

/-! ## Texture creation -/

/-- The function `Renderer::GetTextureObject`: the asserted range check and the
indexing. -/
def GetTextureObject (r : Renderer) (id : TextureID) : Option Texture :=
  if 0 ≤ id ∧ id.toNat < r.mTextures.length then r.mTextures[id.toNat]? else none

/-- The texture that `CreateTexture2D(const TextureDesc&)` builds before it
looks for a slot, and the device calls made on the way. -/
def CreateTexture2D.build (texDesc : TextureDesc) (dev : Tex2DOutcome) :
    Texture × List DeviceCall :=
  let tex : Texture :=
    { Texture.new with
      _width := texDesc.width, _height := texDesc.height, _name := texDesc.texFileName }
  let arrSize0 : Nat := to_UINT texDesc.arraySize
  let bIsTextureArray : Bool := decide (1 < texDesc.arraySize)
  let arrSize : Nat := if texDesc.bIsCubeMap then (6 * arrSize0) % 2 ^ 32 else arrSize0
  let bindFlags : Nat := texDesc.usage
  let tex := { tex with _tex2D := dev.tex2D }
  let calls := [DeviceCall.CreateTexture2D (to_UINT texDesc.mipCount)]
  if texDesc.bIsCubeMap then
    ({ tex with _srv := dev.srv 0 }, calls ++ [DeviceCall.CreateShaderResourceView])
  else if bIsTextureArray then
    let srvs := (List.range arrSize).map dev.srv
    let tex := { tex with _srvArray := srvs, _depth := (arrSize : Int),
                          _srv := if 0 < arrSize then dev.srv 0 else tex._srv }
    let calls := calls ++ List.replicate arrSize DeviceCall.CreateShaderResourceView
    if Nat.land bindFlags D3D11_BIND_UNORDERED_ACCESS ≠ 0 then
      let uavs := (List.range arrSize).map dev.uav
      ({ tex with _uavArray := uavs, _depth := (arrSize : Int),
                  _uav := if 0 < arrSize then dev.uav 0 else tex._uav },
        calls ++ List.replicate arrSize DeviceCall.CreateUnorderedAccessView)
    else (tex, calls)
  else
    let tex := { tex with _srv := dev.srv 0 }
    let calls := calls ++ [DeviceCall.CreateShaderResourceView]
    if Nat.land bindFlags D3D11_BIND_UNORDERED_ACCESS ≠ 0 then
      ({ tex with _uav := dev.uav 0 }, calls ++ [DeviceCall.CreateUnorderedAccessView])
    else (tex, calls)

/-- The tail of `CreateTexture2D` (source lines 964-978): reuse the first slot
whose id is -1, else append. -/
def CreateTexture2D.store (r : Renderer) (tex : Texture) : TextureID × Renderer :=
  let itTex := find_if (fun tex1 : Texture => tex1._id == -1) r.mTextures
  if itTex ≠ r.mTextures.length then
    let retID := static_cast_int itTex
    (retID, { r with mTextures := r.mTextures.set itTex { tex with _id := retID } })
  else
    let retID := static_cast_int r.mTextures.length
    (retID, { r with mTextures := r.mTextures ++ [{ tex with _id := retID }] })

/-- The function `Renderer::CreateTexture2D(const TextureDesc&)` with the
debug-name call of source lines 865-870 left out: what the function does in a
build without debug names, and in every build once that call is past. -/
def CreateTexture2D.stored (r : Renderer) (texDesc : TextureDesc) (dev : Tex2DOutcome) :
    TextureID × Renderer :=
  let built := CreateTexture2D.build texDesc dev
  CreateTexture2D.store (r.called built.2) built.1

/-- The function `Renderer::CreateTexture2D(const TextureDesc&)`.
`debugNames` says that `_DEBUG` or `PROFILE` is defined: the texture of a named
descriptor then gets its debug name through `tex._tex2D` (source lines
865-870), the pointer that a failed `m_device->CreateTexture2D` leaves null;
no result is returned in that case. -/
def CreateTexture2D (debugNames : Bool) (r : Renderer) (texDesc : TextureDesc)
    (dev : Tex2DOutcome) : Option (TextureID × Renderer) :=
  let built := CreateTexture2D.build texDesc dev
  if debugNames = true ∧ texDesc.texFileName.isEmpty = false ∧ dev.tex2D = none then none
  else some (CreateTexture2D.store (r.called built.2) built.1)

/-- The function `Renderer::CreateTexture2D(D3D11_TEXTURE2D_DESC&, bool)`:
`tex` is what `Texture::InitializeTexture2D` produced. -/
def CreateTexture2D_D3D11 (r : Renderer) (tex : Texture) (calls : List DeviceCall) :
    TextureID × Renderer :=
  let id := static_cast_int (r.mTextures.length + 1 - 1)
  (id, { r.called calls with mTextures := r.mTextures ++ [{ tex with _id := id }] })

/-- The integer part of the base-2 logarithm of `n`, by repeated halving; the
first argument bounds the number of halvings. -/
def ilog2.go : Nat → Nat → Nat
  | 0, _ => 0
  | fuel + 1, n => if 2 ≤ n then ilog2.go fuel (n / 2) + 1 else 0

/-- The integer part of the base-2 logarithm of `n` (0 for `n = 0`). -/
def ilog2 (n : Nat) : Nat := ilog2.go n n

/-- The conversion of a `size_t` to `double`: the nearest value with a 53-bit
significand, ties to even. The result is an integer. -/
def to_double (x : Nat) : Nat :=
  if x < 2 ^ 53 then x
  else
    let e := ilog2 x - 52
    let q := x / 2 ^ e
    let rem := x % 2 ^ e
    let half := 2 ^ (e - 1)
    let q := if half < rem ∨ (rem = half ∧ q % 2 = 1) then q + 1 else q
    q * 2 ^ e

/-- The value `static_cast<size_t>(std::log2(d))` for a double of positive
integer value `d`, with `std::log2` returning the double nearest to the
logarithm. For `2^k < d < 2^(k+1)` the logarithm lies strictly between `k` and
`k + 1`; it is rounded up to `k + 1` exactly when it exceeds the midpoint
`k + 1 - 2^(e - 53)` between `k + 1` and the double before it, where
`2^e ≤ k < 2^(e+1)`, that is when `2 * d^N > 2^((k+1) * N)` for `N = 2^(53-e)`
(the logarithm is irrational, so it never sits on the midpoint). A power of two
gives its exponent. -/
def log2_truncated (d : Nat) : Nat :=
  let k := ilog2 d
  if d = 2 ^ k then k
  else
    let N := 2 ^ (53 - ilog2 k)
    if 2 ^ ((k + 1) * N) < 2 * d ^ N then k + 1 else k

/-- The value `static_cast<size_t>(std::log2(x))` for a `size_t` `x`: `x` is
converted to `double` first. The logarithm of 0 is minus infinity, which no
`size_t` represents (`none`). -/
def log2_size_t (x : Nat) : Option Nat :=
  if x = 0 then none else some (log2_truncated (to_double x))

/-- The mip count of the mip-generation path (source lines 757-759): the
smaller of the truncated logarithms of width and height. -/
def mipLevels (width height : Nat) : Option Nat :=
  match log2_size_t width, log2_size_t height with
  | some a, some b => some (min a b)
  | _, _ => none

/-- The descriptor that the mip-generation path of `CreateTextureFromFile`
passes to `CreateTexture2D`; `mips` is the value just stored in
`meta.mipLevels`. -/
def CreateTextureFromFile.mipDesc (texFileName : String) (img : ImageLoad) (mips : Nat) :
    TextureDesc :=
  { TextureDesc.zero with
    bGenerateMips := true,
    bIsCubeMap := decide (img.depth ≠ 1),
    arraySize := static_cast_int img.arraySize,
    format := img.format,
    width := static_cast_int img.width,
    height := static_cast_int img.height,
    mipCount := static_cast_int mips,
    usage := RENDER_TARGET_RW,
    texFileName := texFileName }

/-- The function `Renderer::CreateTextureFromFile`. `load` is the outcome of
reading the image file (`none`: the file cannot be loaded), `dev` the outcome
of the device calls of the mip-generation path; `profile` says that `PROFILE`
is defined. Both paths call through `tex._srv` (source lines 753 and 792),
the view that the image library leaves null when it cannot create it. -/
def CreateTextureFromFile (dbg profile : Bool) (r : Renderer) (texFileName fileRoot : String)
    (bGenerateMips : Bool) (load : Option ImageLoad) (dev : Tex2DOutcome) :
    Option (TextureID × Renderer) :=
  if texFileName.isEmpty || texFileName == quotedEmpty then
    some (-1, r.logged LogLevel.Warning
      "Warning: CreateTextureFromFile() - empty texture file name passed as parameter")
  else
    let found := find_if (fun tex : Texture => tex._name == texFileName) r.mTextures
    if found ≠ r.mTextures.length then
      match r.mTextures[found]? with
      | some tex => some (tex._id, r)
      | none => none
    else
      let path := fileRoot ++ texFileName
      let r := if dbg then r.logged LogLevel.Info ("\tLoading Texture: " ++ path) else r
      match load with
      | some img =>
        let r := r.called
          [DeviceCall.CreateTexture2D img.mipLevels, DeviceCall.CreateShaderResourceView]
        if img.srv = none then none
        else if bGenerateMips then
          match mipLevels img.width img.height with
          | none => none
          | some mips =>
            match CreateTexture2D (dbg || profile) r
                (CreateTextureFromFile.mipDesc texFileName img mips) dev with
            | none => none
            | some created =>
              match GetTextureObject created.2 created.1 with
              | none => none
              | some _ =>
                match created.2.mTextures.getLast? with
                | some back => some (back._id, created.2)
                | none => none
        else
          let tex : Texture := { Texture.new with _name := texFileName, _srv := img.srv }
          let tex : Texture :=
            match img.tex2D with
            | some (p, w, h) => { tex with _tex2D := p, _width := (w : Int), _height := (h : Int) }
            | none => tex
          let tex : Texture := { tex with _id := static_cast_int r.mTextures.length }
          let r := { r with mTextures := r.mTextures ++ [tex] }
          match r.mTextures.getLast? with
          | some back => some (back._id, r)
          | none => none
      | none =>
        let r := r.logged LogLevel.Error ("Cannot load texture file: " ++ texFileName ++ "\n")
        match r.mTextures[0]? with
        | some first => some (first._id, r)
        | none => none

/-- The function `Renderer::CreateHDRTexture`. `load` is the outcome of
`stbi_loadf` (`none`: null data). -/
def CreateHDRTexture (debugNames : Bool) (r : Renderer) (texFileName fileRoot : String)
    (load : Option HDRLoad) (dev : Tex2DOutcome) : Option (TextureID × Renderer) :=
  let found := find_if (fun tex : Texture => tex._name == texFileName) r.mTextures
  if found ≠ r.mTextures.length then
    match r.mTextures[found]? with
    | some tex => some (tex._id, r)
    | none => none
  else
    let path := fileRoot ++ texFileName
    match load with
    | none => some (-1, r.logged LogLevel.Error ("Cannot load HDR Texture: " ++ path))
    | some img =>
      let texDesc : TextureDesc :=
        { TextureDesc.zero with
          width := img.width, height := img.height, format := RGBA32F,
          texFileName := texFileName, pData := some img.data,
          dataPitch := 16 * img.width, mipCount := 1, bGenerateMips := false }
      match CreateTexture2D debugNames r texDesc dev with
      | none => none
      | some created =>
        if created.1 = -1 then
          some (created.1, created.2.logged LogLevel.Error
            ("Cannot create HDR Texture from data: " ++ path))
        else some created

/-- The function `Renderer::GetTexture`. -/
def GetTexture (r : Renderer) (name : String) : Option (TextureID × Renderer) :=
  let found := find_if (fun tex : Texture => tex._name == name) r.mTextures
  if found ≠ r.mTextures.length then
    match r.mTextures[found]? with
    | some tex => some (tex._id, r)
    | none => none
  else some (-1, r.logged LogLevel.Error ("Texture not found: " ++ name))

/-- What the device and the image loader hand back to
`CreateCubemapFromFaceTextures`: the names of the faces that fail to load, the
metadata of the first face, the result of `CreateTexture2D` and of
`CreateShaderResourceView` (`none`: the call failed), and the text
`StrUtil::split(textureFiles.front(), '_').front()` used in error messages. -/
structure CubemapOutcome where
  failedFaces : List String
  width : Nat
  height : Nat
  mipLevels : Nat
  tex2D : Option Ptr
  srv : Option Ptr
  baseName : String

/-- The function `Renderer::CreateCubemapFromFaceTextures`. The face images
only fill the initial data handed to the device; a face that fails to load is
logged and skipped. -/
def CreateCubemapFromFaceTextures (dbg : Bool) (r : Renderer) (textureFiles : List String)
    (dev : CubemapOutcome) : TextureID × Renderer :=
  let r := dev.failedFaces.foldl (fun acc f => acc.logged LogLevel.Error f) r
  let r := if dbg then
      r.logged LogLevel.Info ("\tLoading Cubemap Texture: " ++ textureFiles.getLastD "")
    else r
  let r := r.called [DeviceCall.CreateTexture2D dev.mipLevels]
  match dev.tex2D with
  | none => (-1, r.logged LogLevel.Error ("Cannot create cubemap texture: " ++ dev.baseName))
  | some finalCubemapTexture =>
    let r := r.called [DeviceCall.CreateShaderResourceView]
    match dev.srv with
    | none =>
      (-1, r.logged LogLevel.Error ("Cannot create Shader Resource View for " ++ dev.baseName))
    | some cubeMapSRV =>
      let cubemapOut : Texture :=
        { Texture.new with
          _srv := cubeMapSRV, _name := "todo:Skybox file name",
          _tex2D := finalCubemapTexture,
          _height := ((dev.height % 2 ^ 32 : Nat) : Int),
          _width := ((dev.width % 2 ^ 32 : Nat) : Int),
          _id := static_cast_int r.mTextures.length }
      (cubemapOut._id, { r with mTextures := r.mTextures ++ [cubemapOut] })

/-! ## Buffers, rasterizer states and render targets -/

/-- The function `Renderer::CreateBuffer`. `gpu` is the device buffer that
`Buffer::Initialize` obtains. -/
def CreateBuffer (r : Renderer) (bufferDesc : BufferDesc) (gpu : Ptr) : BufferID × Renderer :=
  let buffer : Buffer := { mDesc := bufferDesc, mpGPUData := gpu }
  let r := r.called [DeviceCall.CreateBuffer]
  match bufferDesc.mType with
  | EBufferType.VERTEX_BUFER =>
    let v := r.mVertexBuffers ++ [buffer]
    (static_cast_int (v.length - 1), { r with mVertexBuffers := v })
  | EBufferType.INDEX_BUFFER =>
    let v := r.mIndexBuffers ++ [buffer]
    (static_cast_int (v.length - 1), { r with mIndexBuffers := v })
  | EBufferType.COMPUTE_RW_BUFFER =>
    let v := r.mUABuffers ++ [buffer]
    (static_cast_int (v.length - 1), { r with mUABuffers := v })
  | EBufferType.UNKNOWN =>
    (static_cast_int (2 ^ 64 - 1), r.logged LogLevel.Warning "Unknown Buffer Type")

/-- The function `Renderer::AddRasterizerState`. `dev` is the outcome of
`CreateRasterizerState` (`none`: the call failed). -/
def AddRasterizerState (r : Renderer) (dev : Option Ptr) : RasterizerStateID × Renderer :=
  let r := r.called [DeviceCall.CreateRasterizerState]
  match dev with
  | none => (-1, r.logged LogLevel.Error "Cannot create Rasterizer State")
  | some newRS =>
    let v := r.mRasterizerStates ++ [newRS]
    (static_cast_int (v.length - 1), { r with mRasterizerStates := v })

/-- The function `Renderer::AddRenderTarget(const Texture&,
D3D11_RENDER_TARGET_VIEW_DESC&)`. `dev` is the outcome of
`CreateRenderTargetView` (`none`: the call failed). -/
def AddRenderTarget (r : Renderer) (textureObj : Texture) (dev : Option Ptr) :
    RenderTargetID × Renderer :=
  let r := r.called [DeviceCall.CreateRenderTargetView]
  match dev with
  | none => (-1, r.logged LogLevel.Error "Render Target View")
  | some rtv =>
    let v := r.mRenderTargets ++ [{ texture := textureObj, pRenderTargetView := rtv }]
    (static_cast_int (v.length - 1), { r with mRenderTargets := v })

/-- The function `Renderer::AddRenderTarget(const RenderTargetDesc&)`. -/
def AddRenderTarget_Desc (debugNames : Bool) (r : Renderer) (textureDesc : TextureDesc)
    (texDev : Tex2DOutcome) (dev : Option Ptr) : Option (RenderTargetID × Renderer) :=
  match CreateTexture2D debugNames r textureDesc texDev with
  | none => none
  | some created =>
    match GetTextureObject created.2 created.1 with
    | none => none
    | some textureObj =>
      let r := created.2.called [DeviceCall.CreateRenderTargetView]
      match dev with
      | none => some (-1, r.logged LogLevel.Error "Cannot create Render Target View")
      | some rtv =>
        let v := r.mRenderTargets ++ [{ texture := textureObj, pRenderTargetView := rtv }]
        some (static_cast_int (v.length - 1), { r with mRenderTargets := v })

/-! ## Shader constants -/

/-- The characters of a C string: what precedes the first NUL. A `const char*`
argument and the result of `std::string::c_str()` are read through it. -/
def cstr (s : String) : List Char := s.toList.takeWhile (fun c => c != Char.ofNat 0)

/-- A string that holds no NUL character. -/
def isCString (s : String) : Prop := ∀ c ∈ s.toList, c ≠ Char.ofNat 0

/-- The sign of `strcmp` on two character sequences. -/
def strcmpList : List Char → List Char → Int
  | [], [] => 0
  | [], _ :: _ => -1
  | _ :: _, [] => 1
  | a :: as, b :: bs =>
    if a = b then strcmpList as bs else if a.toNat < b.toNat then -1 else 1

/-- The sign of `strcmp(a, b)`. -/
def strcmp (a b : String) : Int := strcmpList (cstr a) (cstr b)

/-- The call `memcpy(dst, src, n)` on byte buffers; reading or writing past the
end of a buffer is `none`. -/
def memcpy (dst src : List Nat) (n : Nat) : Option (List Nat) :=
  if n ≤ src.length ∧ n ≤ dst.length then some (src.take n ++ dst.drop n) else none

/-- The shader `mShaders[mPipelineState.shader]` and its index. -/
def selectedShader (r : Renderer) : Option (Nat × Shader) :=
  if 0 ≤ r.mPipelineState.shader then
    match r.mShaders[r.mPipelineState.shader.toNat]? with
    | some shader => some (r.mPipelineState.shader.toNat, shader)
    | none => none
  else none

/-- One iteration of the linear lookup of `SetConstant` (source lines
1610-1619), on the shader and the `found` flag. -/
def SetConstant.visit (cName : String) (data : List Nat) (st : Shader × Bool)
    (bufferSlotIDPair : Nat × Nat) : Option (Shader × Bool) :=
  let shader := st.1
  let GPUcBufferSlot := bufferSlotIDPair.1
  let constID := bufferSlotIDPair.2
  match shader.mCPUConstantBuffers[constID]? with
  | none => none
  | some c =>
    if strcmp cName c._name = 0 then
      match memcpy c._data data c._size with
      | none => none
      | some copied =>
        match shader.mConstantBuffers[GPUcBufferSlot]? with
        | none => none
        | some cb =>
          some ({ shader with
                  mCPUConstantBuffers :=
                    shader.mCPUConstantBuffers.set constID { c with _data := copied },
                  mConstantBuffers :=
                    shader.mConstantBuffers.set GPUcBufferSlot { cb with dirty := true } },
                true)
    else some st

/-- The range-for loop of `SetConstant` over the remaining mappings. -/
def SetConstant.loop (cName : String) (data : List Nat) :
    List (Nat × Nat) → Shader × Bool → Option (Shader × Bool)
  | [], st => some st
  | m :: ms, st =>
    match SetConstant.visit cName data st m with
    | none => none
    | some st1 => SetConstant.loop cName data ms st1

/-- The function `Renderer::SetConstant` (the linear lookup that is compiled). -/
def SetConstant (r : Renderer) (cName : String) (data : List Nat) : Option Renderer :=
  match selectedShader r with
  | none => none
  | some (idx, shader) =>
    match SetConstant.loop cName data shader.m_constants (shader, false) with
    | none => none
    | some (shader1, found) =>
      let r := { r with mShaders := r.mShaders.set idx shader1 }
      if !found then
        some (r.logged LogLevel.Error ("CONSTANT NOT FOUND: " ++ String.mk (cstr cName)))
      else some r

/-- The function `Renderer::Apply`: its body is `assert(false)`. -/
def Apply (dbg : Bool) (r : Renderer) : Option Renderer :=
  if dbg then none else some r

/-! ## The binary-search lookup of `SetConstant` -/

/-- How a run of the lambda `BinarySearch` ends: with a matching index, with
the index left when the loop gives up, with an index outside `m_constants`
(or a constant id outside the table of shadows), or still running when the
allotted number of iterations is used up. -/
inductive SearchResult
  | found (currIndex : Nat)
  | notFound (currIndex : Nat)
  | outOfRange (currIndex : Nat)
  | outOfFuel
  deriving DecidableEq, Repr

/-- The difference `a - b` of two `size_t` values. -/
def size_t_sub (a b : Nat) : Nat := (a + 2 ^ 64 - b % 2 ^ 64) % 2 ^ 64

/-- The sum `a + b` of two `size_t` values. -/
def size_t_add (a b : Nat) : Nat := (a + b) % 2 ^ 64

/-- The `while` loop of the lambda `BinarySearch` (source lines 1648-1698);
the first argument bounds the number of iterations. `CPUConstant::Get(constID)`
is read as the shadow `mCPUConstantBuffers[constID]` of the selected shader,
the table the linear lookup indexes. -/
def BinarySearch.loop (cName : String) (shader : Shader) :
    Nat → Nat → Nat → Nat → SearchResult
  | 0, _, _, _ => SearchResult.outOfFuel
  | fuel + 1, lowIndex, highIndex, currIndex =>
    match shader.m_constants[currIndex]? with
    | none => SearchResult.outOfRange currIndex
    | some bufferSlotIDPair =>
      match shader.mCPUConstantBuffers[bufferSlotIDPair.2]? with
      | none => SearchResult.outOfRange currIndex
      | some c =>
        let res := strcmp cName c._name
        if res = 0 then SearchResult.found currIndex
        else if 0 < res then
          let lowIndex := currIndex
          let currIndex :=
            size_t_add lowIndex (size_t_add (size_t_sub highIndex lowIndex) 1 / 2)
          if lowIndex < highIndex then BinarySearch.loop cName shader fuel lowIndex highIndex currIndex
          else SearchResult.notFound currIndex
        else
          let highIndex := size_t_sub currIndex 1
          let currIndex := size_t_add lowIndex (size_t_sub highIndex lowIndex / 2)
          if lowIndex < highIndex then BinarySearch.loop cName shader fuel lowIndex highIndex currIndex
          else SearchResult.notFound currIndex

/-- The lambda `BinarySearch` of `SetConstant` (source lines 1628-1702). -/
def BinarySearch (fuel : Nat) (cName : String) (shader : Shader) : SearchResult :=
  let lowIndex := 0
  let highIndex := size_t_sub shader.m_constants.length 1
  let currIndex := highIndex / 2
  BinarySearch.loop cName shader fuel lowIndex highIndex currIndex

/-- The call `memcmp(a, b, n) != 0` on byte buffers; reading past the end of a
buffer is `none`. -/
def memcmp_ne (a b : List Nat) (n : Nat) : Option Bool :=
  if n ≤ a.length ∧ n ≤ b.length then some (a.take n != b.take n) else none

/-- The write that follows the search (source lines 1704-1713): the data are
copied, and the backing slot marked dirty, only if they differ from the
shadow. -/
def SetConstant_BinarySearch.write (shader : Shader) (data : List Nat)
    (bufferMappingIndex : Nat) : Option Shader :=
  match shader.m_constants[bufferMappingIndex]? with
  | none => none
  | some bufferSlotIDPair =>
    let GPUcBufferSlot := bufferSlotIDPair.1
    let constID := bufferSlotIDPair.2
    match shader.mCPUConstantBuffers[constID]? with
    | none => none
    | some c =>
      match memcmp_ne c._data data c._size with
      | none => none
      | some false => some shader
      | some true =>
        match memcpy c._data data c._size with
        | none => none
        | some copied =>
          match shader.mConstantBuffers[GPUcBufferSlot]? with
          | none => none
          | some cb =>
            some { shader with
                   mCPUConstantBuffers :=
                     shader.mCPUConstantBuffers.set constID { c with _data := copied },
                   mConstantBuffers :=
                     shader.mConstantBuffers.set GPUcBufferSlot { cb with dirty := true } }

/-- The function `Renderer::SetConstant` with the binary-search lookup (the
`#else` branch, source lines 1626-1714). -/
def SetConstant_BinarySearch (fuel : Nat) (r : Renderer) (cName : String) (data : List Nat) :
    Option Renderer :=
  match selectedShader r with
  | none => none
  | some (idx, shader) =>
    match BinarySearch fuel cName shader with
    | SearchResult.found i =>
      match SetConstant_BinarySearch.write shader data i with
      | none => none
      | some shader1 => some { r with mShaders := r.mShaders.set idx shader1 }
    | SearchResult.notFound i =>
      let r := r.logged LogLevel.Error ("CONSTANT NOT FOUND: " ++ String.mk (cstr cName))
      match SetConstant_BinarySearch.write shader data i with
      | none => none
      | some shader1 => some { r with mShaders := r.mShaders.set idx shader1 }
    | SearchResult.outOfRange _ => none
    | SearchResult.outOfFuel => none

/-! ## Deferred texture binds -/

/-- The function `Renderer::SetTexture_`. -/
def SetTexture_ (dbg : Bool) (r : Renderer) (texName : String) (tex : TextureID)
    (slice : Nat) : Option Renderer :=
  if dbg ∧ ¬ (0 ≤ tex) then none
  else
    match selectedShader r with
    | none => none
    | some (_, shader) =>
      let textureName := String.mk (cstr texName)
      let bFound := shader.HasTextureBinding textureName
      if bFound then
        match shader.GetTextureBinding textureName with
        | none => none
        | some binding =>
          let cmd : SetTextureCommand :=
            { textureIDs := [tex], numTextures := 1, binding := binding, slice := slice,
              bUnorderedAccess := false }
          some { r with mSetTextureCmds := r.mSetTextureCmds ++ [cmd] }
      else if dbg then
        some (r.logged LogLevel.Error
          ("Texture not found: \"" ++ textureName ++ "\" in Shader(Id="
            ++ toString r.mPipelineState.shader ++ ") \"" ++ shader.mName ++ "\""))
      else some r

/-- The function `Renderer::SetTexture`. -/
def SetTexture (dbg : Bool) (r : Renderer) (texName : String) (tex : TextureID) :
    Option Renderer :=
  SetTexture_ dbg r texName tex 0

/-- The function `Renderer::SetTextureArray`. -/
def SetTextureArray (dbg : Bool) (r : Renderer) (texName : String)
    (TextureIDs : List TextureID) (numTextures : Nat) : Option Renderer :=
  match selectedShader r with
  | none => none
  | some (_, shader) =>
    let textureName := String.mk (cstr texName)
    if shader.HasTextureBinding textureName then
      match shader.GetTextureBinding textureName with
      | none => none
      | some binding =>
        let cmd : SetTextureCommand :=
          { textureIDs := TextureIDs, numTextures := numTextures, binding := binding,
            slice := 0, bUnorderedAccess := false }
        some { r with mSetTextureCmds := r.mSetTextureCmds ++ [cmd] }
    else if dbg then
      some (r.logged LogLevel.Error
        ("Texture not found: \"" ++ textureName ++ "\" in Shader(Id="
          ++ toString r.mPipelineState.shader ++ ") \"" ++ shader.mName ++ "\""))
    else some r

/-- The function `Renderer::SetRWTexture`. -/
def SetRWTexture (dbg : Bool) (r : Renderer) (texName : String) (tex : TextureID) :
    Option Renderer :=
  if dbg ∧ ¬ (0 ≤ tex) then none
  else
    match selectedShader r with
    | none => none
    | some (_, shader) =>
      let textureName := String.mk (cstr texName)
      let bFound := shader.HasTextureBinding textureName
      if bFound then
        match shader.GetTextureBinding textureName with
        | none => none
        | some binding =>
          let cmd : SetTextureCommand :=
            { textureIDs := [tex], numTextures := 1, binding := binding, slice := 0,
              bUnorderedAccess := true }
          some { r with mSetTextureCmds := r.mSetTextureCmds ++ [cmd] }
      else if dbg then
        some (r.logged LogLevel.Error
          ("UnorderedAccessTexture not found: \"" ++ textureName ++ "\" in Shader(Id="
            ++ toString r.mPipelineState.shader ++ ") \"" ++ shader.mName ++ "\""))
      else some r

/-- The function `Renderer::SetSamplerState`. -/
def SetSamplerState (dbg : Bool) (r : Renderer) (samplerName : String)
    (samplerID : SamplerID) : Option Renderer :=
  match selectedShader r with
  | none => none
  | some (_, shader) =>
    let name := String.mk (cstr samplerName)
    let bFound := shader.HasSamplerBinding name
    if bFound then
      match shader.GetSamplerBinding name with
      | none => none
      | some binding =>
        let cmd : SetSamplerCommand := { samplerID := samplerID, binding := binding }
        some { r with mSetSamplerCmds := r.mSetSamplerCmds ++ [cmd] }
    else if dbg then
      some (r.logged LogLevel.Error
        ("Sampler not found: \"" ++ name ++ "\" in Shader(Id="
          ++ toString r.mPipelineState.shader ++ ") \"" ++ shader.mName ++ "\"\n"))
    else some r

/-! ## Pipeline state -/

/-- The function `Renderer::ResetPipelineState`. -/
def ResetPipelineState (r : Renderer) : Renderer :=
  { r with mPipelineState := { r.mPipelineState with shader := -1 } }

/-- The function `Renderer::BindRenderTarget`: the asserted range check, then
the assignment `renderTargets = { rtvID }`. -/
def BindRenderTarget (dbg : Bool) (r : Renderer) (rtvID : RenderTargetID) : Option Renderer :=
  if dbg ∧ ¬ (-1 < rtvID ∧ rtvID.toNat < r.mRenderTargets.length) then none
  else some { r with mPipelineState := { r.mPipelineState with renderTargets := [rtvID] } }

/-- The function `Renderer::BindDepthTarget`. -/
def BindDepthTarget (dbg : Bool) (r : Renderer) (dsvID : DepthTargetID) : Option Renderer :=
  if dbg ∧ ¬ (-1 < dsvID ∧ dsvID.toNat < r.mDepthTargets.length) then none
  else some { r with mPipelineState := { r.mPipelineState with depthTargets := dsvID } }

/-- The function `Renderer::UnbindRenderTargets`. -/
def UnbindRenderTargets (r : Renderer) : Renderer :=
  { r with mPipelineState :=
      { r.mPipelineState with renderTargets := [-1, -1, -1, -1, -1, -1] } }

/-- The function `Renderer::UnbindDepthTarget`. -/
def UnbindDepthTarget (r : Renderer) : Renderer :=
  { r with mPipelineState := { r.mPipelineState with depthTargets := -1 } }

/-- The conversion `static_cast<float>(n)` of an `unsigned`: the nearest
single-precision value (ties to even), which is an integer. Values below 2^24
are kept as they are. -/
def static_cast_float (n : Nat) : Int :=
  if n < 2 ^ 24 then (n : Int)
  else
    let e := Nat.log2 n - 23
    let q := n / 2 ^ e
    let rem := n % 2 ^ e
    let half := 2 ^ (e - 1)
    let q := if half < rem ∨ (rem = half ∧ q % 2 = 1) then q + 1 else q
    ((q * 2 ^ e : Nat) : Int)

/-- The function `Renderer::SetVertexBuffer`. -/
def SetVertexBuffer (r : Renderer) (bufferID : BufferID) : Renderer :=
  { r with mPipelineState := { r.mPipelineState with vertexBuffer := bufferID } }

/-- The function `Renderer::SetIndexBuffer`. -/
def SetIndexBuffer (r : Renderer) (bufferID : BufferID) : Renderer :=
  { r with mPipelineState := { r.mPipelineState with indexBuffer := bufferID } }

/-- The function `Renderer::SetViewport(const unsigned, const unsigned)`. -/
def SetViewport (r : Renderer) (width height : Nat) : Renderer :=
  { r with mPipelineState :=
      { r.mPipelineState with
        viewPort := { TopLeftX := 0, TopLeftY := 0, Width := static_cast_float width,
                      Height := static_cast_float height, MinDepth := 0, MaxDepth := 1 } } }

/-- The function `Renderer::SetViewport(const D3D11_VIEWPORT&)`. -/
def SetViewport_D3D11 (r : Renderer) (viewport : Viewport) : Renderer :=
  { r with mPipelineState := { r.mPipelineState with viewPort := viewport } }

/-- The function `Renderer::SetRasterizerState`: the asserted range check, then
the assignment. -/
def SetRasterizerState (dbg : Bool) (r : Renderer) (rsStateID : RasterizerStateID) :
    Option Renderer :=
  if dbg ∧ ¬ (-1 < rsStateID ∧ rsStateID.toNat < r.mRasterizerStates.length) then none
  else some { r with mPipelineState := { r.mPipelineState with rasterizerState := rsStateID } }

/-- The function `Renderer::SetBlendState`. -/
def SetBlendState (dbg : Bool) (r : Renderer) (blendStateID : BlendStateID) : Option Renderer :=
  if dbg ∧ ¬ (-1 < blendStateID ∧ blendStateID.toNat < r.mBlendStates.length) then none
  else some { r with mPipelineState := { r.mPipelineState with blendState := blendStateID } }

/-- The function `Renderer::SetDepthStencilState`. -/
def SetDepthStencilState (dbg : Bool) (r : Renderer)
    (depthStencilStateID : DepthStencilStateID) : Option Renderer :=
  if dbg ∧ ¬ (-1 < depthStencilStateID ∧
      depthStencilStateID.toNat < r.mDepthStencilStates.length) then none
  else some { r with
    mPipelineState := { r.mPipelineState with depthStencilState := depthStencilStateID } }

/-! ## Depth-stencil states -/

/-- The conversion of a `bool` to the `int` a handle is. -/
def bool_to_int (b : Bool) : Int := if b then 1 else 0

/-- The function `Renderer::AddDepthStencilState(bool, bool)`. `dev` is the
outcome of `CreateDepthStencilState` (`none`: the call failed); on failure the
function executes `return false`. -/
def AddDepthStencilState (r : Renderer) (_bEnableDepth _bEnableStencil : Bool)
    (dev : Option Ptr) : DepthStencilStateID × Renderer :=
  let r := r.called [DeviceCall.CreateDepthStencilState]
  match dev with
  | none => (bool_to_int false, r.logged LogLevel.Error "Depth Stencil")
  | some newDSState =>
    let v := r.mDepthStencilStates ++ [newDSState]
    (static_cast_int (v.length - 1), { r with mDepthStencilStates := v })

/-- The function `Renderer::AddDepthStencilState(const
D3D11_DEPTH_STENCIL_DESC&)`. -/
def AddDepthStencilState_Desc (r : Renderer) (dev : Option Ptr) :
    DepthStencilStateID × Renderer :=
  let r := r.called [DeviceCall.CreateDepthStencilState]
  match dev with
  | none => (bool_to_int false, r.logged LogLevel.Error "Depth Stencil")
  | some newDSState =>
    let v := r.mDepthStencilStates ++ [newDSState]
    (static_cast_int (v.length - 1), { r with mDepthStencilStates := v })

/-! ## Shader hot reload -/

/-- What one shader answers when `ReloadShaders` reaches it: the result of
`HasSourceFileBeenUpdated()`, the result of `Reload(m_device)` and the shader
that `Reload` leaves behind. -/
structure ReloadOutcome where
  updated : Bool
  success : Bool
  reloaded : Shader

/-- The locals of `ReloadShaders`, the shaders visited so far, and the ghost
list of the registry positions on which `Reload` was called. -/
structure ReloadState where
  shaders : List Shader
  reloadedShaderCount : Int
  reloadedShaderNames : List String
  reloadCalls : List Nat
  deriving DecidableEq, Repr

/-- The range-for loop of `ReloadShaders` over the shaders from position `i`
on. -/
def ReloadShaders.loop (poll : Nat → ReloadOutcome) :
    Nat → List Shader → ReloadState → ReloadState
  | _, [], st => st
  | i, pShader :: rest, st =>
    if (poll i).updated then
      let st := { st with reloadCalls := st.reloadCalls ++ [i],
                          shaders := st.shaders ++ [(poll i).reloaded] }
      let bLoadSuccess := (poll i).success
      if !bLoadSuccess then ReloadShaders.loop poll (i + 1) rest st
      else
        ReloadShaders.loop poll (i + 1) rest
          { st with reloadedShaderCount := st.reloadedShaderCount + 1,
                    reloadedShaderNames :=
                      st.reloadedShaderNames ++ [(poll i).reloaded.mName] }
    else ReloadShaders.loop poll (i + 1) rest { st with shaders := st.shaders ++ [pShader] }

/-- The function `Renderer::ReloadShaders`; the second component is the list
of registry positions on which `Reload` was called, in call order. -/
def ReloadShaders (r : Renderer) (poll : Nat → ReloadOutcome) : Renderer × List Nat :=
  let st := ReloadShaders.loop poll 0 r.mShaders
    { shaders := [], reloadedShaderCount := 0, reloadedShaderNames := [], reloadCalls := [] }
  let r := { r with mShaders := st.shaders }
  if st.reloadedShaderCount = 0 then
    (r.logged LogLevel.Info
      "No updates have been made to shader source files: no shaders have been loaded",
     st.reloadCalls)
  else
    (st.reloadedShaderNames.foldl (fun acc name => acc.logged LogLevel.Info ("\t" ++ name))
      (r.logged LogLevel.Info
        ("Reloaded " ++ toString st.reloadedShaderCount ++ " Shaders:")),
     st.reloadCalls)

/-! ## Shutdown -/

/-- Modelled from the spec: `Texture::Release` (`Texture.cpp` is not among the
sources) releases the views and the backing resource of the texture, clearing
the pointers, and marks the slot as free for `CreateTexture2D` (id -1). -/
def Texture.Release (t : Texture) : Texture :=
  { t with _tex2D := none, _srv := none, _uav := none, _srvArray := [], _uavArray := [],
           _id := -1 }

/-- The classes of resources that `Exit` deals with, and the command queues. -/
inductive ResourceClass
  | Queues
  | Buffers
  | Shaders
  | Textures
  | Samplers
  | RenderTargets
  | RasterizerStates
  | DepthStencilStates
  | BlendStates
  | DepthTargets
  | Device
  deriving DecidableEq, Repr

/-- The release events of one loop of `Exit`: one event, tagged with the class
and the position, for every element whose flag says that it is released. -/
def releases (c : ResourceClass) (flags : List Bool) : List (ResourceClass × Nat) :=
  ((List.range flags.length).zip flags).filterMap
    (fun p => if p.2 then some (c, p.1) else none)

/-- The function `Renderer::Exit`. `m_Direct3D` tells whether the device
manager pointer is non-null. The result is the renderer left behind, the
release calls in the order in which they are made, and the device manager
pointer afterwards. -/
def Exit (r : Renderer) (m_Direct3D : Bool) :
    Renderer × List (ResourceClass × Nat) × Bool :=
  let trace :=
    releases ResourceClass.Buffers (r.mVertexBuffers.map (fun _ => true))
    ++ releases ResourceClass.Buffers (r.mIndexBuffers.map (fun _ => true))
    ++ releases ResourceClass.Buffers (r.mUABuffers.map (fun _ => true))
    ++ releases ResourceClass.Shaders (r.mShaders.map (fun _ => true))
    ++ releases ResourceClass.Textures (r.mTextures.map (fun _ => true))
    ++ releases ResourceClass.Samplers (r.mSamplers.map (fun s => s._samplerState.isSome))
    ++ releases ResourceClass.RenderTargets
        (r.mRenderTargets.map (fun rt => rt.pRenderTargetView.isSome))
    ++ releases ResourceClass.RasterizerStates (r.mRasterizerStates.map (fun rs => rs.isSome))
    ++ releases ResourceClass.DepthStencilStates
        (r.mDepthStencilStates.map (fun dss => dss.isSome))
    ++ releases ResourceClass.BlendStates (r.mBlendStates.map (fun bs => bs.ptr.isSome))
    ++ releases ResourceClass.DepthTargets
        (r.mDepthTargets.map (fun dt => dt.pDepthStencilView.isSome))
    ++ (if m_Direct3D then [(ResourceClass.Device, 0)] else [])
  let r1 : Renderer :=
    { r with
      mVertexBuffers := [], mIndexBuffers := [], mUABuffers := [],
      mShaders := [],
      mTextures := [],
      mSamplers := r.mSamplers.map (fun s => { s with _samplerState := none }),
      mRenderTargets := r.mRenderTargets.map (fun rt =>
        { rt with pRenderTargetView := none,
                  texture := { rt.texture with _srv := none, _tex2D := none } }),
      mRasterizerStates := r.mRasterizerStates.map (fun _ => none),
      mDepthStencilStates := r.mDepthStencilStates.map (fun _ => none),
      mBlendStates := r.mBlendStates.map (fun _ => { ptr := none }),
      mDepthTargets := r.mDepthTargets.map (fun dt => { dt with pDepthStencilView := none }) }
  (r1.logged LogLevel.Info "---------------------------", trace, false)

/-- The rank of a class in the order in which `Exit` releases: buffers,
shaders, textures, samplers, render targets, fixed-function states, depth
targets, device. -/
def ResourceClass.rank : ResourceClass → Nat
  | ResourceClass.Queues => 0
  | ResourceClass.Buffers => 0
  | ResourceClass.Shaders => 1
  | ResourceClass.Textures => 2
  | ResourceClass.Samplers => 3
  | ResourceClass.RenderTargets => 4
  | ResourceClass.RasterizerStates => 5
  | ResourceClass.DepthStencilStates => 5
  | ResourceClass.BlendStates => 5
  | ResourceClass.DepthTargets => 6
  | ResourceClass.Device => 7

/-! ## Depth targets -/

/-- Modelled from the spec: the fields of `DepthTargetDesc` that
`AddDepthTarget` and `RecycleDepthTarget` read (`Renderer.h` is not among the
sources). -/
structure DepthTargetDesc where
  format : Nat
  textureDesc : TextureDesc
  deriving DecidableEq, Repr

/-- One pass through the body of the inner loop of `AddDepthTarget`: `dsv k` is
the outcome of `CreateDepthStencilView` for first array slice `k` (`none`: the
call failed). -/
def AddDepthTarget.view (textureObj : Texture) (dsv : Nat → Option Ptr)
    (st : Renderer × List DepthTargetID) (depthTargetIndex : Nat) :
    Renderer × List DepthTargetID :=
  let r := st.1.called [DeviceCall.CreateDepthStencilView]
  match dsv depthTargetIndex with
  | none => (r.logged LogLevel.Error "Depth Stencil Target View", st.2)
  | some view =>
    let v := r.mDepthTargets ++ [{ texture := textureObj, pDepthStencilView := view }]
    ({ r with mDepthTargets := v }, st.2.set depthTargetIndex (static_cast_int (v.length - 1)))

/-- The function `Renderer::AddDepthTarget`. The `int` product `numTextures`
must be a representable, non-negative vector size. -/
def AddDepthTarget (debugNames : Bool) (r : Renderer) (depthTargetDesc : DepthTargetDesc)
    (texDev : Tex2DOutcome) (dsv : Nat → Option Ptr) :
    Option (List DepthTargetID × Renderer) :=
  let bIsDepthTargetCubemap := depthTargetDesc.textureDesc.bIsCubeMap
  let numTextures : Int :=
    depthTargetDesc.textureDesc.arraySize * (if bIsDepthTargetCubemap then 6 else 1)
  if numTextures < 0 ∨ 2 ^ 31 ≤ numTextures then none
  else
    let newDepthTargetIDs : List DepthTargetID := List.replicate numTextures.toNat (-1)
    match CreateTexture2D debugNames r depthTargetDesc.textureDesc texDev with
    | none => none
    | some created =>
      match GetTextureObject created.2 created.1 with
      | none => none
      | some textureObj =>
        let faceCount : Nat := if bIsDepthTargetCubemap then 6 else 1
        let cubemapCount : Nat :=
          if bIsDepthTargetCubemap then numTextures.toNat / faceCount else numTextures.toNat
        let st := (List.range cubemapCount).foldl
          (fun st i => (List.range faceCount).foldl
            (fun st face => AddDepthTarget.view textureObj dsv st (i * faceCount + face)) st)
          (created.2, newDepthTargetIDs)
        some (st.2, st.1)

/-- Modelled from the spec: `Renderer::GetDepthTargetTexture` (declared in
`Renderer.h`, not among the sources) returns the id of the texture of depth
target `id`. -/
def GetDepthTargetTexture (r : Renderer) (id : DepthTargetID) : Option TextureID :=
  if 0 ≤ id then (r.mDepthTargets[id.toNat]?).map (fun dt => dt.texture._id) else none

/-- One pass through the view loop of `RecycleDepthTarget` (source lines
1510-1519). `textureObj` is a reference to the slot `mTextures[texSlot]`;
`dsv res i` is the outcome of `CreateDepthStencilView` on resource `res` for
first array slice `i` (`none`: the call failed and the view stays null). -/
def RecycleDepthTarget.view (texSlot dtSlot : Nat) (dsv : Ptr → Nat → Option Ptr)
    (st : Option Renderer) (i : Nat) : Option Renderer :=
  match st with
  | none => none
  | some r =>
    match r.mTextures[texSlot]?, r.mDepthTargets[dtSlot]? with
    | some textureObj, some dt =>
      let r := r.called [DeviceCall.CreateDepthStencilView]
      match dsv textureObj._tex2D i with
      | none => some (r.logged LogLevel.Error "Depth Stencil Target View")
      | some view =>
        some { r with mDepthTargets := r.mDepthTargets.set dtSlot
                        { dt with pDepthStencilView := view } }
    | _, _ => none

/-- The renderer after `textureObj.Release()` and after the release of the
view of the depth target (source lines 1494-1496). -/
def RecycleDepthTarget.release (r : Renderer) (texSlot dtSlot : Nat) (textureObj : Texture)
    (dt : DepthTarget) : Renderer :=
  { r with
    mTextures := r.mTextures.set texSlot textureObj.Release,
    mDepthTargets := r.mDepthTargets.set dtSlot { dt with pDepthStencilView := none } }

/-- The function `Renderer::RecycleDepthTarget`; `profile` says that `PROFILE`
is defined. The old view is released through its pointer, which must not be
null. -/
def RecycleDepthTarget (dbg profile : Bool) (r : Renderer) (depthTargetID : DepthTargetID)
    (newDepthTargetDesc : DepthTargetDesc) (texDev : Tex2DOutcome)
    (dsv : Ptr → Nat → Option Ptr) : Option (Bool × Renderer) :=
  let numTextures := newDepthTargetDesc.textureDesc.arraySize
  if dbg ∧ newDepthTargetDesc.textureDesc.arraySize ≠ 1 then none
  else
    match GetDepthTargetTexture r depthTargetID with
    | none => none
    | some texID =>
      match GetTextureObject r texID, r.mDepthTargets[depthTargetID.toNat]? with
      | some textureObj, some dt =>
        match dt.pDepthStencilView with
        | none => none
        | some _ =>
          let r := RecycleDepthTarget.release r texID.toNat depthTargetID.toNat textureObj dt
          match CreateTexture2D (dbg || profile) r newDepthTargetDesc.textureDesc texDev with
          | none => none
          | some created =>
            match (List.range numTextures.toNat).foldl
                (RecycleDepthTarget.view texID.toNat depthTargetID.toNat dsv)
                (some created.2) with
            | none => none
            | some r => some (true, r)
      | _, _ => none

/-! ## Start-up -/

/-- What the device hands back during `Renderer::Initialize`: the result of
`D3DManager::Initialize`, the back buffer (`none`: `GetBuffer` failed), its
shader resource view, the default render-target view (`none`: the call
failed), the outcomes for the default depth target, and the contents of the
four registries of default state objects once the device has filled their
slots, with the log lines of the rasterizer states that could not be
created. -/
structure InitOutcome where
  direct3D : Bool
  backBuffer : Option Ptr
  backBufferSrv : Ptr
  defaultRTV : Option Ptr
  depthTex : Tex2DOutcome
  depthDsv : Nat → Option Ptr
  rasterizerStates : List Ptr
  rasterizerErrors : List String
  blendStates : List BlendState
  samplers : List Sampler
  depthStencilStates : List Ptr

/-- The format `EImageFormat::R32`. -/
def R32 : Nat := 39

/-- The format `EImageFormat::D32F`. -/
def D32F : Nat := 40

/-- The usage `ETextureUsage(DEPTH_TARGET | RESOURCE)`. -/
def DEPTH_TARGET_RESOURCE : Nat := 64 + 8

/-- The function `Renderer::Initialize`. `depthTexDesc0` is the
default-constructed `TextureDesc` (its member initialisers are in `Renderer.h`,
not among the sources). The default state objects (source lines 296-497) are
written into slots of the four state registries; none of those steps ends the
function early, since `checkFailed` tests the `bool result`, which is true
there. -/
def Initialize (debugNames : Bool) (r : Renderer) (settings_width settings_height : Int)
    (depthTexDesc0 : TextureDesc) (dev : InitOutcome) : Option (Bool × Renderer) :=
  if !dev.direct3D then some (false, r)
  else
    match dev.backBuffer with
    | none =>
      some (false, r.logged LogLevel.Error
        "Cannot get back buffer pointer in DefaultRenderTarget initialization")
    | some backBufferPtr =>
      let texture : Texture := { Texture.new with _tex2D := backBufferPtr, _id := 0 }
      let r := r.called [DeviceCall.CreateShaderResourceView]
      let texture := { texture with _srv := dev.backBufferSrv }
      let r := r.called [DeviceCall.CreateRenderTargetView]
      match dev.defaultRTV with
      | none => some (false, r.logged LogLevel.Error "Cannot create default render target view.")
      | some rtv =>
        let r := { r with mTextures := r.mTextures ++ [texture] }
        let defaultRT : RenderTarget :=
          { texture := { texture with _id := static_cast_int (r.mTextures.length - 1) },
            pRenderTargetView := rtv }
        let r := { r with mRenderTargets := r.mRenderTargets ++ [defaultRT] }
        let depthTexDesc : TextureDesc :=
          { depthTexDesc0 with
            width := settings_width, height := settings_height, arraySize := 1, mipCount := 1,
            format := R32, usage := DEPTH_TARGET_RESOURCE }
        let depthDesc : DepthTargetDesc := { format := D32F, textureDesc := depthTexDesc }
        match AddDepthTarget debugNames r depthDesc dev.depthTex dev.depthDsv with
        | none => none
        | some (ids, r) =>
          match ids[0]? with
          | none => none
          | some id =>
            match GetDepthTargetTexture r id with
            | none => none
            | some _mDefaultDepthBufferTexture =>
              let r := dev.rasterizerErrors.foldl
                (fun acc e => acc.logged LogLevel.Error e) r
              some (true,
                { r with
                  mRasterizerStates := dev.rasterizerStates,
                  mBlendStates := dev.blendStates,
                  mSamplers := dev.samplers,
                  mDepthStencilStates := dev.depthStencilStates })

/-! ## Concrete states used by the examples -/

/-- A pipeline state with nothing selected. -/
def PipelineState.unset : PipelineState :=
  { shader := -1, vertexBuffer := -1, indexBuffer := -1, topology := 0,
    viewPort := { TopLeftX := 0, TopLeftY := 0, Width := 0, Height := 0,
                  MinDepth := 0, MaxDepth := 0 },
    rasterizerState := -1, depthStencilState := -1, blendState := -1,
    renderTargets := [], depthTargets := -1 }

/-- A renderer whose registries, queues and traces are all empty. -/
def Renderer.blank : Renderer :=
  { mTextures := [], mShaders := [], mVertexBuffers := [], mIndexBuffers := [],
    mUABuffers := [], mSamplers := [], mRasterizerStates := [], mDepthStencilStates := [],
    mBlendStates := [], mRenderTargets := [], mDepthTargets := [],
    mPipelineState := PipelineState.unset, mSetTextureCmds := [], mSetSamplerCmds := [],
    deviceCalls := [], log := [] }

/-- A live texture with the given id and name. -/
def Texture.named (id : TextureID) (name : String) : Texture :=
  { Texture.new with _id := id, _name := name, _tex2D := some 1, _srv := some 2 }

/-- A registry holding the back buffer texture and "brick.png". -/
def brickRegistry : Renderer :=
  { Renderer.blank with mTextures := [Texture.named 0 "", Texture.named 1 "brick.png"] }

/-- A device on which every creation succeeds. -/
def Tex2DOutcome.ok : Tex2DOutcome :=
  { tex2D := some 7, srv := fun i => some (100 + i), uav := fun i => some (200 + i) }

/-- An image file that loads: 64 by 32 pixels. -/
def ImageLoad.ok : ImageLoad :=
  { width := 64, height := 32, depth := 1, arraySize := 1, mipLevels := 1, format := 28,
    srv := some 3, tex2D := some (some 4, 64, 32) }

/-- A registry whose only texture is named by two double quotes. -/
def C1_registry : Renderer :=
  { Renderer.blank with mTextures := [Texture.named 0 quotedEmpty] }

/-- A released slot: a texture whose id is -1, the slots that
`CreateTexture2D` looks for. -/
def Texture.released : Texture := { Texture.new with _id := -1 }

/-- A registry with two released slots, at index 1 and at index 3. -/
def recycledRegistry : Renderer :=
  { Renderer.blank with
    mTextures := [Texture.named 0 "", Texture.released, Texture.named 2 "a.png",
                  Texture.released, Texture.named 4 "b.png"] }

/-- A descriptor of a plain 256 by 128 texture named "new". -/
def TextureDesc.plain : TextureDesc :=
  { TextureDesc.zero with width := 256, height := 128, arraySize := 1, mipCount := 1,
                          usage := 8, texFileName := "new" }

/-- One call `CreateTextureFromFile(texFileName, fileRoot, bGenerateMips)`
together with what the file system and the device answer to it. -/
structure FileCall where
  texFileName : String
  fileRoot : String
  bGenerateMips : Bool
  load : Option ImageLoad
  dev : Tex2DOutcome

/-- A sequence of `CreateTextureFromFile` calls, run in order; the handles are
collected in call order. -/
def runCreates (dbg profile : Bool) :
    Renderer → List FileCall → Option (List TextureID × Renderer)
  | r, [] => some ([], r)
  | r, c :: cs =>
    match CreateTextureFromFile dbg profile r c.texFileName c.fileRoot c.bGenerateMips c.load
        c.dev with
    | none => none
    | some (h, r1) =>
      match runCreates dbg profile r1 cs with
      | none => none
      | some (hs, r2) => some (h :: hs, r2)

/-- The registry right after `Initialize`: slot 0 is the back buffer texture. -/
def backBufferRegistry : Renderer :=
  { Renderer.blank with mTextures := [Texture.named 0 ""] }

/-- A call for a file that cannot be loaded. -/
def FileCall.missing (name : String) : FileCall :=
  { texFileName := name, fileRoot := "Data/Textures/", bGenerateMips := false,
    load := none, dev := Tex2DOutcome.ok }

/-- A call for a file that loads. -/
def FileCall.present (name : String) (bGenerateMips : Bool) : FileCall :=
  { texFileName := name, fileRoot := "Data/Textures/", bGenerateMips := bGenerateMips,
    load := some ImageLoad.ok, dev := Tex2DOutcome.ok }

/-- Two calls with distinct names whose files load, the second with mips. -/
def twoCalls : List FileCall :=
  [FileCall.present "brick.png" false, FileCall.present "wood.png" true]

/-- The id invariant of the texture registry: every slot stores its own index
or -1. -/
def RegistryInv (l : List Texture) : Prop :=
  ∀ (i : Nat) (t : Texture), l[i]? = some t → t._id = (i : Int) ∨ t._id = -1

/-- Every registry that hands out handles has fewer than 2^31 entries, so that
an index is representable as an `int` handle. -/
def SizesOk (r : Renderer) : Prop :=
  r.mTextures.length < 2 ^ 31 ∧ r.mVertexBuffers.length < 2 ^ 31 ∧
  r.mIndexBuffers.length < 2 ^ 31 ∧ r.mUABuffers.length < 2 ^ 31 ∧
  r.mRasterizerStates.length < 2 ^ 31 ∧ r.mRenderTargets.length < 2 ^ 31

/-- The buffer registry of a kind. -/
def Renderer.buffersOf (r : Renderer) : EBufferType → List Buffer
  | EBufferType.VERTEX_BUFER => r.mVertexBuffers
  | EBufferType.INDEX_BUFFER => r.mIndexBuffers
  | EBufferType.COMPUTE_RW_BUFFER => r.mUABuffers
  | EBufferType.UNKNOWN => []

/-- The effect of the `SetConstant` loop over the mappings `ms` on a shader:
nothing but shadow bytes and dirty flags changes; the first `_size` bytes of a
shadow are either kept or, for a matching constant listed in `ms`, replaced by
those of `data`; a dirty flag is either kept or raised for a slot that `ms`
pairs with a matching constant. -/
structure LoopRel (cName : String) (data : List Nat) (ms : List (Nat × Nat))
    (s s1 : Shader) : Prop where
  name_eq : s1.mName = s.mName
  constants_eq : s1.m_constants = s.m_constants
  textures_eq : s1.mTextureBindings = s.mTextureBindings
  samplers_eq : s1.mSamplerBindings = s.mSamplerBindings
  cpu_length : s1.mCPUConstantBuffers.length = s.mCPUConstantBuffers.length
  cb_length : s1.mConstantBuffers.length = s.mConstantBuffers.length
  cpu : ∀ (j : Nat) (c : CPUConstant), s.mCPUConstantBuffers[j]? = some c →
    ∃ c1 : CPUConstant, s1.mCPUConstantBuffers[j]? = some c1 ∧
      c1._name = c._name ∧ c1._size = c._size ∧ c1._data.length = c._data.length ∧
      c1._data.drop c._size = c._data.drop c._size ∧
      (c1._data.take c._size = c._data.take c._size ∨
        (strcmp cName c._name = 0 ∧ (∃ m ∈ ms, m.2 = j) ∧
          c1._data.take c._size = data.take c._size))
  cb : ∀ (k : Nat) (b : ConstantBuffer), s.mConstantBuffers[k]? = some b →
    ∃ b1 : ConstantBuffer, s1.mConstantBuffers[k]? = some b1 ∧ b1.data = b.data ∧
      (b1.dirty = b.dirty ∨
        (b1.dirty = true ∧ ∃ m ∈ ms, m.1 = k ∧
          ∃ c : CPUConstant, s.mCPUConstantBuffers[m.2]? = some c ∧ strcmp cName c._name = 0))

/-- The mappings `ms` can be visited on shader `s` without an out-of-range
access: every constant id is valid and, for a matching constant, the shadow and
`data` hold `_size` bytes and the buffer slot is valid. -/
def Visitable (cName : String) (data : List Nat) (s : Shader) (ms : List (Nat × Nat)) : Prop :=
  ∀ m ∈ ms, ∃ c : CPUConstant, s.mCPUConstantBuffers[m.2]? = some c ∧
    (strcmp cName c._name = 0 →
      c._size ≤ data.length ∧ c._size ≤ c._data.length ∧ m.1 < s.mConstantBuffers.length)

/-- A shader whose constants "color", "intensity", "color" are bound to the
buffer slots 0, 0, 1. -/
def colorShader : Shader :=
  { mName := "forward",
    m_constants := [(0, 0), (0, 1), (1, 2)],
    mCPUConstantBuffers :=
      [{ _name := "color", _size := 4, _data := [0, 0, 0, 0] },
       { _name := "intensity", _size := 4, _data := [0, 0, 0, 0] },
       { _name := "color", _size := 4, _data := [9, 9, 9, 9] }],
    mConstantBuffers := [{ dirty := false, data := some 10 }, { dirty := false, data := some 11 }],
    mTextureBindings := [("diffuseMap", { shaderStage := 4, slot := 0 })],
    mSamplerBindings := [("linearSampler", { shaderStage := 4, slot := 0 })] }

/-- A renderer whose selected shader is `colorShader`. -/
def colorRenderer : Renderer :=
  { Renderer.blank with
    mShaders := [colorShader],
    mPipelineState := { PipelineState.unset with shader := 0 } }

/-- A shader whose constant "viewProj" backs the buffer slots 2 and 5. -/
def viewProjShader : Shader :=
  { mName := "deferred",
    m_constants := [(2, 0), (5, 0)],
    mCPUConstantBuffers := [{ _name := "viewProj", _size := 4, _data := [0, 0, 0, 0] }],
    mConstantBuffers := List.replicate 6 { dirty := false, data := some 20 },
    mTextureBindings := [],
    mSamplerBindings := [] }

/-- A renderer whose selected shader is `viewProjShader`. -/
def viewProjRenderer : Renderer :=
  { Renderer.blank with
    mShaders := [viewProjShader],
    mPipelineState := { PipelineState.unset with shader := 0 } }

/-- A renderer like `colorRenderer` in which slot 0 is already dirty. -/
def dirtyRenderer : Renderer :=
  { Renderer.blank with
    mShaders := [{ colorShader with
      mConstantBuffers :=
        [{ dirty := true, data := some 10 }, { dirty := false, data := some 11 }] }],
    mPipelineState := { PipelineState.unset with shader := 0 } }

/-- A shader whose constant names differ from "color" in letter case, or are a
proper prefix or an extension of it; each constant has its own buffer slot. -/
def caseShader : Shader :=
  { mName := "case",
    m_constants := [(0, 0), (1, 1), (2, 2), (3, 3)],
    mCPUConstantBuffers :=
      [{ _name := "color", _size := 2, _data := [0, 0] },
       { _name := "Color", _size := 2, _data := [0, 0] },
       { _name := "col", _size := 2, _data := [0, 0] },
       { _name := "color2", _size := 2, _data := [0, 0] }],
    mConstantBuffers := List.replicate 4 { dirty := false, data := some 30 },
    mTextureBindings := [],
    mSamplerBindings := [] }

/-- A renderer whose selected shader is `caseShader`. -/
def caseRenderer : Renderer :=
  { Renderer.blank with
    mShaders := [caseShader],
    mPipelineState := { PipelineState.unset with shader := 0 } }

/-- A renderer like `colorRenderer` with one texture bind already queued. -/
def queuedRenderer : Renderer :=
  { colorRenderer with
    mSetTextureCmds :=
      [{ textureIDs := [3], numTextures := 1, binding := { shaderStage := 4, slot := 7 },
         slice := 0, bUnorderedAccess := false }] }

/-- Two renderers agree on both command queues and on the pipeline state. -/
def SameBindState (r r1 : Renderer) : Prop :=
  r1.mSetTextureCmds = r.mSetTextureCmds ∧ r1.mSetSamplerCmds = r.mSetSamplerCmds ∧
  r1.mPipelineState = r.mPipelineState

/-- A render target over a named texture. -/
def RenderTarget.over (id : TextureID) (name : String) (view : Nat) : RenderTarget :=
  { texture := Texture.named id name, pRenderTargetView := some view }

/-- A renderer with three render targets, of which 0 and 2 are bound, and a
bound depth target. -/
def targetsRenderer : Renderer :=
  { Renderer.blank with
    mTextures := [Texture.named 0 "", Texture.named 1 "gbufferA", Texture.named 2 "gbufferB"],
    mRenderTargets :=
      [RenderTarget.over 0 "" 40, RenderTarget.over 1 "gbufferA" 41,
       RenderTarget.over 2 "gbufferB" 42],
    mDepthTargets := [{ texture := Texture.named 1 "gbufferA", pDepthStencilView := some 50 }],
    mPipelineState :=
      { PipelineState.unset with
        shader := 0, vertexBuffer := 3, indexBuffer := 4, renderTargets := [0, 2],
        depthTargets := 0, rasterizerState := 1, blendState := 2, depthStencilState := 1 } }

/-- A device on which the creation of the 2D texture fails: the backing
resource stays null. -/
def Tex2DOutcome.failed : Tex2DOutcome :=
  { tex2D := none, srv := fun _ => none, uav := fun _ => none }

/-- A descriptor of a plain 256 by 128 texture without a name. -/
def TextureDesc.unnamed : TextureDesc := { TextureDesc.plain with texFileName := "" }

/-- A renderer that holds one object of every class and one queued texture
bind. -/
def fullRenderer : Renderer :=
  { targetsRenderer with
    mShaders := [colorShader],
    mVertexBuffers :=
      [{ mDesc := { mType := EBufferType.VERTEX_BUFER, mElementCount := 3, mStride := 12 },
         mpGPUData := some 60 }],
    mSamplers := [{ _id := 0, _samplerState := some 70, _name := "" }],
    mRasterizerStates := [some 80],
    mDepthStencilStates := [some 81],
    mBlendStates := [{ ptr := some 82 }],
    mSetTextureCmds := queuedRenderer.mSetTextureCmds }

/-- A trace of release calls respects the release order: no call on a class is
made before a call on a class of lower rank. -/
def ReleasedInOrder (trace : List (ResourceClass × Nat)) : Prop :=
  trace.Pairwise (fun a b => a.1.rank ≤ b.1.rank)

/-- The number of views among the first `k` whose creation succeeds. -/
def createdBefore (dsv : Nat → Option Ptr) (k : Nat) : Nat :=
  ((List.range k).filter (fun j => (dsv j).isSome)).length

/-- A depth cubemap array of two cubes. -/
def shadowCubesDesc : DepthTargetDesc :=
  { format := 40, textureDesc := { TextureDesc.plain with arraySize := 2, bIsCubeMap := true } }

/-- A device on which the view for slice 3 fails and every other one is
created. -/
def sliceThreeFails (k : Nat) : Option Ptr := if k = 3 then none else some (some (100 + k))

/-- The names of the constants of a shader, in the order of `m_constants`. -/
def Shader.constantNames (s : Shader) : List String :=
  s.m_constants.filterMap (fun m => (s.mCPUConstantBuffers[m.2]?).map (fun c => c._name))

/-- The constant list of a shader is sorted by name. -/
def SortedByName (s : Shader) : Prop :=
  s.constantNames.Pairwise (fun a b => strcmp a b ≤ 0)

/-- A shader with the constants "ambient", "color" and "tint", sorted by name. -/
def sortedShader : Shader :=
  { mName := "unlit",
    m_constants := [(0, 0), (0, 1), (1, 2)],
    mCPUConstantBuffers :=
      [{ _name := "ambient", _size := 4, _data := [0, 0, 0, 0] },
       { _name := "color", _size := 4, _data := [5, 5, 5, 5] },
       { _name := "tint", _size := 4, _data := [0, 0, 0, 0] }],
    mConstantBuffers := [{ dirty := false, data := some 10 }, { dirty := false, data := some 11 }],
    mTextureBindings := [],
    mSamplerBindings := [] }

/-- A renderer whose selected shader is `sortedShader`. -/
def sortedRenderer : Renderer :=
  { Renderer.blank with
    mShaders := [sortedShader],
    mPipelineState := { PipelineState.unset with shader := 0 } }

/-- A depth texture descriptor for a 256 by 128 window. -/
def windowDepthDesc : DepthTargetDesc :=
  { format := 40, textureDesc := { TextureDesc.plain with texFileName := "" } }

/-- A renderer whose depth target 0 is over texture 2, while texture slot 1 has
been released. -/
def resizeRenderer : Renderer :=
  { Renderer.blank with
    mTextures := [Texture.named 0 "", Texture.released, Texture.named 2 ""],
    mDepthTargets := [{ texture := Texture.named 2 "", pDepthStencilView := some 50 }] }

/-- A device that creates a depth-stencil view over any resource, and none over
a null resource. -/
def viewOverResource (res : Ptr) (i : Nat) : Option Ptr :=
  match res with
  | none => none
  | some p => some (some (300 + p + i))

/-- A call of one of the pipeline-state setters, with its arguments. -/
inductive Setter
  | SetVertexBuffer (bufferID : BufferID)
  | SetIndexBuffer (bufferID : BufferID)
  | SetViewport (width height : Nat)
  | SetViewport_D3D11 (viewport : Viewport)
  | SetRasterizerState (rsStateID : RasterizerStateID)
  | SetBlendState (blendStateID : BlendStateID)
  | SetDepthStencilState (depthStencilStateID : DepthStencilStateID)
  | BindRenderTarget (rtvID : RenderTargetID)
  | BindDepthTarget (dsvID : DepthTargetID)
  deriving DecidableEq, Repr

/-- The fields of the pipeline state. -/
inductive Field
  | shader
  | vertexBuffer
  | indexBuffer
  | topology
  | viewPort
  | rasterizerState
  | depthStencilState
  | blendState
  | renderTargets
  | depthTargets
  deriving DecidableEq, Repr

/-- Run a setter call on a renderer. -/
def Setter.run (dbg : Bool) (r : Renderer) : Setter → Option Renderer
  | Setter.SetVertexBuffer bufferID => some (VQEngine.SetVertexBuffer r bufferID)
  | Setter.SetIndexBuffer bufferID => some (VQEngine.SetIndexBuffer r bufferID)
  | Setter.SetViewport width height => some (VQEngine.SetViewport r width height)
  | Setter.SetViewport_D3D11 viewport => some (VQEngine.SetViewport_D3D11 r viewport)
  | Setter.SetRasterizerState id => VQEngine.SetRasterizerState dbg r id
  | Setter.SetBlendState id => VQEngine.SetBlendState dbg r id
  | Setter.SetDepthStencilState id => VQEngine.SetDepthStencilState dbg r id
  | Setter.BindRenderTarget id => VQEngine.BindRenderTarget dbg r id
  | Setter.BindDepthTarget id => VQEngine.BindDepthTarget dbg r id

/-- The field of the pipeline state that a setter is named after. -/
def Setter.field : Setter → Field
  | Setter.SetVertexBuffer _ => Field.vertexBuffer
  | Setter.SetIndexBuffer _ => Field.indexBuffer
  | Setter.SetViewport _ _ => Field.viewPort
  | Setter.SetViewport_D3D11 _ => Field.viewPort
  | Setter.SetRasterizerState _ => Field.rasterizerState
  | Setter.SetBlendState _ => Field.blendState
  | Setter.SetDepthStencilState _ => Field.depthStencilState
  | Setter.BindRenderTarget _ => Field.renderTargets
  | Setter.BindDepthTarget _ => Field.depthTargets

/-- A handle that indexes a registry of the given length. -/
def inRange (id : Int) (size : Nat) : Bool := decide (-1 < id ∧ id.toNat < size)

/-- The handle passed to a setter indexes the registry the setter checks; the
buffer and viewport setters check nothing. -/
def Setter.inRange (r : Renderer) : Setter → Bool
  | Setter.SetVertexBuffer _ => true
  | Setter.SetIndexBuffer _ => true
  | Setter.SetViewport _ _ => true
  | Setter.SetViewport_D3D11 _ => true
  | Setter.SetRasterizerState id => VQEngine.inRange id r.mRasterizerStates.length
  | Setter.SetBlendState id => VQEngine.inRange id r.mBlendStates.length
  | Setter.SetDepthStencilState id => VQEngine.inRange id r.mDepthStencilStates.length
  | Setter.BindRenderTarget id => VQEngine.inRange id r.mRenderTargets.length
  | Setter.BindDepthTarget id => VQEngine.inRange id r.mDepthTargets.length

/-- Two pipeline states agree on every field other than `f`. -/
def PipelineState.sameExcept (f : Field) (p q : PipelineState) : Prop :=
  p.shader = q.shader ∧ p.topology = q.topology ∧
  (f ≠ Field.vertexBuffer → p.vertexBuffer = q.vertexBuffer) ∧
  (f ≠ Field.indexBuffer → p.indexBuffer = q.indexBuffer) ∧
  (f ≠ Field.viewPort → p.viewPort = q.viewPort) ∧
  (f ≠ Field.rasterizerState → p.rasterizerState = q.rasterizerState) ∧
  (f ≠ Field.depthStencilState → p.depthStencilState = q.depthStencilState) ∧
  (f ≠ Field.blendState → p.blendState = q.blendState) ∧
  (f ≠ Field.renderTargets → p.renderTargets = q.renderTargets) ∧
  (f ≠ Field.depthTargets → p.depthTargets = q.depthTargets)

/-- The pipeline state after a setter call that passes its range check. -/
def Setter.write (p : PipelineState) : Setter → PipelineState
  | Setter.SetVertexBuffer bufferID => { p with vertexBuffer := bufferID }
  | Setter.SetIndexBuffer bufferID => { p with indexBuffer := bufferID }
  | Setter.SetViewport width height =>
    { p with viewPort := { TopLeftX := 0, TopLeftY := 0, Width := static_cast_float width,
                           Height := static_cast_float height, MinDepth := 0, MaxDepth := 1 } }
  | Setter.SetViewport_D3D11 viewport => { p with viewPort := viewport }
  | Setter.SetRasterizerState id => { p with rasterizerState := id }
  | Setter.SetBlendState id => { p with blendState := id }
  | Setter.SetDepthStencilState id => { p with depthStencilState := id }
  | Setter.BindRenderTarget id => { p with renderTargets := [id] }
  | Setter.BindDepthTarget id => { p with depthTargets := id }

/-- A device on which start-up succeeds. -/
def InitOutcome.ok : InitOutcome :=
  { direct3D := true, backBuffer := some (some 1), backBufferSrv := some 2,
    defaultRTV := some (some 3), depthTex := Tex2DOutcome.ok,
    depthDsv := fun k => some (some (50 + k)),
    rasterizerStates := [some 80, some 81, some 82, some 83], rasterizerErrors := [],
    blendStates := [{ ptr := some 84 }, { ptr := some 85 }, { ptr := some 86 }],
    samplers := [], depthStencilStates := [some 87, some 88, some 89, some 90, some 91] }

/-- The id condition on the slots of a texture registry: every slot stores its
own index; when `strict` is false a slot may also store -1. -/
def IdsOk (strict : Bool) (l : List Texture) : Prop :=
  ∀ (i : Nat) (t : Texture), l[i]? = some t →
    t._id = (i : Int) ∨ (strict = false ∧ t._id = -1)

/-- Every slot of the texture registry stores its own index: no slot is
released. -/
def IdIsIndex (l : List Texture) : Prop :=
  ∀ (i : Nat) (t : Texture), l[i]? = some t → t._id = (i : Int)

/-- The outcomes with which the creation path of `CreateTextureFromFile` gets
through: the view made by the image library is not null and, when mips are
generated, the image is at least one pixel wide and high and, in a build with
debug names, the device creates the texture. -/
def LoadsThrough (debugNames bGenerateMips : Bool) (img : ImageLoad) (dev : Tex2DOutcome) :
    Prop :=
  img.srv ≠ none ∧
  (bGenerateMips = true →
    1 ≤ img.width ∧ 1 ≤ img.height ∧ (debugNames = true → dev.tex2D ≠ none))

/-- The renderer of `CreateTextureFromFile` once the image file is loaded: the
Debug log line and the calls of the image library are recorded. -/
def CreateTextureFromFile.loaded (dbg : Bool) (r : Renderer) (texFileName fileRoot : String)
    (img : ImageLoad) : Renderer :=
  (if dbg then r.logged LogLevel.Info ("\tLoading Texture: " ++ (fileRoot ++ texFileName))
    else r).called
    [DeviceCall.CreateTexture2D img.mipLevels, DeviceCall.CreateShaderResourceView]

/-- The renderer states reached from a constructed renderer (empty texture
registry) by `Initialize` followed by calls that create, recycle or release
textures, each made while the registry has fewer than 2^31 slots, and by steps
that leave the texture registry as it is. -/
inductive Reachable : Renderer → Prop
  | init (debugNames : Bool) (r : Renderer) (w h : Int) (desc0 : TextureDesc)
      (dev : InitOutcome) (ok : Bool) (r1 : Renderer) (hempty : r.mTextures = [])
      (hrun : Initialize debugNames r w h desc0 dev = some (ok, r1)) : Reachable r1
  | fromFile (dbg profile : Bool) (r : Renderer) (n fileRoot : String) (bGenerateMips : Bool)
      (load : Option ImageLoad) (dev : Tex2DOutcome) (id : TextureID) (r1 : Renderer)
      (hr : Reachable r) (hlen : r.mTextures.length < 2 ^ 31)
      (hrun : CreateTextureFromFile dbg profile r n fileRoot bGenerateMips load dev
        = some (id, r1)) :
      Reachable r1
  | tex2D (debugNames : Bool) (r : Renderer) (texDesc : TextureDesc) (dev : Tex2DOutcome)
      (id : TextureID) (r1 : Renderer)
      (hr : Reachable r) (hlen : r.mTextures.length < 2 ^ 31)
      (hrun : CreateTexture2D debugNames r texDesc dev = some (id, r1)) : Reachable r1
  | tex2D_D3D11 (r : Renderer) (tex : Texture) (calls : List DeviceCall)
      (hr : Reachable r) (hlen : r.mTextures.length < 2 ^ 31) :
      Reachable (CreateTexture2D_D3D11 r tex calls).2
  | hdr (debugNames : Bool) (r : Renderer) (n fileRoot : String) (load : Option HDRLoad)
      (dev : Tex2DOutcome) (id : TextureID) (r1 : Renderer)
      (hr : Reachable r) (hlen : r.mTextures.length < 2 ^ 31)
      (hrun : CreateHDRTexture debugNames r n fileRoot load dev = some (id, r1)) : Reachable r1
  | cubemap (dbg : Bool) (r : Renderer) (textureFiles : List String) (dev : CubemapOutcome)
      (hr : Reachable r) (hlen : r.mTextures.length < 2 ^ 31) :
      Reachable (CreateCubemapFromFaceTextures dbg r textureFiles dev).2
  | renderTarget (debugNames : Bool) (r : Renderer) (textureDesc : TextureDesc)
      (texDev : Tex2DOutcome) (dev : Option Ptr) (id : RenderTargetID) (r1 : Renderer)
      (hr : Reachable r) (hlen : r.mTextures.length < 2 ^ 31)
      (hrun : AddRenderTarget_Desc debugNames r textureDesc texDev dev = some (id, r1)) :
      Reachable r1
  | depthTarget (debugNames : Bool) (r : Renderer) (depthTargetDesc : DepthTargetDesc)
      (texDev : Tex2DOutcome) (dsv : Nat → Option Ptr) (ids : List DepthTargetID)
      (r1 : Renderer) (hr : Reachable r) (hlen : r.mTextures.length < 2 ^ 31)
      (hrun : AddDepthTarget debugNames r depthTargetDesc texDev dsv = some (ids, r1)) :
      Reachable r1
  | recycle (dbg profile : Bool) (r : Renderer) (depthTargetID : DepthTargetID)
      (newDepthTargetDesc : DepthTargetDesc) (texDev : Tex2DOutcome)
      (dsv : Ptr → Nat → Option Ptr) (ok : Bool) (r1 : Renderer)
      (hr : Reachable r) (hlen : r.mTextures.length < 2 ^ 31)
      (hrun : RecycleDepthTarget dbg profile r depthTargetID newDepthTargetDesc texDev dsv
        = some (ok, r1)) :
      Reachable r1
  | exit (r : Renderer) (m_Direct3D : Bool) (hr : Reachable r) :
      Reachable (Exit r m_Direct3D).1
  | other (r r1 : Renderer) (hr : Reachable r) (hsame : r1.mTextures = r.mTextures) :
      Reachable r1

/-- The renderer after a successful start-up in a 1280 by 720 window. -/
def startedRenderer : Renderer :=
  ((Initialize true Renderer.blank 1280 720 TextureDesc.zero InitOutcome.ok).map Prod.snd).getD
    Renderer.blank

/-! ## Lemmas on the helpers -/

theorem find_if_le {α : Type} (p : α → Bool) (l : List α) : find_if p l ≤ l.length := by
  induction l with
  | nil => simp [find_if]
  | cons x xs ih =>
    simp only [find_if, List.length_cons]
    split <;> omega

theorem find_if_lt_of_mem {α : Type} (p : α → Bool) (l : List α) (x : α) (hx : x ∈ l)
    (hp : p x = true) : find_if p l < l.length := by
  induction l with
  | nil => cases hx
  | cons y ys ih =>
    simp only [find_if, List.length_cons]
    by_cases hy : p y = true
    · simp [hy]
    · simp only [hy, if_false, Bool.false_eq_true]
      rcases List.mem_cons.mp hx with h | h
      · exact absurd (h ▸ hp) hy
      · have := ih h
        omega

theorem find_if_spec {α : Type} (p : α → Bool) (l : List α) (h : find_if p l < l.length) :
    ∃ t, l[find_if p l]? = some t ∧ p t = true ∧
      ∀ j, j < find_if p l → ∀ u, l[j]? = some u → p u = false := by
  induction l with
  | nil => simp at h
  | cons y ys ih =>
    by_cases hy : p y = true
    · refine ⟨y, ?_, hy, ?_⟩
      · simp [find_if, hy]
      · intro j hj
        simp [find_if, hy] at hj
    · have hlt : find_if p ys < ys.length := by
        simp only [find_if, hy, if_false, Bool.false_eq_true, List.length_cons] at h
        omega
      obtain ⟨t, ht, hpt, hmin⟩ := ih hlt
      refine ⟨t, ?_, hpt, ?_⟩
      · simp [find_if, hy, ht]
      · intro j hj u hu
        simp only [find_if, hy, if_false, Bool.false_eq_true] at hj
        cases j with
        | zero =>
          simp at hu
          subst hu
          simpa using hy
        | succ k =>
          simp at hu
          exact hmin k (by omega) u hu

theorem find_if_eq_length {α : Type} (p : α → Bool) (l : List α)
    (h : ∀ x ∈ l, p x = false) : find_if p l = l.length := by
  induction l with
  | nil => simp [find_if]
  | cons y ys ih =>
    have hy : p y = false := h y (List.mem_cons_self _ _)
    have := ih (fun x hx => h x (List.mem_cons_of_mem _ hx))
    simp [find_if, hy, this]

theorem find_if_none_of_eq_length {α : Type} (p : α → Bool) (l : List α)
    (h : find_if p l = l.length) : ∀ x ∈ l, p x = false := by
  intro x hx
  by_contra hp
  have hp1 : p x = true := by simpa using hp
  have := find_if_lt_of_mem p l x hx hp1
  omega

theorem static_cast_int_of_lt (n : Nat) (h : n < 2 ^ 31) : static_cast_int n = (n : Int) := by
  unfold static_cast_int
  have h1 : n % 2 ^ 32 = n := Nat.mod_eq_of_lt (by omega)
  rw [h1, if_pos h]

/-! ## Lemmas on texture creation -/

theorem find_if_eq_of_first {α : Type} (p : α → Bool) (l : List α) (k : Nat) (t : α)
    (hk : l[k]? = some t) (hp : p t = true)
    (hmin : ∀ j, j < k → ∀ u, l[j]? = some u → p u = false) : find_if p l = k := by
  have hmem : t ∈ l := List.mem_iff_getElem?.mpr ⟨k, hk⟩
  have hlt := find_if_lt_of_mem p l t hmem hp
  obtain ⟨t1, ht1, hp1, hmin1⟩ := find_if_spec p l hlt
  rcases Nat.lt_trichotomy (find_if p l) k with h | h | h
  · have := hmin _ h t1 ht1
    rw [hp1] at this
    cases this
  · exact h
  · have := hmin1 k h t hk
    rw [hp] at this
    cases this

theorem guard_false (n : String) (hne : n ≠ "") (hq : n ≠ quotedEmpty) :
    (n.isEmpty || n == quotedEmpty) = false := by
  have hempty : n.isEmpty = false := by
    rw [Bool.eq_false_iff]
    intro h
    exact hne ((String.isEmpty_iff n).mp h)
  have hq2 : (n == quotedEmpty) = false := by simpa using hq
  simp [hempty, hq2]

theorem CreateTexture2D.build_fields (texDesc : TextureDesc) (dev : Tex2DOutcome) :
    (CreateTexture2D.build texDesc dev).1._name = texDesc.texFileName ∧
    (CreateTexture2D.build texDesc dev).1._width = texDesc.width ∧
    (CreateTexture2D.build texDesc dev).1._height = texDesc.height ∧
    (CreateTexture2D.build texDesc dev).1._tex2D = dev.tex2D := by
  unfold CreateTexture2D.build
  simp only []
  split
  · simp [Texture.new]
  · split
    · split <;> simp [Texture.new]
    · split <;> simp [Texture.new]

theorem CreateTexture2D.store_reuse (r : Renderer) (tex : Texture)
    (k : Nat) (hk : find_if (fun tex1 : Texture => tex1._id == -1) r.mTextures = k)
    (h : k < r.mTextures.length) :
    CreateTexture2D.store r tex =
      (static_cast_int k,
       { r with mTextures := r.mTextures.set k { tex with _id := static_cast_int k } }) := by
  unfold CreateTexture2D.store
  simp only []
  rw [hk, if_pos (Nat.ne_of_lt h)]

theorem CreateTexture2D.store_append (r : Renderer) (tex : Texture)
    (h : find_if (fun tex1 : Texture => tex1._id == -1) r.mTextures = r.mTextures.length) :
    CreateTexture2D.store r tex =
      (static_cast_int r.mTextures.length,
       { r with mTextures :=
          r.mTextures ++ [{ tex with _id := static_cast_int r.mTextures.length }] }) := by
  unfold CreateTexture2D.store
  simp only []
  rw [if_neg (by simpa using h)]

/-- In a build with debug names, a named descriptor whose device creation
fails stops `CreateTexture2D` at the debug-name call. -/
theorem CreateTexture2D_eq_none (r : Renderer) (texDesc : TextureDesc) (dev : Tex2DOutcome)
    (hname : texDesc.texFileName ≠ "") (hdev : dev.tex2D = none) :
    CreateTexture2D true r texDesc dev = none := by
  have hempty : texDesc.texFileName.isEmpty = false := by
    rw [Bool.eq_false_iff]
    intro h
    exact hname ((String.isEmpty_iff _).mp h)
  unfold CreateTexture2D
  simp only []
  rw [if_pos ⟨trivial, hempty, hdev⟩]

/-- Past the debug-name call `CreateTexture2D` stores the texture. -/
theorem CreateTexture2D_eq_some (debugNames : Bool) (r : Renderer) (texDesc : TextureDesc)
    (dev : Tex2DOutcome)
    (hret : debugNames = true → texDesc.texFileName ≠ "" → dev.tex2D ≠ none) :
    CreateTexture2D debugNames r texDesc dev = some (CreateTexture2D.stored r texDesc dev) := by
  unfold CreateTexture2D
  simp only []
  rw [if_neg]
  · rfl
  · rintro ⟨h1, h2, h3⟩
    refine hret h1 ?_ h3
    intro h
    rw [h] at h2
    exact absurd h2 (by decide)

/-- A result of `CreateTexture2D` is what the function stores past the
debug-name call, which was not stopped. -/
theorem CreateTexture2D_of_some (debugNames : Bool) (r : Renderer) (texDesc : TextureDesc)
    (dev : Tex2DOutcome) (c : TextureID × Renderer)
    (h : CreateTexture2D debugNames r texDesc dev = some c) :
    c = CreateTexture2D.stored r texDesc dev ∧
    (debugNames = true → texDesc.texFileName ≠ "" → dev.tex2D ≠ none) := by
  unfold CreateTexture2D at h
  simp only [] at h
  split at h
  · cases h
  · rename_i hn
    refine ⟨(Option.some.inj h).symm, fun h1 h2 h3 => hn ⟨h1, ?_, h3⟩⟩
    rw [Bool.eq_false_iff]
    intro he
    exact h2 ((String.isEmpty_iff _).mp he)

/-- The cache-hit path of `CreateTextureFromFile`. -/
theorem CreateTextureFromFile_found (dbg profile : Bool) (r : Renderer) (n fileRoot : String)
    (bGenerateMips : Bool) (load : Option ImageLoad) (dev : Tex2DOutcome)
    (hne : n ≠ "") (hq : n ≠ quotedEmpty) (k : Nat) (t : Texture)
    (hk : r.mTextures[k]? = some t) (hname : t._name = n)
    (hmin : ∀ j, j < k → ∀ u : Texture, r.mTextures[j]? = some u → u._name ≠ n) :
    CreateTextureFromFile dbg profile r n fileRoot bGenerateMips load dev = some (t._id, r) := by
  have hfind : find_if (fun tex : Texture => tex._name == n) r.mTextures = k :=
    find_if_eq_of_first _ _ k t hk (by simp [hname])
      (fun j hj u hu => by simpa using hmin j hj u hu)
  have hklt : k < r.mTextures.length := (List.getElem?_eq_some.mp hk).1
  simp only [CreateTextureFromFile, guard_false n hne hq, Bool.false_eq_true, if_false]
  rw [hfind, if_pos (Nat.ne_of_lt hklt), hk]

/-- The cache-hit path of `CreateHDRTexture`. -/
theorem CreateHDRTexture_found (debugNames : Bool) (r : Renderer) (n fileRoot : String)
    (load : Option HDRLoad) (dev : Tex2DOutcome) (k : Nat) (t : Texture)
    (hk : r.mTextures[k]? = some t) (hname : t._name = n)
    (hmin : ∀ j, j < k → ∀ u : Texture, r.mTextures[j]? = some u → u._name ≠ n) :
    CreateHDRTexture debugNames r n fileRoot load dev = some (t._id, r) := by
  have hfind : find_if (fun tex : Texture => tex._name == n) r.mTextures = k :=
    find_if_eq_of_first _ _ k t hk (by simp [hname])
      (fun j hj u hu => by simpa using hmin j hj u hu)
  have hklt : k < r.mTextures.length := (List.getElem?_eq_some.mp hk).1
  simp only [CreateHDRTexture]
  rw [hfind, if_pos (Nat.ne_of_lt hklt), hk]

/-- The first slot holding a given name. -/
theorem first_named (l : List Texture) (n : String) (hex : ∃ t ∈ l, t._name = n) :
    ∃ (k : Nat) (t : Texture), l[k]? = some t ∧ t._name = n ∧
      ∀ j, j < k → ∀ u : Texture, l[j]? = some u → u._name ≠ n := by
  obtain ⟨t0, ht0, hn0⟩ := hex
  have hlt : find_if (fun tex : Texture => tex._name == n) l < l.length :=
    find_if_lt_of_mem _ _ t0 ht0 (by simp [hn0])
  obtain ⟨t, ht, hpt, hmin⟩ := find_if_spec _ _ hlt
  exact ⟨_, t, ht, by simpa using hpt, fun j hj u hu => by simpa using hmin j hj u hu⟩

theorem CreateTexture2D.stored_no_released (r : Renderer) (texDesc : TextureDesc)
    (dev : Tex2DOutcome) (hnone : ∀ t ∈ r.mTextures, t._id ≠ -1) :
    CreateTexture2D.stored r texDesc dev =
      (static_cast_int r.mTextures.length,
       { r.called (CreateTexture2D.build texDesc dev).2 with
         mTextures := r.mTextures ++
           [{ (CreateTexture2D.build texDesc dev).1 with
              _id := static_cast_int r.mTextures.length }] }) := by
  have heq : find_if (fun tex1 : Texture => tex1._id == -1) r.mTextures
      = r.mTextures.length := find_if_eq_length _ _ (fun x hx => by simpa using hnone x hx)
  simp only [CreateTexture2D.stored]
  rw [CreateTexture2D.store_append (r.called (CreateTexture2D.build texDesc dev).2)
    (CreateTexture2D.build texDesc dev).1 heq]
  rfl

/-- Where `CreateTexture2D(TextureDesc)` puts the new texture. -/
theorem CreateTexture2D.stored_spec (r : Renderer) (texDesc : TextureDesc)
    (dev : Tex2DOutcome) (hlen : r.mTextures.length < 2 ^ 31) :
    ∃ (k : Nat) (tex : Texture),
      (CreateTexture2D.stored r texDesc dev).1 = (k : Int) ∧
      (CreateTexture2D.stored r texDesc dev).2.mTextures[k]? = some tex ∧
      tex._id = (k : Int) ∧ tex._name = texDesc.texFileName ∧
      tex._width = texDesc.width ∧ tex._height = texDesc.height ∧
      tex._tex2D = dev.tex2D ∧
      (∀ j, j ≠ k →
        (CreateTexture2D.stored r texDesc dev).2.mTextures[j]? = r.mTextures[j]?) ∧
      k = find_if (fun tex1 : Texture => tex1._id == -1) r.mTextures ∧
      (CreateTexture2D.stored r texDesc dev).2.mTextures.length
        = (if k < r.mTextures.length then r.mTextures.length else r.mTextures.length + 1) := by
  obtain ⟨hn, hw, hh, ht⟩ := CreateTexture2D.build_fields texDesc dev
  by_cases hlt : find_if (fun tex1 : Texture => tex1._id == -1) r.mTextures
      < r.mTextures.length
  · have hcast := static_cast_int_of_lt _ (Nat.lt_trans hlt hlen)
    have hstore := CreateTexture2D.store_reuse
      (r.called (CreateTexture2D.build texDesc dev).2) (CreateTexture2D.build texDesc dev).1
      _ rfl hlt
    refine ⟨find_if (fun tex1 : Texture => tex1._id == -1) r.mTextures,
      { (CreateTexture2D.build texDesc dev).1 with
          _id := static_cast_int
            (find_if (fun tex1 : Texture => tex1._id == -1) r.mTextures) },
      ?_, ?_, hcast, hn, hw, hh, ht, ?_, rfl, ?_⟩
    · simp only [CreateTexture2D.stored]
      rw [hstore]
      exact hcast
    · simp only [CreateTexture2D.stored]
      rw [hstore]
      simp only [Renderer.called]
      rw [List.getElem?_set]
      simp [hlt]
    · intro j hj
      simp only [CreateTexture2D.stored]
      rw [hstore]
      simp only [Renderer.called]
      rw [List.getElem?_set]
      simp [Ne.symm hj]
    · simp only [CreateTexture2D.stored]
      rw [hstore, if_pos hlt]
      simp [Renderer.called]
  · have heq : find_if (fun tex1 : Texture => tex1._id == -1) r.mTextures
        = r.mTextures.length := by
      have := find_if_le (fun tex1 : Texture => tex1._id == -1) r.mTextures
      omega
    have hcast := static_cast_int_of_lt _ hlen
    have hstore := CreateTexture2D.store_append
      (r.called (CreateTexture2D.build texDesc dev).2) (CreateTexture2D.build texDesc dev).1 heq
    refine ⟨r.mTextures.length,
      { (CreateTexture2D.build texDesc dev).1 with
          _id := static_cast_int r.mTextures.length },
      ?_, ?_, hcast, hn, hw, hh, ht, ?_, heq.symm, ?_⟩
    · simp only [CreateTexture2D.stored]
      rw [hstore]
      exact hcast
    · simp only [CreateTexture2D.stored]
      rw [hstore]
      simp [Renderer.called]
    · intro j hj
      simp only [CreateTexture2D.stored]
      rw [hstore]
      simp only [Renderer.called]
      rw [List.getElem?_append]
      by_cases hjl : j < r.mTextures.length
      · simp [hjl]
      · have h1 : r.mTextures[j]? = none := List.getElem?_eq_none (by omega)
        have h2 : j - r.mTextures.length ≠ 0 := by omega
        simp only [hjl, if_false, h1]
        cases hc : j - r.mTextures.length with
        | zero => exact absurd hc h2
        | succ m => simp
    · simp only [CreateTexture2D.stored]
      rw [hstore, if_neg (Nat.lt_irrefl _)]
      simp [Renderer.called]

/-- The texture that `GetTextureObject` finds at the handle just returned by
`CreateTexture2D(TextureDesc)`. -/
theorem CreateTexture2D.stored_get (r : Renderer) (texDesc : TextureDesc) (dev : Tex2DOutcome)
    (hlen : r.mTextures.length < 2 ^ 31) :
    ∃ (k : Nat) (tex : Texture),
      (CreateTexture2D.stored r texDesc dev).1 = (k : Int) ∧
      (CreateTexture2D.stored r texDesc dev).2.mTextures[k]? = some tex ∧
      GetTextureObject (CreateTexture2D.stored r texDesc dev).2
        (CreateTexture2D.stored r texDesc dev).1 = some tex ∧
      tex._id = (k : Int) ∧ tex._tex2D = dev.tex2D := by
  obtain ⟨k, tex, hk, hslot, hid, _, _, _, ht, _, _, _⟩ :=
    CreateTexture2D.stored_spec r texDesc dev hlen
  have hkl := (List.getElem?_eq_some.mp hslot).1
  refine ⟨k, tex, hk, hslot, ?_, hid, ht⟩
  unfold GetTextureObject
  rw [hk]
  simp only [Int.toNat_ofNat]
  rw [if_pos ⟨Int.ofNat_zero_le k, hkl⟩, hslot]

theorem CreateTexture2D.stored_frame (r : Renderer) (texDesc : TextureDesc)
    (dev : Tex2DOutcome) :
    (CreateTexture2D.stored r texDesc dev).2.mDepthTargets = r.mDepthTargets ∧
    (CreateTexture2D.stored r texDesc dev).2.mRenderTargets = r.mRenderTargets ∧
    (CreateTexture2D.stored r texDesc dev).2.deviceCalls
      = r.deviceCalls ++ (CreateTexture2D.build texDesc dev).2 ∧
    (CreateTexture2D.stored r texDesc dev).2.log = r.log := by
  simp only [CreateTexture2D.stored, CreateTexture2D.store, Renderer.called]
  split <;> exact ⟨rfl, rfl, rfl, rfl⟩

/-! ## The id conditions on the texture registry -/

theorem IdsOk_false_iff (l : List Texture) : IdsOk false l ↔ RegistryInv l := by
  constructor
  · intro h i t hi
    rcases h i t hi with h1 | ⟨_, h1⟩
    · exact Or.inl h1
    · exact Or.inr h1
  · intro h i t hi
    rcases h i t hi with h1 | h1
    · exact Or.inl h1
    · exact Or.inr ⟨rfl, h1⟩

theorem IdsOk_true_iff (l : List Texture) : IdsOk true l ↔ IdIsIndex l := by
  constructor
  · intro h i t hi
    rcases h i t hi with h1 | ⟨h0, _⟩
    · exact h1
    · cases h0
  · intro h i t hi
    exact Or.inl (h i t hi)

theorem IdsOk_of_true (strict : Bool) (l : List Texture) (h : IdsOk true l) :
    IdsOk strict l := by
  intro i t hi
  rcases h i t hi with h1 | ⟨h0, _⟩
  · exact Or.inl h1
  · cases h0

theorem IdsOk_nil (strict : Bool) : IdsOk strict [] := fun i t hi => by cases hi

theorem IdsOk_append (strict : Bool) (l : List Texture) (t : Texture) (h : IdsOk strict l)
    (ht : t._id = (l.length : Int)) : IdsOk strict (l ++ [t]) := by
  intro i x hi
  by_cases hlt : i < l.length
  · rw [List.getElem?_append_left hlt] at hi
    exact h i x hi
  · by_cases heq : i = l.length
    · subst heq
      rw [List.getElem?_concat_length] at hi
      cases hi
      exact Or.inl ht
    · rw [List.getElem?_eq_none (by simp; omega)] at hi
      cases hi

theorem IdIsIndex_no_released (l : List Texture) (h : IdIsIndex l) :
    ∀ t ∈ l, t._id ≠ -1 := by
  intro t ht hneg
  obtain ⟨i, hi⟩ := List.mem_iff_getElem?.mp ht
  have h1 : (i : Int) = -1 := (h i t hi).symm.trans hneg
  omega

/-- A non-negative id stored in a registry that satisfies the id condition is
the index of its slot, so it is less than the length. -/
theorem IdsOk_in_range (strict : Bool) (l : List Texture) (h : IdsOk strict l)
    (i : Nat) (t : Texture) (hi : l[i]? = some t) (h0 : 0 ≤ t._id) :
    t._id = (i : Int) ∧ t._id.toNat < l.length := by
  have hil := (List.getElem?_eq_some.mp hi).1
  rcases h i t hi with h1 | ⟨_, h1⟩
  · refine ⟨h1, ?_⟩
    rw [h1]
    simpa using hil
  · rw [h1] at h0
    exact absurd h0 (by decide)

/-- The store of `CreateTexture2D(TextureDesc)` keeps the id condition. -/
theorem CreateTexture2D.stored_idsOk (strict : Bool) (r : Renderer) (texDesc : TextureDesc)
    (dev : Tex2DOutcome) (hlen : r.mTextures.length < 2 ^ 31) (hinv : IdsOk strict r.mTextures) :
    IdsOk strict (CreateTexture2D.stored r texDesc dev).2.mTextures := by
  obtain ⟨k, tex, _, hslot, hid, _, _, _, _, hother, _, _⟩ :=
    CreateTexture2D.stored_spec r texDesc dev hlen
  intro i t hi
  by_cases hik : i = k
  · subst hik
    rw [hslot] at hi
    cases hi
    exact Or.inl hid
  · rw [hother i hik] at hi
    exact hinv i t hi

/-- The call `CreateTexture2D(TextureDesc)` keeps the id condition. -/
theorem CreateTexture2D_idsOk (strict debugNames : Bool) (r : Renderer) (texDesc : TextureDesc)
    (dev : Tex2DOutcome) (hlen : r.mTextures.length < 2 ^ 31) (hinv : IdsOk strict r.mTextures)
    (c : TextureID × Renderer) (hrun : CreateTexture2D debugNames r texDesc dev = some c) :
    IdsOk strict c.2.mTextures := by
  rw [(CreateTexture2D_of_some debugNames r texDesc dev c hrun).1]
  exact CreateTexture2D.stored_idsOk strict r texDesc dev hlen hinv

/-! ## Lemmas on `CreateTextureFromFile` -/

theorem mipLevels_some (w h : Nat) (hw : 1 ≤ w) (hh : 1 ≤ h) :
    mipLevels w h
      = some (min (log2_truncated (to_double w)) (log2_truncated (to_double h))) := by
  unfold mipLevels log2_size_t
  rw [if_neg (by omega), if_neg (by omega)]

theorem mipLevels_of_some (w h m : Nat) (hm : mipLevels w h = some m) : 1 ≤ w ∧ 1 ≤ h := by
  unfold mipLevels log2_size_t at hm
  by_cases hw : w = 0
  · rw [if_pos hw] at hm
    cases hm
  · by_cases hh : h = 0
    · rw [if_neg hw, if_pos hh] at hm
      cases hm
    · omega

theorem CreateTextureFromFile.loaded_frame (dbg : Bool) (r : Renderer) (n fileRoot : String)
    (img : ImageLoad) :
    (CreateTextureFromFile.loaded dbg r n fileRoot img).mTextures = r.mTextures ∧
    (CreateTextureFromFile.loaded dbg r n fileRoot img).deviceCalls
      = r.deviceCalls
        ++ [DeviceCall.CreateTexture2D img.mipLevels, DeviceCall.CreateShaderResourceView] := by
  cases dbg <;> exact ⟨rfl, rfl⟩

/-- The creation path of `CreateTextureFromFile`, for a name that no slot
holds and a file that loads: what the function computes. -/
theorem CreateTextureFromFile_create (dbg profile : Bool) (r : Renderer) (n fileRoot : String)
    (bGenerateMips : Bool) (img : ImageLoad) (dev : Tex2DOutcome)
    (hne : n ≠ "") (hq : n ≠ quotedEmpty)
    (hfresh : ∀ t ∈ r.mTextures, t._name ≠ n) :
    CreateTextureFromFile dbg profile r n fileRoot bGenerateMips (some img) dev
      = (if img.srv = none then none
        else if bGenerateMips = true then
          match mipLevels img.width img.height with
          | none => none
          | some mips =>
            match CreateTexture2D (dbg || profile)
                (CreateTextureFromFile.loaded dbg r n fileRoot img)
                (CreateTextureFromFile.mipDesc n img mips) dev with
            | none => none
            | some created =>
              match GetTextureObject created.2 created.1 with
              | none => none
              | some _ =>
                match created.2.mTextures.getLast? with
                | some back => some (back._id, created.2)
                | none => none
        else
          some (static_cast_int r.mTextures.length,
            { CreateTextureFromFile.loaded dbg r n fileRoot img with
              mTextures := r.mTextures ++
                [{ (match img.tex2D with
                    | some (p, w, h) =>
                      { Texture.new with
                        _name := n, _srv := img.srv, _tex2D := p, _width := (w : Int),
                        _height := (h : Int) }
                    | none => { Texture.new with _name := n, _srv := img.srv }) with
                   _id := static_cast_int r.mTextures.length }] })) := by
  have hfind : find_if (fun tex : Texture => tex._name == n) r.mTextures
      = r.mTextures.length := find_if_eq_length _ _ (fun x hx => by simpa using hfresh x hx)
  simp only [CreateTextureFromFile, guard_false n hne hq, Bool.false_eq_true, if_false]
  rw [hfind]
  simp only [ne_eq, not_true_eq_false, if_false]
  by_cases hsrv : img.srv = none
  · rw [if_pos hsrv, if_pos hsrv]
  · rw [if_neg hsrv, if_neg hsrv]
    cases bGenerateMips with
    | true =>
      simp only [if_true]
      rfl
    | false =>
      simp only [Bool.false_eq_true, if_false]
      cases dbg <;> cases img.tex2D <;>
        simp only [CreateTextureFromFile.loaded, Bool.false_eq_true, if_false, if_true,
          Renderer.called, Renderer.logged, List.getLast?_concat]

/-- The creation path of `CreateTextureFromFile`: a fresh name whose file loads
is appended at the end of the registry and the previous length is returned,
provided the mip path meets no released slot. -/
theorem CreateTextureFromFile_fresh (dbg profile : Bool) (r : Renderer) (n fileRoot : String)
    (bGenerateMips : Bool) (img : ImageLoad) (dev : Tex2DOutcome)
    (hne : n ≠ "") (hq : n ≠ quotedEmpty)
    (hfresh : ∀ t ∈ r.mTextures, t._name ≠ n)
    (hthrough : LoadsThrough (dbg || profile) bGenerateMips img dev)
    (hslip : bGenerateMips = true → ∀ t ∈ r.mTextures, t._id ≠ -1)
    (hlen : r.mTextures.length < 2 ^ 31) :
    ∃ (tex : Texture) (r1 : Renderer),
      CreateTextureFromFile dbg profile r n fileRoot bGenerateMips (some img) dev
        = some ((r.mTextures.length : Int), r1) ∧
      r1.mTextures = r.mTextures ++ [tex] ∧ tex._name = n ∧
      tex._id = (r.mTextures.length : Int) := by
  have hcast := static_cast_int_of_lt _ hlen
  rw [CreateTextureFromFile_create dbg profile r n fileRoot bGenerateMips img dev hne hq hfresh,
    if_neg hthrough.1]
  cases bGenerateMips with
  | false =>
    simp only [Bool.false_eq_true, if_false, hcast]
    exact ⟨_, _, rfl, rfl, by cases img.tex2D <;> rfl, rfl⟩
  | true =>
    obtain ⟨hw, hh, hdev⟩ := hthrough.2 rfl
    have hl := (CreateTextureFromFile.loaded_frame dbg r n fileRoot img).1
    simp only [if_true, mipLevels_some _ _ hw hh]
    rw [CreateTexture2D_eq_some _ _ _ _ (fun h1 _ => hdev h1),
      CreateTexture2D.stored_no_released _ _ _ (by rw [hl]; exact hslip rfl)]
    simp only [hl, hcast, GetTextureObject]
    have hin : (0 : Int) ≤ (r.mTextures.length : Int) ∧
        ((r.mTextures.length : Int)).toNat < (r.mTextures ++
          [{ (CreateTexture2D.build (CreateTextureFromFile.mipDesc n img
                (min (log2_truncated (to_double img.width))
                  (log2_truncated (to_double img.height)))) dev).1 with
             _id := (r.mTextures.length : Int) }]).length := by
      simp
    rw [if_pos hin]
    simp only [Int.toNat_ofNat, List.getElem?_concat_length, List.getLast?_concat]
    exact ⟨_, _, rfl, rfl, (CreateTexture2D.build_fields _ dev).1, rfl⟩

/-- When the creation path of `CreateTextureFromFile` returns, the outcomes
were those with which it gets through. -/
theorem CreateTextureFromFile_through (dbg profile : Bool) (r : Renderer) (n fileRoot : String)
    (bGenerateMips : Bool) (img : ImageLoad) (dev : Tex2DOutcome)
    (hne : n ≠ "") (hq : n ≠ quotedEmpty)
    (hfresh : ∀ t ∈ r.mTextures, t._name ≠ n) (h : TextureID) (r1 : Renderer)
    (hres : CreateTextureFromFile dbg profile r n fileRoot bGenerateMips (some img) dev
      = some (h, r1)) :
    LoadsThrough (dbg || profile) bGenerateMips img dev := by
  rw [CreateTextureFromFile_create dbg profile r n fileRoot bGenerateMips img dev hne hq hfresh]
    at hres
  by_cases hsrv : img.srv = none
  · rw [if_pos hsrv] at hres
    cases hres
  · refine ⟨hsrv, fun hm => ?_⟩
    rw [if_neg hsrv, if_pos hm] at hres
    cases hmip : mipLevels img.width img.height with
    | none =>
      rw [hmip] at hres
      cases hres
    | some mips =>
      rw [hmip] at hres
      simp only [] at hres
      obtain ⟨hw, hh⟩ := mipLevels_of_some _ _ _ hmip
      refine ⟨hw, hh, fun hd => ?_⟩
      cases hc : CreateTexture2D (dbg || profile)
          (CreateTextureFromFile.loaded dbg r n fileRoot img)
          (CreateTextureFromFile.mipDesc n img mips) dev with
      | none =>
        rw [hc] at hres
        cases hres
      | some created =>
        exact (CreateTexture2D_of_some _ _ _ _ _ hc).2 hd hne

/-- The load-failure path of `CreateTextureFromFile`, for a name that no slot
holds: what the function computes. -/
theorem CreateTextureFromFile_unloadable (dbg profile : Bool) (r : Renderer)
    (n fileRoot : String) (bGenerateMips : Bool) (dev : Tex2DOutcome)
    (hne : n ≠ "") (hq : n ≠ quotedEmpty) (hfresh : ∀ t ∈ r.mTextures, t._name ≠ n) :
    CreateTextureFromFile dbg profile r n fileRoot bGenerateMips none dev
      = (match r.mTextures[0]? with
        | some first =>
          some (first._id,
            (if dbg then r.logged LogLevel.Info ("\tLoading Texture: " ++ (fileRoot ++ n))
              else r).logged LogLevel.Error ("Cannot load texture file: " ++ n ++ "\n"))
        | none => none) := by
  have hfind : find_if (fun tex : Texture => tex._name == n) r.mTextures
      = r.mTextures.length := find_if_eq_length _ _ (fun x hx => by simpa using hfresh x hx)
  simp only [CreateTextureFromFile, guard_false n hne hq, Bool.false_eq_true, if_false]
  rw [hfind]
  simp only [ne_eq, not_true_eq_false, if_false]
  cases dbg <;> rfl

theorem guard_cases (n : String) :
    (n.isEmpty || n == quotedEmpty) = true ∨ (n ≠ "" ∧ n ≠ quotedEmpty) := by
  by_cases h1 : n = ""
  · left
    subst h1
    decide
  · by_cases h2 : n = quotedEmpty
    · left
      subst h2
      decide
    · exact Or.inr ⟨h1, h2⟩

/-- What a call of `CreateTextureFromFile` that returns leaves behind: the id
condition is kept, and the handle is -1 or the id stored in some slot. -/
theorem CreateTextureFromFile_post (strict dbg profile : Bool) (r : Renderer)
    (n fileRoot : String) (bGenerateMips : Bool) (load : Option ImageLoad) (dev : Tex2DOutcome)
    (hlen : r.mTextures.length < 2 ^ 31) (hinv : IdsOk strict r.mTextures)
    (h : TextureID) (r1 : Renderer)
    (hres : CreateTextureFromFile dbg profile r n fileRoot bGenerateMips load dev
      = some (h, r1)) :
    IdsOk strict r1.mTextures ∧
    (h = -1 ∨ ∃ (i : Nat) (t : Texture), r1.mTextures[i]? = some t ∧ t._id = h) := by
  have hcast := static_cast_int_of_lt _ hlen
  rcases guard_cases n with hg | ⟨hne, hq⟩
  · unfold CreateTextureFromFile at hres
    rw [if_pos hg] at hres
    cases hres
    exact ⟨hinv, Or.inl rfl⟩
  · by_cases hex : ∃ t ∈ r.mTextures, t._name = n
    · obtain ⟨k, t, hk, hname, hmin⟩ := first_named r.mTextures n hex
      rw [CreateTextureFromFile_found dbg profile r n fileRoot bGenerateMips load dev hne hq k t
        hk hname hmin] at hres
      cases hres
      exact ⟨hinv, Or.inr ⟨k, t, hk, rfl⟩⟩
    · have hfresh : ∀ t ∈ r.mTextures, t._name ≠ n := fun t ht hn => hex ⟨t, ht, hn⟩
      cases load with
      | none =>
        rw [CreateTextureFromFile_unloadable dbg profile r n fileRoot bGenerateMips dev hne hq
          hfresh] at hres
        cases h0 : r.mTextures[0]? with
        | none =>
          rw [h0] at hres
          cases hres
        | some first =>
          rw [h0] at hres
          cases hres
          refine ⟨?_, Or.inr ⟨0, first, ?_, rfl⟩⟩
          · cases dbg <;> exact hinv
          · cases dbg <;> exact h0
      | some img =>
        rw [CreateTextureFromFile_create dbg profile r n fileRoot bGenerateMips img dev hne hq
          hfresh] at hres
        have hl := (CreateTextureFromFile.loaded_frame dbg r n fileRoot img).1
        by_cases hsrv : img.srv = none
        · rw [if_pos hsrv] at hres
          cases hres
        · rw [if_neg hsrv] at hres
          cases bGenerateMips with
          | false =>
            simp only [Bool.false_eq_true, if_false] at hres
            cases hres
            exact ⟨IdsOk_append strict _ _ hinv hcast,
              Or.inr ⟨r.mTextures.length, _, List.getElem?_concat_length _ _, rfl⟩⟩
          | true =>
            simp only [if_true] at hres
            cases hmip : mipLevels img.width img.height with
            | none =>
              rw [hmip] at hres
              cases hres
            | some mips =>
              rw [hmip] at hres
              simp only [] at hres
              cases hc : CreateTexture2D (dbg || profile)
                  (CreateTextureFromFile.loaded dbg r n fileRoot img)
                  (CreateTextureFromFile.mipDesc n img mips) dev with
              | none =>
                rw [hc] at hres
                cases hres
              | some created =>
                rw [hc] at hres
                simp only [] at hres
                have hids := CreateTexture2D_idsOk strict _ _ _ _
                  (by rw [hl]; exact hlen) (by rw [hl]; exact hinv) created hc
                cases hget : GetTextureObject created.2 created.1 with
                | none =>
                  rw [hget] at hres
                  cases hres
                | some tex =>
                  rw [hget] at hres
                  simp only [] at hres
                  cases hlast : created.2.mTextures.getLast? with
                  | none =>
                    rw [hlast] at hres
                    cases hres
                  | some back =>
                    rw [hlast] at hres
                    cases hres
                    refine ⟨hids, Or.inr ⟨created.2.mTextures.length - 1, back, ?_, rfl⟩⟩
                    rw [← List.getLast?_eq_getElem?]
                    exact hlast

/-- The call `CreateTextureFromFile` returns when the registry is not empty
and a file that loads comes with outcomes that let the creation path
through. -/
theorem CreateTextureFromFile_returns (dbg profile : Bool) (r : Renderer) (n fileRoot : String)
    (bGenerateMips : Bool) (load : Option ImageLoad) (dev : Tex2DOutcome)
    (hlen : r.mTextures.length < 2 ^ 31) (hne0 : r.mTextures ≠ [])
    (hthrough : ∀ img, load = some img → LoadsThrough (dbg || profile) bGenerateMips img dev) :
    ∃ (h : TextureID) (r1 : Renderer),
      CreateTextureFromFile dbg profile r n fileRoot bGenerateMips load dev = some (h, r1) := by
  have hpos : 0 < r.mTextures.length := List.length_pos.mpr hne0
  rcases guard_cases n with hg | ⟨hne, hq⟩
  · unfold CreateTextureFromFile
    rw [if_pos hg]
    exact ⟨_, _, rfl⟩
  · by_cases hex : ∃ t ∈ r.mTextures, t._name = n
    · obtain ⟨k, t, hk, hname, hmin⟩ := first_named r.mTextures n hex
      exact ⟨_, _, CreateTextureFromFile_found dbg profile r n fileRoot bGenerateMips load dev
        hne hq k t hk hname hmin⟩
    · have hfresh : ∀ t ∈ r.mTextures, t._name ≠ n := fun t ht hn => hex ⟨t, ht, hn⟩
      cases load with
      | none =>
        rw [CreateTextureFromFile_unloadable dbg profile r n fileRoot bGenerateMips dev hne hq
          hfresh, List.getElem?_eq_getElem hpos]
        exact ⟨_, _, rfl⟩
      | some img =>
        obtain ⟨hsrv, hm⟩ := hthrough img rfl
        rw [CreateTextureFromFile_create dbg profile r n fileRoot bGenerateMips img dev hne hq
          hfresh, if_neg hsrv]
        cases bGenerateMips with
        | false => exact ⟨_, _, rfl⟩
        | true =>
          obtain ⟨hw, hh, hdev⟩ := hm rfl
          have hl := (CreateTextureFromFile.loaded_frame dbg r n fileRoot img).1
          simp only [if_true, mipLevels_some _ _ hw hh]
          rw [CreateTexture2D_eq_some _ _ _ _ (fun h1 _ => hdev h1)]
          obtain ⟨k, tex, hk, hslot, hget, _, _⟩ := CreateTexture2D.stored_get
            (CreateTextureFromFile.loaded dbg r n fileRoot img)
            (CreateTextureFromFile.mipDesc n img
              (min (log2_truncated (to_double img.width))
                (log2_truncated (to_double img.height)))) dev (by rw [hl]; exact hlen)
          simp only [hget]
          have hkl := (List.getElem?_eq_some.mp hslot).1
          rw [List.getLast?_eq_getElem?,
            List.getElem?_eq_getElem (Nat.sub_lt (Nat.lt_of_le_of_lt (Nat.zero_le k) hkl)
              Nat.one_pos)]
          exact ⟨_, _, rfl⟩

/-- The slot whose index `CreateTextureFromFile` returns holds a texture of the
requested name, when the name is found or the file loads (the mip path meeting
no released slot). -/
theorem CreateTextureFromFile_holds (dbg profile : Bool) (r : Renderer) (n fileRoot : String)
    (bGenerateMips : Bool) (load : Option ImageLoad) (dev : Tex2DOutcome)
    (hlen : r.mTextures.length < 2 ^ 31) (hinv : RegistryInv r.mTextures)
    (hne : n ≠ "") (hq : n ≠ quotedEmpty)
    (hcase : (∃ t ∈ r.mTextures, t._name = n) ∨
      (load.isSome = true ∧ (bGenerateMips = true → ∀ t ∈ r.mTextures, t._id ≠ -1)))
    (h : TextureID) (r1 : Renderer)
    (hres : CreateTextureFromFile dbg profile r n fileRoot bGenerateMips load dev
      = some (h, r1))
    (h0 : 0 ≤ h) :
    ∃ tex : Texture, r1.mTextures[h.toNat]? = some tex ∧ tex._name = n := by
  by_cases hex : ∃ t ∈ r.mTextures, t._name = n
  · obtain ⟨k, t, hk, hname, hmin⟩ := first_named r.mTextures n hex
    rw [CreateTextureFromFile_found dbg profile r n fileRoot bGenerateMips load dev hne hq k t
      hk hname hmin] at hres
    simp only [Option.some.injEq, Prod.mk.injEq] at hres
    obtain ⟨hh, hr⟩ := hres
    subst hr
    rcases hinv k t hk with hid | hid
    · refine ⟨t, ?_, hname⟩
      rw [← hh, hid]
      simpa using hk
    · rw [← hh, hid] at h0
      exact absurd h0 (by decide)
  · rcases hcase with hc | ⟨hload, hslip⟩
    · exact absurd hc hex
    · obtain ⟨img, himg⟩ := Option.isSome_iff_exists.mp hload
      subst himg
      have hfresh : ∀ t ∈ r.mTextures, t._name ≠ n := fun t ht hn => hex ⟨t, ht, hn⟩
      have hthrough := CreateTextureFromFile_through dbg profile r n fileRoot bGenerateMips img
        dev hne hq hfresh h r1 hres
      obtain ⟨tex, r2, hstep, hreg, hname, _⟩ :=
        CreateTextureFromFile_fresh dbg profile r n fileRoot bGenerateMips img dev hne hq
          hfresh hthrough hslip hlen
      rw [hstep] at hres
      simp only [Option.some.injEq, Prod.mk.injEq] at hres
      obtain ⟨hh, hr⟩ := hres
      subst hr
      refine ⟨tex, ?_, hname⟩
      rw [← hh, hreg]
      simp

/-! ## C1: creating a texture whose name is already registered -/

/-- C1, as stated, fails: the name made of two double quotes is non-empty and
slot 0 of the registry holds a texture of that name with handle 0, yet
`CreateTextureFromFile` returns -1 for it (the guard of source line 721). -/
theorem C1_counterexample_quoted_name :
    quotedEmpty ≠ "" ∧
    (C1_registry.mTextures[0]?).map (fun t => (t._name, t._id)) = some (quotedEmpty, 0) ∧
    (CreateTextureFromFile false false C1_registry quotedEmpty "Data/Textures/" false
        (some ImageLoad.ok) Tex2DOutcome.ok).map Prod.fst = some (-1) := by
  decide

/-- C1, amended: for every registry and every file name `n` held by some slot,
`CreateTextureFromFile`, when `n` is neither empty nor the two-quote string,
returns the id stored in the first such slot and leaves the renderer (registry,
device trace, log) unchanged, in every build and whatever the file system and
the device would answer; `CreateHDRTexture` does the same for every name held
by some slot. -/
theorem C1_existing_name_returns_stored_handle
    (dbg profile debugNames : Bool) (r : Renderer) (n fileRoot hdrRoot : String)
    (bGenerateMips : Bool)
    (load : Option ImageLoad) (hdr : Option HDRLoad) (dev : Tex2DOutcome)
    (hex : ∃ t ∈ r.mTextures, t._name = n) :
    ∃ (k : Nat) (t : Texture), r.mTextures[k]? = some t ∧ t._name = n ∧
      (∀ j, j < k → ∀ u : Texture, r.mTextures[j]? = some u → u._name ≠ n) ∧
      (n ≠ "" → n ≠ quotedEmpty →
        CreateTextureFromFile dbg profile r n fileRoot bGenerateMips load dev
          = some (t._id, r)) ∧
      CreateHDRTexture debugNames r n hdrRoot hdr dev = some (t._id, r) := by
  obtain ⟨k, t, hk, hname, hmin⟩ := first_named r.mTextures n hex
  exact ⟨k, t, hk, hname, hmin,
    fun hne hq => CreateTextureFromFile_found dbg profile r n fileRoot bGenerateMips load dev
      hne hq k t hk hname hmin,
    CreateHDRTexture_found debugNames r n hdrRoot hdr dev k t hk hname hmin⟩

/-- Witness of C1 (amended): "brick.png" is held by slot 1 with handle 1. -/
theorem C1_existing_name_returns_stored_handle_witness :
    ∃ (k : Nat) (t : Texture), brickRegistry.mTextures[k]? = some t ∧ t._name = "brick.png" ∧
      (∀ j, j < k → ∀ u : Texture, brickRegistry.mTextures[j]? = some u →
        u._name ≠ "brick.png") ∧
      CreateTextureFromFile true false brickRegistry "brick.png" "Data/Textures/" false none
        Tex2DOutcome.ok = some (t._id, brickRegistry) ∧
      CreateHDRTexture true brickRegistry "brick.png" "Data/Textures/EnvironmentMaps/" none
        Tex2DOutcome.ok = some (t._id, brickRegistry) := by
  obtain ⟨k, t, h1, h2, h3, h4, h5⟩ :=
    C1_existing_name_returns_stored_handle true false true brickRegistry
      "brick.png" "Data/Textures/" "Data/Textures/EnvironmentMaps/" false none none
      Tex2DOutcome.ok ⟨Texture.named 1 "brick.png", by simp [brickRegistry], rfl⟩
  exact ⟨k, t, h1, h2, h3, h4 (by decide) (by decide), h5⟩

/-! ## C3: tombstone reuse in `CreateTexture2D` -/

/-- C3: a call of `CreateTexture2D(TextureDesc)` that gets past the debug-name
call (the build sets no debug names, or the descriptor has no name, or the
device created the resource) returns. On a registry (of fewer than 2^31 slots)
that holds a released slot (id -1) it returns the index `k` of the first
released slot, stores the new texture (name, size and backing resource of this
call, id `k`) at `k`, and changes no other slot and not the length; on a
registry with no released slot it appends exactly one slot, holding the new
texture, and returns the previous length. -/
theorem C3_tombstone_reuse (debugNames : Bool) (r : Renderer) (texDesc : TextureDesc)
    (dev : Tex2DOutcome) (hlen : r.mTextures.length < 2 ^ 31)
    (hret : debugNames = true → texDesc.texFileName ≠ "" → dev.tex2D ≠ none) :
    ∃ (id : TextureID) (r1 : Renderer),
      CreateTexture2D debugNames r texDesc dev = some (id, r1) ∧
      ((∃ t ∈ r.mTextures, t._id = -1) →
        ∃ k : Nat, k < r.mTextures.length ∧
          (∃ t : Texture, r.mTextures[k]? = some t ∧ t._id = -1) ∧
          (∀ j, j < k → ∀ u : Texture, r.mTextures[j]? = some u → u._id ≠ -1) ∧
          id = (k : Int) ∧
          (∃ tex : Texture, r1.mTextures[k]? = some tex ∧
            tex._id = (k : Int) ∧ tex._name = texDesc.texFileName ∧
            tex._width = texDesc.width ∧ tex._height = texDesc.height ∧
            tex._tex2D = dev.tex2D) ∧
          (∀ j, j ≠ k → r1.mTextures[j]? = r.mTextures[j]?) ∧
          r1.mTextures.length = r.mTextures.length) ∧
      ((∀ t ∈ r.mTextures, t._id ≠ -1) →
        id = (r.mTextures.length : Int) ∧
        ∃ tex : Texture, r1.mTextures = r.mTextures ++ [tex] ∧
          tex._id = (r.mTextures.length : Int) ∧ tex._name = texDesc.texFileName ∧
          tex._width = texDesc.width ∧ tex._height = texDesc.height ∧
          tex._tex2D = dev.tex2D) := by
  obtain ⟨hn, hw, hh, ht⟩ := CreateTexture2D.build_fields texDesc dev
  obtain ⟨k, tex, hk, hslot, hid, hname, hwid, hhei, htex, hother, hfirst, hlength⟩ :=
    CreateTexture2D.stored_spec r texDesc dev hlen
  refine ⟨(CreateTexture2D.stored r texDesc dev).1, (CreateTexture2D.stored r texDesc dev).2,
    CreateTexture2D_eq_some debugNames r texDesc dev hret, ?_, ?_⟩
  · rintro ⟨t0, ht0, hid0⟩
    have hlt : find_if (fun tex1 : Texture => tex1._id == -1) r.mTextures
        < r.mTextures.length := find_if_lt_of_mem _ _ t0 ht0 (by simp [hid0])
    obtain ⟨t, hget, hpt, hmin⟩ := find_if_spec _ _ hlt
    rw [← hfirst] at hlt hget hmin
    refine ⟨k, hlt, ⟨t, hget, by simpa using hpt⟩, ?_, hk,
      ⟨tex, hslot, hid, hname, hwid, hhei, htex⟩, hother, ?_⟩
    · intro j hj u hu
      simpa using hmin j hj u hu
    · rw [hlength, if_pos hlt]
  · intro hnone
    have hcast := static_cast_int_of_lt _ hlen
    rw [CreateTexture2D.stored_no_released r texDesc dev hnone]
    exact ⟨hcast, _, rfl, hcast, hn, hw, hh, ht⟩

/-- Witness of C3: a registry with released slots at 1 and 3; the call returns
1 and stores there. -/
theorem C3_tombstone_reuse_witness :
    recycledRegistry.mTextures.length < 2 ^ 31 ∧
    (∃ t ∈ recycledRegistry.mTextures, t._id = -1) ∧
    (CreateTexture2D true recycledRegistry TextureDesc.plain Tex2DOutcome.ok).map Prod.fst
      = some 1 ∧
    ∃ (id : TextureID) (r1 : Renderer),
      CreateTexture2D true recycledRegistry TextureDesc.plain Tex2DOutcome.ok = some (id, r1) ∧
      ∃ k : Nat, k < recycledRegistry.mTextures.length ∧
        (∃ t : Texture, recycledRegistry.mTextures[k]? = some t ∧ t._id = -1) ∧
        (∀ j, j < k → ∀ u : Texture, recycledRegistry.mTextures[j]? = some u → u._id ≠ -1) ∧
        id = (k : Int) ∧
        (∃ tex : Texture, r1.mTextures[k]? = some tex ∧
          tex._id = (k : Int) ∧ tex._name = TextureDesc.plain.texFileName ∧
          tex._width = TextureDesc.plain.width ∧ tex._height = TextureDesc.plain.height ∧
          tex._tex2D = Tex2DOutcome.ok.tex2D) ∧
        (∀ j, j ≠ k → r1.mTextures[j]? = recycledRegistry.mTextures[j]?) ∧
        r1.mTextures.length = recycledRegistry.mTextures.length := by
  obtain ⟨id, r1, hrun, hreuse, _⟩ :=
    C3_tombstone_reuse true recycledRegistry TextureDesc.plain Tex2DOutcome.ok (by decide)
      (fun _ _ => by decide)
  exact ⟨by decide, ⟨Texture.released, by simp [recycledRegistry], rfl⟩, by decide,
    id, r1, hrun, hreuse ⟨Texture.released, by simp [recycledRegistry], rfl⟩⟩

/-! ## C2: distinct names, distinct handles -/

/-- A run of `CreateTextureFromFile` calls on a registry whose slots store
their own index, each name being held already or naming a file that loads:
every call returns the index of the first slot that holds its name in the
final registry, which extends the initial one. -/
theorem runCreates_spec (dbg profile : Bool) (calls : List FileCall) :
    ∀ r : Renderer,
      (∀ c ∈ calls, c.texFileName ≠ "" ∧ c.texFileName ≠ quotedEmpty ∧
        ((∃ t ∈ r.mTextures, t._name = c.texFileName) ∨
          ∃ img, c.load = some img ∧
            LoadsThrough (dbg || profile) c.bGenerateMips img c.dev)) →
      IdIsIndex r.mTextures →
      r.mTextures.length + calls.length ≤ 2 ^ 31 →
      ∃ (hs : List TextureID) (r1 : Renderer) (news : List Texture),
        runCreates dbg profile r calls = some (hs, r1) ∧
        IdIsIndex r1.mTextures ∧ r1.mTextures = r.mTextures ++ news ∧
        news.length ≤ calls.length ∧ hs.length = calls.length ∧
        ∀ (i : Nat) (c : FileCall), calls[i]? = some c →
          ∃ (k : Nat) (t : Texture), hs[i]? = some (k : Int) ∧ r1.mTextures[k]? = some t ∧
            t._name = c.texFileName ∧
            ∀ j, j < k → ∀ u : Texture, r1.mTextures[j]? = some u →
              u._name ≠ c.texFileName := by
  induction calls with
  | nil =>
    intro r _ hidx _
    exact ⟨[], r, [], rfl, hidx, by simp, Nat.le_refl _, rfl, fun i c hc => by cases hc⟩
  | cons c cs ih =>
    intro r hok hidx hlen
    have hc := hok c (List.mem_cons_self _ _)
    simp only [List.length_cons] at hlen
    by_cases hex : ∃ t ∈ r.mTextures, t._name = c.texFileName
    · obtain ⟨k, t, hk, hname, hmin⟩ := first_named r.mTextures c.texFileName hex
      have hstep := CreateTextureFromFile_found dbg profile r c.texFileName c.fileRoot
        c.bGenerateMips c.load c.dev hc.1 hc.2.1 k t hk hname hmin
      have hid : t._id = (k : Int) := hidx k t hk
      have hkl := (List.getElem?_eq_some.mp hk).1
      obtain ⟨hs, r1, news, hrun, hidx1, hreg, hnl, hsl, hall⟩ := ih r
        (fun d hd => hok d (List.mem_cons_of_mem _ hd)) hidx (by omega)
      refine ⟨(k : Int) :: hs, r1, news, ?_, hidx1, hreg, by simp; omega, by simp [hsl], ?_⟩
      · simp only [runCreates, hstep, hrun, hid]
      · intro i d hd
        cases i with
        | zero =>
          simp only [List.getElem?_cons_zero, Option.some.injEq] at hd
          subst hd
          refine ⟨k, t, List.getElem?_cons_zero, ?_, hname, ?_⟩
          · rw [hreg, List.getElem?_append_left hkl]
            exact hk
          · intro j hj u hu
            rw [hreg, List.getElem?_append_left (by omega)] at hu
            exact hmin j hj u hu
        | succ i =>
          simp only [List.getElem?_cons_succ] at hd ⊢
          exact hall i d hd
    · have hfresh : ∀ t ∈ r.mTextures, t._name ≠ c.texFileName :=
        fun t ht hn => hex ⟨t, ht, hn⟩
      rcases hc.2.2 with hheld | ⟨img, hload, hthrough⟩
      · exact absurd hheld hex
      · obtain ⟨tex, r0, hstep, hreg0, hname, hid⟩ :=
          CreateTextureFromFile_fresh dbg profile r c.texFileName c.fileRoot c.bGenerateMips
            img c.dev hc.1 hc.2.1 hfresh hthrough
            (fun _ => IdIsIndex_no_released _ hidx) (by omega)
        have hidx0 : IdIsIndex r0.mTextures := by
          rw [hreg0]
          exact (IdsOk_true_iff _).mp
            (IdsOk_append true _ tex ((IdsOk_true_iff _).mpr hidx) hid)
        obtain ⟨hs, r1, news, hrun, hidx1, hreg, hnl, hsl, hall⟩ := ih r0
          (by
            intro d hd
            obtain ⟨h1, h2, h3⟩ := hok d (List.mem_cons_of_mem _ hd)
            refine ⟨h1, h2, ?_⟩
            rcases h3 with ⟨t, ht, hn⟩ | h3
            · exact Or.inl ⟨t, by rw [hreg0]; exact List.mem_append_left _ ht, hn⟩
            · exact Or.inr h3)
          hidx0 (by rw [hreg0]; simp; omega)
        refine ⟨(r.mTextures.length : Int) :: hs, r1, tex :: news, ?_, hidx1, ?_,
          by simp; omega, by simp [hsl], ?_⟩
        · simp only [runCreates, hload, hstep, hrun]
        · rw [hreg, hreg0, List.append_assoc]
          rfl
        · intro i d hd
          cases i with
          | zero =>
            simp only [List.getElem?_cons_zero, Option.some.injEq] at hd
            subst hd
            refine ⟨r.mTextures.length, tex, List.getElem?_cons_zero, ?_, hname, ?_⟩
            · rw [hreg, hreg0, List.append_assoc, List.getElem?_append_right (Nat.le_refl _)]
              simp
            · intro j hj u hu
              rw [hreg, hreg0, List.append_assoc, List.getElem?_append_left hj] at hu
              exact hfresh u (List.mem_iff_getElem?.mpr ⟨j, hu⟩)
          | succ i =>
            simp only [List.getElem?_cons_succ] at hd ⊢
            exact hall i d hd

/-- C2, as stated, fails: two calls with the distinct non-empty names "a.png"
and "b.png", neither of which can be loaded, both return handle 0 (the id of
slot 0, source line 814). -/
theorem C2_counterexample_unloadable_files :
    "a.png" ≠ "b.png" ∧ "a.png" ≠ "" ∧ "b.png" ≠ "" ∧
    (runCreates false false backBufferRegistry
        [FileCall.missing "a.png", FileCall.missing "b.png"]).map Prod.fst = some [0, 0] := by
  decide

/-- C2, amended: on a registry whose slots store their own index, for every
sequence of `CreateTextureFromFile` calls with pairwise distinct names, none
empty and none the two-quote string, each name being held by the registry
already or naming a file that loads with outcomes that let the creation path
through, issued while the registry stays below 2^31 slots: the run returns,
the returned handles are pairwise distinct, and calling `CreateTextureFromFile`
again with any of those names (whatever the build, the other arguments and the
answers of the file system and the device) returns the handle issued for that
name and leaves the renderer, hence the length of the registry, unchanged. -/
theorem C2_distinct_names_distinct_handles (dbg profile : Bool) (r : Renderer)
    (calls : List FileCall)
    (hnd : (calls.map (fun c => c.texFileName)).Nodup)
    (hok : ∀ c ∈ calls, c.texFileName ≠ "" ∧ c.texFileName ≠ quotedEmpty ∧
      ((∃ t ∈ r.mTextures, t._name = c.texFileName) ∨
        ∃ img, c.load = some img ∧
          LoadsThrough (dbg || profile) c.bGenerateMips img c.dev))
    (hidx : IdIsIndex r.mTextures)
    (hlen : r.mTextures.length + calls.length ≤ 2 ^ 31) :
    ∃ (hs : List TextureID) (r1 : Renderer),
      runCreates dbg profile r calls = some (hs, r1) ∧ hs.length = calls.length ∧ hs.Nodup ∧
      ∀ (i : Nat) (c : FileCall) (h : TextureID), calls[i]? = some c → hs[i]? = some h →
        ∀ (dbg2 profile2 : Bool) (fileRoot : String) (bGenerateMips : Bool)
          (load : Option ImageLoad) (dev : Tex2DOutcome),
          CreateTextureFromFile dbg2 profile2 r1 c.texFileName fileRoot bGenerateMips load dev
            = some (h, r1) := by
  obtain ⟨hs, r1, news, hrun, hidx1, _, _, hsl, hall⟩ :=
    runCreates_spec dbg profile calls r hok hidx hlen
  refine ⟨hs, r1, hrun, hsl, ?_, ?_⟩
  · rw [List.nodup_iff_getElem?_ne_getElem?]
    intro i j hij hj heq
    rw [hsl] at hj
    obtain ⟨ci, hci⟩ : ∃ c, calls[i]? = some c :=
      ⟨calls[i], List.getElem?_eq_getElem (by omega)⟩
    obtain ⟨cj, hcj⟩ : ∃ c, calls[j]? = some c := ⟨calls[j], List.getElem?_eq_getElem hj⟩
    obtain ⟨ki, ti, hhi, hti, hni, _⟩ := hall i ci hci
    obtain ⟨kj, tj, hhj, htj, hnj, _⟩ := hall j cj hcj
    rw [hhi, hhj] at heq
    have hk : ki = kj := by
      have : (ki : Int) = (kj : Int) := Option.some.inj heq
      omega
    subst hk
    rw [hti] at htj
    have htt : ti = tj := Option.some.inj htj
    have hnames : ci.texFileName = cj.texFileName := by rw [← hni, ← hnj, htt]
    refine (List.nodup_iff_getElem?_ne_getElem?.mp hnd) i j hij (by simpa using hj) ?_
    rw [List.getElem?_map, List.getElem?_map, hci, hcj]
    simp only [Option.map_some', hnames]
  · intro i c h hc hh dbg2 profile2 fileRoot bGenerateMips load dev
    obtain ⟨k, t, hhk, ht, hname, hmin⟩ := hall i c hc
    have hcm : c ∈ calls := List.mem_iff_getElem?.mpr ⟨i, hc⟩
    have hck := hok c hcm
    rw [hhk] at hh
    rw [← Option.some.inj hh, ← hidx1 k t ht]
    exact CreateTextureFromFile_found dbg2 profile2 r1 c.texFileName fileRoot bGenerateMips
      load dev hck.1 hck.2.1 k t ht hname hmin

/-- The calls of the example run on a registry that holds "brick.png": that
name is held already, "wood.png" names a file that loads. -/
theorem twoCalls_ok : ∀ c ∈ twoCalls,
    c.texFileName ≠ "" ∧ c.texFileName ≠ quotedEmpty ∧
    ((∃ t ∈ brickRegistry.mTextures, t._name = c.texFileName) ∨
      ∃ img, c.load = some img ∧ LoadsThrough (true || false) c.bGenerateMips img c.dev) := by
  intro c hc
  simp only [twoCalls, List.mem_cons, List.mem_singleton, List.not_mem_nil, or_false] at hc
  rcases hc with rfl | rfl
  · exact ⟨by decide, by decide,
      Or.inl ⟨Texture.named 1 "brick.png", by simp [brickRegistry], rfl⟩⟩
  · exact ⟨by decide, by decide, Or.inr ⟨ImageLoad.ok, rfl, by decide,
      fun _ => ⟨by decide, by decide, fun _ => by decide⟩⟩⟩

theorem brickRegistry_idIsIndex : IdIsIndex brickRegistry.mTextures := by
  intro i t h
  simp only [brickRegistry, Renderer.blank] at h
  rcases i with _ | _ | i <;>
    simp only [List.getElem?_cons_zero, List.getElem?_cons_succ, Option.some.injEq,
      List.getElem?_nil] at h
  · subst h; decide
  · subst h; decide
  · cases h

/-- Witness of C2 (amended): on a registry that holds "brick.png" in slot 1,
the calls for "brick.png" and for "wood.png" (with mips) receive the handles 1
and 2. -/
theorem C2_distinct_names_distinct_handles_witness :
    (twoCalls.map (fun c => c.texFileName)).Nodup ∧
    brickRegistry.mTextures.length + twoCalls.length ≤ 2 ^ 31 ∧
    (runCreates true false brickRegistry twoCalls).map Prod.fst = some [1, 2] ∧
    ∃ (hs : List TextureID) (r1 : Renderer),
      runCreates true false brickRegistry twoCalls = some (hs, r1) ∧
      hs.length = twoCalls.length ∧ hs.Nodup ∧
      ∀ (i : Nat) (c : FileCall) (h : TextureID), twoCalls[i]? = some c → hs[i]? = some h →
        ∀ (dbg2 profile2 : Bool) (fileRoot : String) (bGenerateMips : Bool)
          (load : Option ImageLoad) (dev : Tex2DOutcome),
          CreateTextureFromFile dbg2 profile2 r1 c.texFileName fileRoot bGenerateMips load dev
            = some (h, r1) :=
  ⟨by decide, by decide, by decide,
   C2_distinct_names_distinct_handles true false brickRegistry twoCalls (by decide)
     twoCalls_ok brickRegistry_idIsIndex (by decide)⟩

/-! ## C4: returned handles index their registry -/

theorem foldl_logged_mTextures (faces : List String) (r : Renderer) :
    (faces.foldl (fun acc f => acc.logged LogLevel.Error f) r).mTextures = r.mTextures := by
  induction faces generalizing r with
  | nil => rfl
  | cons f fs ih =>
    simp only [List.foldl_cons]
    rw [ih]
    rfl

/-- The call `CreateCubemapFromFaceTextures` either fails with -1 and leaves the
registry alone, or appends the cube map and returns the previous length. -/
theorem CreateCubemapFromFaceTextures_spec (dbg : Bool) (r : Renderer)
    (textureFiles : List String) (dev : CubemapOutcome) (hlen : r.mTextures.length < 2 ^ 31) :
    ((CreateCubemapFromFaceTextures dbg r textureFiles dev).1 = -1 ∧
      (CreateCubemapFromFaceTextures dbg r textureFiles dev).2.mTextures = r.mTextures) ∨
    (∃ (tex : Texture) (p s : Ptr), dev.tex2D = some p ∧ dev.srv = some s ∧
      (CreateCubemapFromFaceTextures dbg r textureFiles dev).1 = (r.mTextures.length : Int) ∧
      (CreateCubemapFromFaceTextures dbg r textureFiles dev).2.mTextures
        = r.mTextures ++ [tex] ∧
      tex._tex2D = p ∧ tex._srv = s ∧ tex._id = (r.mTextures.length : Int)) := by
  have hcast := static_cast_int_of_lt _ hlen
  have hfold := foldl_logged_mTextures dev.failedFaces r
  unfold CreateCubemapFromFaceTextures
  generalize dev.failedFaces.foldl (fun acc f => acc.logged LogLevel.Error f) r = r0
    at hfold ⊢
  cases h1 : dev.tex2D with
  | none =>
    left
    cases dbg <;> simp [Renderer.logged, Renderer.called, hfold]
  | some p =>
    cases h2 : dev.srv with
    | none =>
      left
      cases dbg <;> simp [Renderer.logged, Renderer.called, hfold]
    | some s =>
      right
      cases dbg <;>
        simp [Renderer.logged, Renderer.called, hfold, hcast, Texture.new]

/-- The descriptor overload of `AddRenderTarget`: it returns whenever the
texture creation gets past the debug name, and a returned non-negative handle
is below the length of the render target registry. -/
theorem AddRenderTarget_Desc_spec (debugNames : Bool) (r : Renderer)
    (textureDesc : TextureDesc) (texDev : Tex2DOutcome) (dev : Option Ptr)
    (hT : r.mTextures.length < 2 ^ 31) (hRT : r.mRenderTargets.length < 2 ^ 31) :
    ((debugNames = true → textureDesc.texFileName ≠ "" → texDev.tex2D ≠ none) →
      ∃ (h : RenderTargetID) (r1 : Renderer),
        AddRenderTarget_Desc debugNames r textureDesc texDev dev = some (h, r1)) ∧
    ∀ (h : RenderTargetID) (r1 : Renderer),
      AddRenderTarget_Desc debugNames r textureDesc texDev dev = some (h, r1) →
      0 ≤ h → h.toNat < r1.mRenderTargets.length := by
  by_cases hret : debugNames = true → textureDesc.texFileName ≠ "" → texDev.tex2D ≠ none
  · obtain ⟨k, tex, _, _, hget, _, _⟩ := CreateTexture2D.stored_get r textureDesc texDev hT
    have hrt := (CreateTexture2D.stored_frame r textureDesc texDev).2.1
    have heq := CreateTexture2D_eq_some debugNames r textureDesc texDev hret
    unfold AddRenderTarget_Desc
    simp only [heq, hget]
    cases dev with
    | none =>
      refine ⟨fun _ => ⟨_, _, rfl⟩, fun h r1 hres h0 => ?_⟩
      have h1 := congrArg Prod.fst (Option.some.inj hres)
      simp only [] at h1
      rw [← h1] at h0
      exact absurd h0 (by decide)
    | some p =>
      refine ⟨fun _ => ⟨_, _, rfl⟩, fun h r1 hres _ => ?_⟩
      have h1 := congrArg Prod.fst (Option.some.inj hres)
      have h2 := congrArg Prod.snd (Option.some.inj hres)
      simp only [] at h1 h2
      rw [← h1, ← h2]
      simp only [Renderer.called, hrt, List.length_append, List.length_singleton,
        Nat.add_sub_cancel, static_cast_int_of_lt _ hRT, Int.toNat_ofNat]
      omega
  · have hnone : CreateTexture2D debugNames r textureDesc texDev = none := by
      cases hc : CreateTexture2D debugNames r textureDesc texDev with
      | none => rfl
      | some c => exact absurd (CreateTexture2D_of_some debugNames r textureDesc texDev c hc).2 hret
    refine ⟨fun h => absurd h hret, fun h r1 hres _ => ?_⟩
    unfold AddRenderTarget_Desc at hres
    simp only [hnone] at hres
    cases hres

/-- C4, as stated, fails:
`CreateTextureFromFile("missing.png")` for a file that cannot be loaded returns
the non-negative handle 0 and leaves the registry as it was; slot 0 holds the
back buffer texture (name ""), a texture that the call neither created nor
found under the name "missing.png". -/
theorem C4_counterexample_unloadable_file :
    (CreateTextureFromFile false false backBufferRegistry "missing.png" "Data/Textures/" false
        none Tex2DOutcome.ok).map (fun p => (p.1, p.2.mTextures))
      = some (0, backBufferRegistry.mTextures) ∧
    (backBufferRegistry.mTextures[0]?).map (fun t => t._name) = some "" ∧
    "" ≠ "missing.png" ∧
    backBufferRegistry.mTextures.all (fun t => t._name != "missing.png") = true := by
  decide

/-- C4, amended: on a renderer whose registries have fewer than 2^31 entries and
whose texture registry is non-empty and satisfies the id invariant, every
non-negative handle returned by `CreateTexture2D` (both overloads),
`CreateTextureFromFile`, `CreateCubemapFromFaceTextures`, `CreateBuffer`,
`AddRasterizerState` and `AddRenderTarget` (both overloads) is, right after the
call, less than the length of the corresponding registry. The slot at that
index holds the texture the call created (`CreateTexture2D`,
`CreateCubemapFromFaceTextures`) and, for `CreateTextureFromFile` with a name
that is neither empty nor the two-quote string, a texture of the requested name
whenever the name was found or the file loaded (a mip-generating call meeting
no released slot). The calls that can stop on a null pointer do return a
handle under these conditions: `CreateTexture2D` and the descriptor overload
of `AddRenderTarget` unless the build sets debug names (Debug or PROFILE), the
descriptor is named and the device created no resource; `CreateTextureFromFile`
when a loaded image comes with its shader resource view and, with mips, has a
width and a height of at least 1 and gets past the same debug name. -/
theorem C4_returned_handles_index_their_registry (r : Renderer) (hsz : SizesOk r)
    (hinv : RegistryInv r.mTextures) (hne : r.mTextures ≠ []) :
    (∀ (debugNames : Bool) (texDesc : TextureDesc) (dev : Tex2DOutcome),
      ((debugNames = true → texDesc.texFileName ≠ "" → dev.tex2D ≠ none) →
        ∃ (h : TextureID) (r1 : Renderer),
          CreateTexture2D debugNames r texDesc dev = some (h, r1)) ∧
      ∀ (h : TextureID) (r1 : Renderer),
        CreateTexture2D debugNames r texDesc dev = some (h, r1) → 0 ≤ h →
        h.toNat < r1.mTextures.length ∧
        ∃ tex : Texture, r1.mTextures[h.toNat]? = some tex ∧
          tex._name = texDesc.texFileName ∧ tex._width = texDesc.width ∧
          tex._height = texDesc.height ∧ tex._tex2D = dev.tex2D) ∧
    (∀ (tex : Texture) (calls : List DeviceCall),
      0 ≤ (CreateTexture2D_D3D11 r tex calls).1 →
      (CreateTexture2D_D3D11 r tex calls).1.toNat
          < (CreateTexture2D_D3D11 r tex calls).2.mTextures.length ∧
      (CreateTexture2D_D3D11 r tex calls).2.mTextures[(CreateTexture2D_D3D11 r tex calls).1.toNat]?
        = some { tex with _id := (CreateTexture2D_D3D11 r tex calls).1 }) ∧
    (∀ (dbg profile : Bool) (n fileRoot : String) (bGenerateMips : Bool)
        (load : Option ImageLoad) (dev : Tex2DOutcome),
      ((∀ img, load = some img → LoadsThrough (dbg || profile) bGenerateMips img dev) →
        ∃ (h : TextureID) (r1 : Renderer),
          CreateTextureFromFile dbg profile r n fileRoot bGenerateMips load dev
            = some (h, r1)) ∧
      ∀ (h : TextureID) (r1 : Renderer),
        CreateTextureFromFile dbg profile r n fileRoot bGenerateMips load dev = some (h, r1) →
        0 ≤ h →
        h.toNat < r1.mTextures.length ∧
          (n ≠ "" → n ≠ quotedEmpty →
            ((∃ t ∈ r.mTextures, t._name = n) ∨
              (load.isSome = true ∧
                (bGenerateMips = true → ∀ t ∈ r.mTextures, t._id ≠ -1))) →
            ∃ tex : Texture, r1.mTextures[h.toNat]? = some tex ∧ tex._name = n)) ∧
    (∀ (dbg : Bool) (textureFiles : List String) (dev : CubemapOutcome),
      0 ≤ (CreateCubemapFromFaceTextures dbg r textureFiles dev).1 →
      (CreateCubemapFromFaceTextures dbg r textureFiles dev).1.toNat
          < (CreateCubemapFromFaceTextures dbg r textureFiles dev).2.mTextures.length ∧
      ∃ tex : Texture,
        (CreateCubemapFromFaceTextures dbg r textureFiles dev).2.mTextures[
            (CreateCubemapFromFaceTextures dbg r textureFiles dev).1.toNat]? = some tex ∧
        some tex._tex2D = dev.tex2D ∧ some tex._srv = dev.srv) ∧
    (∀ (bufferDesc : BufferDesc) (gpu : Ptr),
      0 ≤ (CreateBuffer r bufferDesc gpu).1 →
      (CreateBuffer r bufferDesc gpu).1.toNat
          < ((CreateBuffer r bufferDesc gpu).2.buffersOf bufferDesc.mType).length) ∧
    (∀ dev : Option Ptr,
      0 ≤ (AddRasterizerState r dev).1 →
      (AddRasterizerState r dev).1.toNat < (AddRasterizerState r dev).2.mRasterizerStates.length) ∧
    (∀ (textureObj : Texture) (dev : Option Ptr),
      0 ≤ (AddRenderTarget r textureObj dev).1 →
      (AddRenderTarget r textureObj dev).1.toNat
          < (AddRenderTarget r textureObj dev).2.mRenderTargets.length) ∧
    (∀ (debugNames : Bool) (textureDesc : TextureDesc) (texDev : Tex2DOutcome)
        (dev : Option Ptr),
      ((debugNames = true → textureDesc.texFileName ≠ "" → texDev.tex2D ≠ none) →
        ∃ (h : RenderTargetID) (r1 : Renderer),
          AddRenderTarget_Desc debugNames r textureDesc texDev dev = some (h, r1)) ∧
      ∀ (h : RenderTargetID) (r1 : Renderer),
        AddRenderTarget_Desc debugNames r textureDesc texDev dev = some (h, r1) →
        0 ≤ h → h.toNat < r1.mRenderTargets.length) := by
  obtain ⟨hT, hV, hI, hU, hR, hRT⟩ := hsz
  refine ⟨?_, ?_, ?_, ?_, ?_, ?_, ?_, ?_⟩
  · intro debugNames texDesc dev
    refine ⟨fun hret => ⟨_, _, CreateTexture2D_eq_some debugNames r texDesc dev hret⟩,
      fun h r1 hres _ => ?_⟩
    obtain ⟨k, tex, hk, hslot, _, hn, hw, hh, ht, _⟩ :=
      CreateTexture2D.stored_spec r texDesc dev hT
    have hc := (CreateTexture2D_of_some debugNames r texDesc dev (h, r1) hres).1
    rw [← hc] at hk hslot
    simp only [] at hk hslot
    rw [hk]
    simp only [Int.toNat_ofNat]
    exact ⟨(List.getElem?_eq_some.mp hslot).1, tex, hslot, hn, hw, hh, ht⟩
  · intro tex calls _
    have hcast : static_cast_int (r.mTextures.length + 1 - 1) = (r.mTextures.length : Int) := by
      rw [Nat.add_sub_cancel]
      exact static_cast_int_of_lt _ hT
    simp only [CreateTexture2D_D3D11, hcast, Int.toNat_ofNat, Renderer.called]
    simp
  · intro dbg profile n fileRoot bGenerateMips load dev
    refine ⟨fun hthrough => CreateTextureFromFile_returns dbg profile r n fileRoot
      bGenerateMips load dev hT hne hthrough, fun h r1 hres h0 => ⟨?_, fun hn hq hcase => ?_⟩⟩
    · obtain ⟨hinv1, hh⟩ := CreateTextureFromFile_post false dbg profile r n fileRoot
        bGenerateMips load dev hT ((IdsOk_false_iff _).mpr hinv) h r1 hres
      rcases hh with hm | ⟨i, t, hi, hid⟩
      · rw [hm] at h0
        exact absurd h0 (by decide)
      · rw [← hid] at h0 ⊢
        exact (IdsOk_in_range false _ hinv1 i t hi h0).2
    · exact CreateTextureFromFile_holds dbg profile r n fileRoot bGenerateMips load dev hT
        hinv hn hq hcase h r1 hres h0
  · intro dbg textureFiles dev h0
    rcases CreateCubemapFromFaceTextures_spec dbg r textureFiles dev hT with
      ⟨hfail, _⟩ | ⟨tex, p, s, hp, hs, hid, hreg, htex, hsrv, _⟩
    · rw [hfail] at h0
      exact absurd h0 (by decide)
    · rw [hid, hreg]
      simp only [Int.toNat_ofNat, List.length_append, List.length_singleton,
        List.getElem?_concat_length]
      exact ⟨by omega, tex, rfl, by rw [htex, hp], by rw [hsrv, hs]⟩
  · intro bufferDesc gpu h0
    unfold CreateBuffer at h0 ⊢
    cases hty : bufferDesc.mType <;> simp only [hty] at h0 ⊢
    · simp only [Renderer.called, List.length_append, List.length_singleton,
        Nat.add_sub_cancel, static_cast_int_of_lt _ hV, Int.toNat_ofNat, Renderer.buffersOf]
      omega
    · simp only [Renderer.called, List.length_append, List.length_singleton,
        Nat.add_sub_cancel, static_cast_int_of_lt _ hI, Int.toNat_ofNat, Renderer.buffersOf]
      omega
    · simp only [Renderer.called, List.length_append, List.length_singleton,
        Nat.add_sub_cancel, static_cast_int_of_lt _ hU, Int.toNat_ofNat, Renderer.buffersOf]
      omega
    · exact absurd h0 (by decide)
  · intro dev h0
    unfold AddRasterizerState at h0 ⊢
    cases dev with
    | none => exact absurd (show (0 : Int) ≤ -1 from h0) (by decide)
    | some p =>
      simp only [Renderer.called, List.length_append, List.length_singleton,
        Nat.add_sub_cancel, static_cast_int_of_lt _ hR, Int.toNat_ofNat]
      omega
  · intro textureObj dev h0
    unfold AddRenderTarget at h0 ⊢
    cases dev with
    | none => exact absurd (show (0 : Int) ≤ -1 from h0) (by decide)
    | some p =>
      simp only [Renderer.called, List.length_append, List.length_singleton,
        Nat.add_sub_cancel, static_cast_int_of_lt _ hRT, Int.toNat_ofNat]
      omega
  · intro debugNames textureDesc texDev dev
    exact AddRenderTarget_Desc_spec debugNames r textureDesc texDev dev hT hRT

theorem recycledRegistry_inv : RegistryInv recycledRegistry.mTextures := by
  intro i t h
  simp only [recycledRegistry, Renderer.blank] at h
  rcases i with _ | _ | _ | _ | _ | i <;>
    simp only [List.getElem?_cons_zero, List.getElem?_cons_succ, Option.some.injEq,
      List.getElem?_nil] at h
  · subst h; decide
  · subst h; decide
  · subst h; decide
  · subst h; decide
  · subst h; decide
  · cases h

theorem recycledRegistry_sizes : SizesOk recycledRegistry := by
  simp only [SizesOk, recycledRegistry, Renderer.blank, List.length_cons, List.length_nil]
  decide

/-- Witness of C4 (amended), on a registry with released slots: the handle of
`CreateTexture2D` and the handle of `CreateTextureFromFile`. -/
theorem C4_returned_handles_index_their_registry_witness :
    SizesOk recycledRegistry ∧ RegistryInv recycledRegistry.mTextures ∧
    recycledRegistry.mTextures ≠ [] ∧
    (∀ (debugNames : Bool) (texDesc : TextureDesc) (dev : Tex2DOutcome),
      ((debugNames = true → texDesc.texFileName ≠ "" → dev.tex2D ≠ none) →
        ∃ (h : TextureID) (r1 : Renderer),
          CreateTexture2D debugNames recycledRegistry texDesc dev = some (h, r1)) ∧
      ∀ (h : TextureID) (r1 : Renderer),
        CreateTexture2D debugNames recycledRegistry texDesc dev = some (h, r1) → 0 ≤ h →
        h.toNat < r1.mTextures.length ∧
        ∃ tex : Texture, r1.mTextures[h.toNat]? = some tex ∧
          tex._name = texDesc.texFileName ∧ tex._width = texDesc.width ∧
          tex._height = texDesc.height ∧ tex._tex2D = dev.tex2D) ∧
    (CreateTexture2D true recycledRegistry TextureDesc.plain Tex2DOutcome.ok).map Prod.fst
      = some 1 ∧
    (CreateTextureFromFile true false recycledRegistry "wood.png" "Data/Textures/" false
        (some ImageLoad.ok) Tex2DOutcome.ok).map Prod.fst = some 5 :=
  ⟨recycledRegistry_sizes, recycledRegistry_inv, by decide,
   (C4_returned_handles_index_their_registry recycledRegistry recycledRegistry_sizes
      recycledRegistry_inv (by decide)).1, by decide, by decide⟩
/-! ## Lemmas on `SetConstant` -/

theorem strcmpList_eq_zero (a b : List Char) : strcmpList a b = 0 ↔ a = b := by
  induction a generalizing b with
  | nil => cases b <;> simp [strcmpList]
  | cons x xs ih =>
    cases b with
    | nil => simp [strcmpList]
    | cons y ys =>
      simp only [strcmpList]
      by_cases hxy : x = y
      · simp [hxy, ih]
      · simp only [hxy, if_false, List.cons.injEq, false_and, iff_false]
        split <;> decide

theorem strcmp_self (a : String) : strcmp a a = 0 := (strcmpList_eq_zero _ _).mpr rfl

theorem cstr_of_isCString (s : String) (h : isCString s) : cstr s = s.toList := by
  unfold cstr
  rw [List.takeWhile_eq_self_iff]
  intro c hc
  simpa using h c hc

theorem strcmp_eq_zero_iff (a b : String) (ha : isCString a) (hb : isCString b) :
    strcmp a b = 0 ↔ a = b := by
  unfold strcmp
  rw [strcmpList_eq_zero, cstr_of_isCString a ha, cstr_of_isCString b hb]
  constructor
  · intro h
    exact String.ext h
  · intro h
    rw [h]

theorem SetConstant.visit_nomatch (cName : String) (data : List Nat) (s : Shader) (f : Bool)
    (slot cid : Nat) (c : CPUConstant) (hc : s.mCPUConstantBuffers[cid]? = some c)
    (hn : strcmp cName c._name ≠ 0) :
    SetConstant.visit cName data (s, f) (slot, cid) = some (s, f) := by
  simp only [SetConstant.visit, hc, hn, if_false]

theorem SetConstant.visit_match (cName : String) (data : List Nat) (s : Shader) (f : Bool)
    (slot cid : Nat) (c : CPUConstant) (b : ConstantBuffer)
    (hc : s.mCPUConstantBuffers[cid]? = some c) (hn : strcmp cName c._name = 0)
    (hd : c._size ≤ data.length) (hs : c._size ≤ c._data.length)
    (hb : s.mConstantBuffers[slot]? = some b) :
    SetConstant.visit cName data (s, f) (slot, cid) =
      some ({ s with
              mCPUConstantBuffers := s.mCPUConstantBuffers.set cid
                { c with _data := data.take c._size ++ c._data.drop c._size },
              mConstantBuffers := s.mConstantBuffers.set slot { b with dirty := true } },
            true) := by
  simp only [SetConstant.visit, hc, hn, if_true, memcpy, hd, hs, and_self, hb]

theorem LoopRel.refl (cName : String) (data : List Nat) (ms : List (Nat × Nat)) (s : Shader) :
    LoopRel cName data ms s s :=
  { name_eq := rfl, constants_eq := rfl, textures_eq := rfl, samplers_eq := rfl,
    cpu_length := rfl, cb_length := rfl,
    cpu := fun _ c hc => ⟨c, hc, rfl, rfl, rfl, rfl, Or.inl rfl⟩,
    cb := fun _ b hb => ⟨b, hb, rfl, Or.inl rfl⟩ }

theorem LoopRel.of_match (cName : String) (data : List Nat) (s : Shader)
    (slot cid : Nat) (c : CPUConstant) (b : ConstantBuffer)
    (hc : s.mCPUConstantBuffers[cid]? = some c) (hn : strcmp cName c._name = 0)
    (hd : c._size ≤ data.length) (hs : c._size ≤ c._data.length)
    (hb : s.mConstantBuffers[slot]? = some b) :
    LoopRel cName data [(slot, cid)] s
      { s with
        mCPUConstantBuffers := s.mCPUConstantBuffers.set cid
          { c with _data := data.take c._size ++ c._data.drop c._size },
        mConstantBuffers := s.mConstantBuffers.set slot { b with dirty := true } } := by
  have hcl := (List.getElem?_eq_some.mp hc).1
  have hbl := (List.getElem?_eq_some.mp hb).1
  have htl : (data.take c._size).length = c._size := by
    rw [List.length_take]
    omega
  refine { name_eq := rfl, constants_eq := rfl, textures_eq := rfl, samplers_eq := rfl,
           cpu_length := by simp, cb_length := by simp, cpu := ?_, cb := ?_ }
  · intro j c0 hj
    by_cases hjc : j = cid
    · subst hjc
      rw [hc] at hj
      cases hj
      refine ⟨_, List.getElem?_set_self hcl, rfl, rfl, ?_, ?_, Or.inr ⟨hn, ⟨(slot, j), by simp, rfl⟩, ?_⟩⟩
      · simp only [List.length_append, List.length_take, List.length_drop]
        omega
      · rw [List.drop_append_of_le_length (by omega)]
        rw [List.drop_of_length_le (by omega)]
        simp
      · rw [List.take_append_of_le_length (by omega)]
        rw [List.take_of_length_le (by omega)]
    · refine ⟨c0, ?_, rfl, rfl, rfl, rfl, Or.inl rfl⟩
      simp only []
      rw [List.getElem?_set_ne (Ne.symm hjc)]
      exact hj
  · intro k b0 hk
    by_cases hks : k = slot
    · subst hks
      rw [hb] at hk
      cases hk
      exact ⟨_, List.getElem?_set_self hbl, rfl,
        Or.inr ⟨rfl, (k, cid), by simp, rfl, c, hc, hn⟩⟩
    · refine ⟨b0, ?_, rfl, Or.inl rfl⟩
      simp only []
      rw [List.getElem?_set_ne (Ne.symm hks)]
      exact hk

theorem LoopRel.cons (cName : String) (data : List Nat) (m : Nat × Nat)
    (ms : List (Nat × Nat)) (s s1 s2 : Shader)
    (h1 : LoopRel cName data [m] s s1) (h2 : LoopRel cName data ms s1 s2) :
    LoopRel cName data (m :: ms) s s2 := by
  refine { name_eq := h2.name_eq.trans h1.name_eq,
           constants_eq := h2.constants_eq.trans h1.constants_eq,
           textures_eq := h2.textures_eq.trans h1.textures_eq,
           samplers_eq := h2.samplers_eq.trans h1.samplers_eq,
           cpu_length := h2.cpu_length.trans h1.cpu_length,
           cb_length := h2.cb_length.trans h1.cb_length, cpu := ?_, cb := ?_ }
  · intro j c hj
    obtain ⟨c1, hc1, hn1, hs1, hl1, hd1, ht1⟩ := h1.cpu j c hj
    obtain ⟨c2, hc2, hn2, hs2, hl2, hd2, ht2⟩ := h2.cpu j c1 hc1
    rw [hs1] at hd2 ht2
    rw [hn1] at ht2
    refine ⟨c2, hc2, hn2.trans hn1, hs2.trans hs1, hl2.trans hl1, hd2.trans hd1, ?_⟩
    rcases ht2 with h | ⟨hm, ⟨m2, hm2, hj2⟩, hw⟩
    · rcases ht1 with h0 | ⟨hm, ⟨m1, hm1, hj1⟩, hw⟩
      · exact Or.inl (h.trans h0)
      · refine Or.inr ⟨hm, ⟨m1, ?_, hj1⟩, h.trans hw⟩
        have : m1 = m := by simpa using hm1
        rw [this]
        exact List.mem_cons_self _ _
    · exact Or.inr ⟨hm, ⟨m2, List.mem_cons_of_mem _ hm2, hj2⟩, hw⟩
  · intro k b hk
    obtain ⟨b1, hb1, hd1, ht1⟩ := h1.cb k b hk
    obtain ⟨b2, hb2, hd2, ht2⟩ := h2.cb k b1 hb1
    refine ⟨b2, hb2, hd2.trans hd1, ?_⟩
    rcases ht2 with h | ⟨hdirty, m2, hm2, hk2, c1, hc1, hmatch⟩
    · rcases ht1 with h0 | ⟨hdirty, m1, hm1, hk1, c0, hc0, hmatch⟩
      · exact Or.inl (h.trans h0)
      · refine Or.inr ⟨h.trans hdirty, m1, ?_, hk1, c0, hc0, hmatch⟩
        have : m1 = m := by simpa using hm1
        rw [this]
        exact List.mem_cons_self _ _
    · have hlt : m2.2 < s.mCPUConstantBuffers.length := by
        rw [← h1.cpu_length]
        exact (List.getElem?_eq_some.mp hc1).1
      obtain ⟨c0, hc0⟩ : ∃ c0, s.mCPUConstantBuffers[m2.2]? = some c0 :=
        ⟨_, List.getElem?_eq_getElem hlt⟩
      obtain ⟨c1b, hc1b, hn1b, _⟩ := h1.cpu m2.2 c0 hc0
      rw [hc1] at hc1b
      cases hc1b
      rw [hn1b] at hmatch
      exact Or.inr ⟨hdirty, m2, List.mem_cons_of_mem _ hm2, hk2, c0, hc0, hmatch⟩

theorem LoopRel.keeps_written {cName : String} {data : List Nat} {ms : List (Nat × Nat)}
    {s1 s2 : Shader} (h : LoopRel cName data ms s1 s2) (j : Nat) (c1 : CPUConstant)
    (hc1 : s1.mCPUConstantBuffers[j]? = some c1)
    (hw : c1._data.take c1._size = data.take c1._size) :
    ∃ c2 : CPUConstant, s2.mCPUConstantBuffers[j]? = some c2 ∧
      c2._data.take c1._size = data.take c1._size := by
  obtain ⟨c2, hc2, _, _, _, _, ht⟩ := h.cpu j c1 hc1
  rcases ht with h0 | ⟨_, _, h0⟩
  · exact ⟨c2, hc2, h0.trans hw⟩
  · exact ⟨c2, hc2, h0⟩

theorem LoopRel.keeps_dirty {cName : String} {data : List Nat} {ms : List (Nat × Nat)}
    {s1 s2 : Shader} (h : LoopRel cName data ms s1 s2) (k : Nat) (b1 : ConstantBuffer)
    (hb1 : s1.mConstantBuffers[k]? = some b1) (hd : b1.dirty = true) :
    ∃ b2 : ConstantBuffer, s2.mConstantBuffers[k]? = some b2 ∧ b2.dirty = true := by
  obtain ⟨b2, hb2, _, ht⟩ := h.cb k b1 hb1
  rcases ht with h0 | ⟨h0, _⟩
  · exact ⟨b2, hb2, h0.trans hd⟩
  · exact ⟨b2, hb2, h0⟩

theorem Visitable.of_rel {cName : String} {data : List Nat} {ms0 ms : List (Nat × Nat)}
    {s s1 : Shader} (h : LoopRel cName data ms0 s s1) (hv : Visitable cName data s ms) :
    Visitable cName data s1 ms := by
  intro m hm
  obtain ⟨c, hc, hrest⟩ := hv m hm
  obtain ⟨c1, hc1, hn1, hs1, hl1, _, _⟩ := h.cpu m.2 c hc
  refine ⟨c1, hc1, ?_⟩
  rw [hn1, hs1, hl1, h.cb_length]
  exact hrest

/-- The loop of `SetConstant` runs to its end on visitable mappings; what it
leaves behind. -/
theorem SetConstant.loop_spec (cName : String) (data : List Nat) (ms : List (Nat × Nat)) :
    ∀ (s : Shader) (f : Bool), Visitable cName data s ms →
      ∃ (s1 : Shader) (f1 : Bool),
        SetConstant.loop cName data ms (s, f) = some (s1, f1) ∧
        LoopRel cName data ms s s1 ∧
        (f1 = true ↔ f = true ∨ ∃ m ∈ ms, ∃ c : CPUConstant,
          s.mCPUConstantBuffers[m.2]? = some c ∧ strcmp cName c._name = 0) ∧
        (∀ m ∈ ms, ∀ c : CPUConstant, s.mCPUConstantBuffers[m.2]? = some c →
          strcmp cName c._name = 0 →
          (∃ c1 : CPUConstant, s1.mCPUConstantBuffers[m.2]? = some c1 ∧
            c1._data.take c._size = data.take c._size) ∧
          (∃ b1 : ConstantBuffer, s1.mConstantBuffers[m.1]? = some b1 ∧ b1.dirty = true)) ∧
        ((∀ m ∈ ms, ∀ c : CPUConstant, s.mCPUConstantBuffers[m.2]? = some c →
          strcmp cName c._name ≠ 0) → s1 = s) := by
  induction ms with
  | nil =>
    intro s f _
    exact ⟨s, f, rfl, LoopRel.refl _ _ _ _, by simp, by simp, fun _ => rfl⟩
  | cons m ms ih =>
    intro s f hv
    obtain ⟨c, hc, hrest⟩ := hv m (List.mem_cons_self _ _)
    have hvtail : Visitable cName data s ms := fun m2 hm2 => hv m2 (List.mem_cons_of_mem _ hm2)
    by_cases hn : strcmp cName c._name = 0
    · obtain ⟨hd, hs, hslot⟩ := hrest hn
      obtain ⟨b, hb⟩ : ∃ b, s.mConstantBuffers[m.1]? = some b :=
        ⟨_, List.getElem?_eq_getElem hslot⟩
      have hvisit := SetConstant.visit_match cName data s f m.1 m.2 c b hc hn hd hs hb
      have hrel := LoopRel.of_match cName data s m.1 m.2 c b hc hn hd hs hb
      obtain ⟨s1, f1, hloop, hrel1, hf1, hw1, _⟩ := ih _ true (Visitable.of_rel hrel hvtail)
      have hcl := (List.getElem?_eq_some.mp hc).1
      have hbl := (List.getElem?_eq_some.mp hb).1
      refine ⟨s1, f1, ?_, LoopRel.cons _ _ _ _ _ _ _ hrel hrel1, ?_, ?_, ?_⟩
      · simp only [SetConstant.loop]
        rw [show (m : Nat × Nat) = (m.1, m.2) from rfl, hvisit]
        exact hloop
      · constructor
        · intro _
          exact Or.inr ⟨m, List.mem_cons_self _ _, c, hc, hn⟩
        · intro _
          exact hf1.mpr (Or.inl rfl)
      · intro m2 hm2 c2 hc2 hn2
        rcases List.mem_cons.mp hm2 with h | h
        · subst h
          rw [hc] at hc2
          cases hc2
          constructor
          · obtain ⟨c3, hc3, hw3⟩ := hrel1.keeps_written m2.2
              { c with _data := data.take c._size ++ c._data.drop c._size }
              (List.getElem?_set_self hcl)
              (by
                simp only []
                rw [List.take_append_of_le_length (by rw [List.length_take]; omega)]
                rw [List.take_of_length_le (by rw [List.length_take]; omega)])
            exact ⟨c3, hc3, hw3⟩
          · exact hrel1.keeps_dirty m2.1 { b with dirty := true }
              (List.getElem?_set_self hbl) rfl
        · obtain ⟨c3, hc3, hn3, hs3, _⟩ := hrel.cpu m2.2 c2 hc2
          have := hw1 m2 h c3 hc3 (by rw [hn3]; exact hn2)
          rw [hs3] at this
          exact this
      · intro hnone
        exact absurd hn (hnone m (List.mem_cons_self _ _) c hc)
    · have hvisit := SetConstant.visit_nomatch cName data s f m.1 m.2 c hc hn
      obtain ⟨s1, f1, hloop, hrel1, hf1, hw1, hsame⟩ := ih s f hvtail
      refine ⟨s1, f1, ?_, LoopRel.cons _ _ _ _ _ _ _ (LoopRel.refl _ _ _ _) hrel1, ?_, ?_, ?_⟩
      · simp only [SetConstant.loop]
        rw [show (m : Nat × Nat) = (m.1, m.2) from rfl, hvisit]
        exact hloop
      · rw [hf1]
        constructor
        · rintro (h | ⟨m2, hm2, c2, hc2, hn2⟩)
          · exact Or.inl h
          · exact Or.inr ⟨m2, List.mem_cons_of_mem _ hm2, c2, hc2, hn2⟩
        · rintro (h | ⟨m2, hm2, c2, hc2, hn2⟩)
          · exact Or.inl h
          · rcases List.mem_cons.mp hm2 with h | h
            · subst h
              rw [hc] at hc2
              cases hc2
              exact absurd hn2 hn
            · exact Or.inr ⟨m2, h, c2, hc2, hn2⟩
      · intro m2 hm2 c2 hc2 hn2
        rcases List.mem_cons.mp hm2 with h | h
        · subst h
          rw [hc] at hc2
          cases hc2
          exact absurd hn2 hn
        · exact hw1 m2 h c2 hc2 hn2
      · intro hnone
        exact hsame (fun m2 hm2 => hnone m2 (List.mem_cons_of_mem _ hm2))

theorem selectedShader_get (r : Renderer) (idx : Nat) (s : Shader)
    (hsel : selectedShader r = some (idx, s)) :
    r.mShaders[idx]? = some s ∧ (idx : Int) = r.mPipelineState.shader := by
  unfold selectedShader at hsel
  split at hsel
  · rename_i h0
    split at hsel
    · rename_i sh hsh
      simp only [Option.some.injEq, Prod.mk.injEq] at hsel
      obtain ⟨h1, h2⟩ := hsel
      subst h1 h2
      exact ⟨hsh, Int.toNat_of_nonneg h0⟩
    · cases hsel
  · cases hsel

theorem selectedShader_set (r : Renderer) (idx : Nat) (s s1 : Shader)
    (hsel : selectedShader r = some (idx, s)) :
    selectedShader { r with mShaders := r.mShaders.set idx s1 } = some (idx, s1) := by
  obtain ⟨hget, hidx⟩ := selectedShader_get r idx s hsel
  have hlt := (List.getElem?_eq_some.mp hget).1
  have h0 : 0 ≤ r.mPipelineState.shader := by rw [← hidx]; exact Int.ofNat_zero_le idx
  have htn : r.mPipelineState.shader.toNat = idx := by rw [← hidx]; simp
  simp only [selectedShader, h0, if_true, htn, List.getElem?_set_self hlt]

/-- The call `SetConstant` on a selected shader whose mappings are visitable:
it returns, and the selected shader is replaced by the outcome of the loop. -/
theorem SetConstant_result (r : Renderer) (cName : String) (data : List Nat) (idx : Nat)
    (s : Shader) (hsel : selectedShader r = some (idx, s))
    (hv : Visitable cName data s s.m_constants) :
    ∃ (r1 : Renderer) (s1 : Shader) (f1 : Bool),
      SetConstant r cName data = some r1 ∧
      r1 = (if f1 = true then { r with mShaders := r.mShaders.set idx s1 }
            else ({ r with mShaders := r.mShaders.set idx s1 } : Renderer).logged
              LogLevel.Error ("CONSTANT NOT FOUND: " ++ String.mk (cstr cName))) ∧
      r1.mShaders[idx]? = some s1 ∧
      LoopRel cName data s.m_constants s s1 ∧
      (f1 = true ↔ ∃ m ∈ s.m_constants, ∃ c : CPUConstant,
        s.mCPUConstantBuffers[m.2]? = some c ∧ strcmp cName c._name = 0) ∧
      (∀ m ∈ s.m_constants, ∀ c : CPUConstant, s.mCPUConstantBuffers[m.2]? = some c →
        strcmp cName c._name = 0 →
        (∃ c1 : CPUConstant, s1.mCPUConstantBuffers[m.2]? = some c1 ∧
          c1._data.take c._size = data.take c._size) ∧
        (∃ b1 : ConstantBuffer, s1.mConstantBuffers[m.1]? = some b1 ∧ b1.dirty = true)) ∧
      ((∀ m ∈ s.m_constants, ∀ c : CPUConstant, s.mCPUConstantBuffers[m.2]? = some c →
        strcmp cName c._name ≠ 0) → s1 = s) := by
  obtain ⟨s1, f1, hloop, hrel, hf, hw, hsame⟩ :=
    SetConstant.loop_spec cName data s.m_constants s false hv
  obtain ⟨hget, _⟩ := selectedShader_get r idx s hsel
  have hlt := (List.getElem?_eq_some.mp hget).1
  refine ⟨_, s1, f1, ?_, rfl, ?_, hrel, ?_, hw, hsame⟩
  · simp only [SetConstant, hsel, hloop]
    cases f1 <;> simp
  · cases f1
    · simp only [Bool.false_eq_true, if_false, Renderer.logged]
      exact List.getElem?_set_self hlt
    · simp only [if_true]
      exact List.getElem?_set_self hlt
  · rw [hf]
    simp

theorem colorShader_visitable (cName : String) (data : List Nat) (hd : 4 ≤ data.length) :
    Visitable cName data colorShader colorShader.m_constants := by
  intro m hm
  simp only [colorShader, List.mem_cons, List.mem_singleton, List.not_mem_nil, or_false] at hm
  rcases hm with rfl | rfl | rfl
  · exact ⟨_, rfl, fun _ => ⟨hd, by decide, by decide⟩⟩
  · exact ⟨_, rfl, fun _ => ⟨hd, by decide, by decide⟩⟩
  · exact ⟨_, rfl, fun _ => ⟨hd, by decide, by decide⟩⟩

/-! ## C5: `SetConstant` writes every matching shadow -/

/-- C5: `SetConstant(name, data)` with a selected shader whose mappings can be
visited returns, and for every entry of the shader's (slot, constant) list whose
constant is named `name`, that constant keeps its name and size and the first
`_size` bytes of its CPU shadow are the first `_size` bytes of `data`; every
entry sharing the name receives the write. -/
theorem C5_SetConstant_writes_every_matching_shadow (r : Renderer) (name : String)
    (data : List Nat) (idx : Nat) (s : Shader) (hsel : selectedShader r = some (idx, s))
    (hv : Visitable name data s s.m_constants) :
    ∃ (r1 : Renderer) (s1 : Shader),
      SetConstant r name data = some r1 ∧ selectedShader r1 = some (idx, s1) ∧
      ∀ m ∈ s.m_constants, ∀ c : CPUConstant, s.mCPUConstantBuffers[m.2]? = some c →
        c._name = name →
        ∃ c1 : CPUConstant, s1.mCPUConstantBuffers[m.2]? = some c1 ∧ c1._name = name ∧
          c1._size = c._size ∧ c1._data.take c._size = data.take c._size := by
  obtain ⟨r1, s1, f1, hres, hr1, _, hrel, _, hw, _⟩ := SetConstant_result r name data idx s hsel hv
  refine ⟨r1, s1, hres, ?_, ?_⟩
  · rw [hr1]
    cases f1
    · simp only [Bool.false_eq_true, if_false, Renderer.logged]
      exact selectedShader_set r idx s s1 hsel
    · simp only [if_true]
      exact selectedShader_set r idx s s1 hsel
  · intro m hm c hc hname
    have hmatch : strcmp name c._name = 0 := by rw [hname]; exact strcmp_self name
    obtain ⟨⟨c1, hc1, hw1⟩, _⟩ := hw m hm c hc hmatch
    obtain ⟨c2, hc2, hn2, hs2, _⟩ := hrel.cpu m.2 c hc
    rw [hc1] at hc2
    cases hc2
    exact ⟨c1, hc1, hn2.trans hname, hs2, hw1⟩

/-- Witness of C5: both shadows named "color" receive the four bytes, the
shadow named "intensity" keeps its own. -/
theorem C5_SetConstant_writes_every_matching_shadow_witness :
    selectedShader colorRenderer = some (0, colorShader) ∧
    (SetConstant colorRenderer "color" [1, 2, 3, 4]).map
        (fun r1 => r1.mShaders.map (fun s1 => s1.mCPUConstantBuffers.map (fun c => c._data)))
      = some [[[1, 2, 3, 4], [0, 0, 0, 0], [1, 2, 3, 4]]] ∧
    ∃ (r1 : Renderer) (s1 : Shader),
      SetConstant colorRenderer "color" [1, 2, 3, 4] = some r1 ∧
      selectedShader r1 = some (0, s1) ∧
      ∀ m ∈ colorShader.m_constants, ∀ c : CPUConstant,
        colorShader.mCPUConstantBuffers[m.2]? = some c → c._name = "color" →
        ∃ c1 : CPUConstant, s1.mCPUConstantBuffers[m.2]? = some c1 ∧ c1._name = "color" ∧
          c1._size = c._size ∧ c1._data.take c._size = [1, 2, 3, 4].take c._size :=
  ⟨by decide, by decide,
   C5_SetConstant_writes_every_matching_shadow colorRenderer "color" [1, 2, 3, 4] 0 colorShader
     (by decide) (colorShader_visitable "color" [1, 2, 3, 4] (by decide))⟩

/-! ## C6: `SetConstant` marks the backing slots dirty -/

/-- C6: `SetConstant(name, data)`, with a selected shader whose mappings can be
visited, returns; every buffer slot that the shader's (slot, constant) list
pairs with a constant named `name` is dirty afterwards, and every slot that was
dirty before is still dirty. -/
theorem C6_SetConstant_marks_backing_slots_dirty (r : Renderer) (name : String)
    (data : List Nat) (idx : Nat) (s : Shader) (hsel : selectedShader r = some (idx, s))
    (hv : Visitable name data s s.m_constants) :
    ∃ (r1 : Renderer) (s1 : Shader),
      SetConstant r name data = some r1 ∧ r1.mShaders[idx]? = some s1 ∧
      (∀ m ∈ s.m_constants, ∀ c : CPUConstant, s.mCPUConstantBuffers[m.2]? = some c →
        c._name = name →
        ∃ b1 : ConstantBuffer, s1.mConstantBuffers[m.1]? = some b1 ∧ b1.dirty = true) ∧
      (∀ (k : Nat) (b : ConstantBuffer), s.mConstantBuffers[k]? = some b → b.dirty = true →
        ∃ b1 : ConstantBuffer, s1.mConstantBuffers[k]? = some b1 ∧ b1.dirty = true) := by
  obtain ⟨r1, s1, f1, hres, _, hget, hrel, _, hw, _⟩ :=
    SetConstant_result r name data idx s hsel hv
  refine ⟨r1, s1, hres, hget, ?_, ?_⟩
  · intro m hm c hc hname
    have hmatch : strcmp name c._name = 0 := by rw [hname]; exact strcmp_self name
    exact (hw m hm c hc hmatch).2
  · intro k b hb hd
    exact hrel.keeps_dirty k b hb hd

/-- Witness of C6: with "color", "intensity", "color" bound to slots 0, 0, 1,
`SetConstant("color", X)` leaves slot 0 and slot 1 dirty; an unrelated write
keeps the flag that was already raised. -/
theorem C6_SetConstant_marks_backing_slots_dirty_witness :
    (SetConstant colorRenderer "color" [1, 2, 3, 4]).map
        (fun r1 => r1.mShaders.map (fun s1 => s1.mConstantBuffers.map (fun b => b.dirty)))
      = some [[true, true]] ∧
    (SetConstant dirtyRenderer "intensity" [1, 2, 3, 4]).map
        (fun r1 => r1.mShaders.map (fun s1 => s1.mConstantBuffers.map (fun b => b.dirty)))
      = some [[true, false]] ∧
    ∃ (r1 : Renderer) (s1 : Shader),
      SetConstant colorRenderer "color" [1, 2, 3, 4] = some r1 ∧
      r1.mShaders[0]? = some s1 ∧
      (∀ m ∈ colorShader.m_constants, ∀ c : CPUConstant,
        colorShader.mCPUConstantBuffers[m.2]? = some c → c._name = "color" →
        ∃ b1 : ConstantBuffer, s1.mConstantBuffers[m.1]? = some b1 ∧ b1.dirty = true) ∧
      (∀ (k : Nat) (b : ConstantBuffer), colorShader.mConstantBuffers[k]? = some b →
        b.dirty = true →
        ∃ b1 : ConstantBuffer, s1.mConstantBuffers[k]? = some b1 ∧ b1.dirty = true) :=
  ⟨by decide, by decide,
   C6_SetConstant_marks_backing_slots_dirty colorRenderer "color" [1, 2, 3, 4] 0 colorShader
     (by decide) (colorShader_visitable "color" [1, 2, 3, 4] (by decide))⟩

/-! ## C7: an unknown constant name -/

theorem set_getElem?_self {α : Type} (l : List α) (i : Nat) (a : α) (h : l[i]? = some a) :
    l.set i a = l := by
  apply List.ext_getElem?
  intro j
  by_cases hij : i = j
  · subst hij
    rw [List.getElem?_set_self (List.getElem?_eq_some.mp h).1, h]
  · rw [List.getElem?_set_ne hij]

/-- C7: `SetConstant(name, data)` with a name that matches no constant of the
selected shader's (slot, constant) list (`strcmp` differs from 0 for each of
them) returns, and the renderer it returns is the one it was given, every CPU
shadow and every dirty flag included, with one error line added to the log. -/
theorem C7_SetConstant_unknown_name_is_noop (r : Renderer) (name : String)
    (data : List Nat) (idx : Nat) (s : Shader) (hsel : selectedShader r = some (idx, s))
    (hnone : ∀ m ∈ s.m_constants, ∃ c : CPUConstant,
      s.mCPUConstantBuffers[m.2]? = some c ∧ strcmp name c._name ≠ 0) :
    SetConstant r name data =
      some (r.logged LogLevel.Error ("CONSTANT NOT FOUND: " ++ String.mk (cstr name))) := by
  have hv : Visitable name data s s.m_constants := by
    intro m hm
    obtain ⟨c, hc, hn⟩ := hnone m hm
    exact ⟨c, hc, fun h => absurd h hn⟩
  have hno : ∀ m ∈ s.m_constants, ∀ c : CPUConstant, s.mCPUConstantBuffers[m.2]? = some c →
      strcmp name c._name ≠ 0 := by
    intro m hm c hc
    obtain ⟨c2, hc2, hn⟩ := hnone m hm
    rw [hc] at hc2
    cases hc2
    exact hn
  obtain ⟨r1, s1, f1, hres, hr1, _, _, hf, _, hsame⟩ :=
    SetConstant_result r name data idx s hsel hv
  have hf1 : f1 = false := by
    cases f1
    · rfl
    · obtain ⟨m, hm, c, hc, hn⟩ := hf.mp rfl
      exact absurd hn (hno m hm c hc)
  have hs1 : s1 = s := hsame hno
  obtain ⟨hget, _⟩ := selectedShader_get r idx s hsel
  rw [hres, hr1, hf1, hs1, set_getElem?_self _ _ _ hget]
  simp

/-- Witness of C7: "colour" is not a constant of `colorShader`. -/
theorem C7_SetConstant_unknown_name_is_noop_witness :
    SetConstant colorRenderer "colour" [1, 2, 3, 4] =
      some (colorRenderer.logged LogLevel.Error
        ("CONSTANT NOT FOUND: " ++ String.mk (cstr "colour"))) :=
  C7_SetConstant_unknown_name_is_noop colorRenderer "colour" [1, 2, 3, 4] 0 colorShader
    (by decide)
    (by
      intro m hm
      simp only [colorShader, List.mem_cons, List.mem_singleton, List.not_mem_nil,
        or_false] at hm
      rcases hm with rfl | rfl | rfl
      · exact ⟨_, rfl, by decide⟩
      · exact ⟨_, rfl, by decide⟩
      · exact ⟨_, rfl, by decide⟩)

/-! ## C8: exact, case-sensitive name match -/

/-- C8: `SetConstant(name, data)` (both names being C strings) leaves every
constant whose name differs from `name` exactly as it was, and leaves unchanged
every buffer slot that the (slot, constant) list pairs only with such
constants. -/
theorem C8_SetConstant_exact_match_frame (r : Renderer) (name : String)
    (data : List Nat) (idx : Nat) (s : Shader) (hsel : selectedShader r = some (idx, s))
    (hv : Visitable name data s s.m_constants) (hname : isCString name) :
    ∃ (r1 : Renderer) (s1 : Shader),
      SetConstant r name data = some r1 ∧ r1.mShaders[idx]? = some s1 ∧
      (∀ (j : Nat) (c : CPUConstant), s.mCPUConstantBuffers[j]? = some c →
        isCString c._name → c._name ≠ name → s1.mCPUConstantBuffers[j]? = some c) ∧
      (∀ (k : Nat) (b : ConstantBuffer), s.mConstantBuffers[k]? = some b →
        (∀ m ∈ s.m_constants, m.1 = k → ∀ c : CPUConstant,
          s.mCPUConstantBuffers[m.2]? = some c → isCString c._name ∧ c._name ≠ name) →
        s1.mConstantBuffers[k]? = some b) := by
  obtain ⟨r1, s1, f1, hres, _, hget, hrel, _, _, _⟩ :=
    SetConstant_result r name data idx s hsel hv
  refine ⟨r1, s1, hres, hget, ?_, ?_⟩
  · intro j c hc hcs hne
    obtain ⟨c1, hc1, hn1, hs1, _, hd1, ht1⟩ := hrel.cpu j c hc
    have htake : c1._data.take c._size = c._data.take c._size := by
      rcases ht1 with h | ⟨hm, _, _⟩
      · exact h
      · exact absurd ((strcmp_eq_zero_iff name c._name hname hcs).mp hm).symm hne
    have hdata : c1._data = c._data := by
      rw [← List.take_append_drop c._size c1._data, ← List.take_append_drop c._size c._data,
        htake, hd1]
    rw [hc1]
    cases c1
    cases c
    simp only [CPUConstant.mk.injEq, Option.some.injEq] at *
    exact ⟨hn1, hs1, hdata⟩
  · intro k b hb honly
    obtain ⟨b1, hb1, hd1, ht1⟩ := hrel.cb k b hb
    have hdirty : b1.dirty = b.dirty := by
      rcases ht1 with h | ⟨_, m, hm, hk, c, hc, hmatch⟩
      · exact h
      · obtain ⟨hcs, hne⟩ := honly m hm hk c hc
        exact absurd ((strcmp_eq_zero_iff name c._name hname hcs).mp hmatch).symm hne
    rw [hb1]
    cases b1
    cases b
    simp only [ConstantBuffer.mk.injEq, Option.some.injEq] at *
    exact ⟨hdirty, hd1⟩

theorem caseShader_visitable (cName : String) (data : List Nat) (hd : 2 ≤ data.length) :
    Visitable cName data caseShader caseShader.m_constants := by
  intro m hm
  simp only [caseShader, List.mem_cons, List.mem_singleton, List.not_mem_nil, or_false] at hm
  rcases hm with rfl | rfl | rfl | rfl
  · exact ⟨_, rfl, fun _ => ⟨hd, by decide, by decide⟩⟩
  · exact ⟨_, rfl, fun _ => ⟨hd, by decide, by decide⟩⟩
  · exact ⟨_, rfl, fun _ => ⟨hd, by decide, by decide⟩⟩
  · exact ⟨_, rfl, fun _ => ⟨hd, by decide, by decide⟩⟩

/-- Witness of C8: writing "color" touches neither "Color", "col" nor "color2",
nor their slots. -/
theorem C8_SetConstant_exact_match_frame_witness :
    isCString "color" ∧
    (SetConstant caseRenderer "color" [7, 8]).map
        (fun r1 => r1.mShaders.map (fun s1 =>
          (s1.mCPUConstantBuffers.map (fun c => c._data),
           s1.mConstantBuffers.map (fun b => b.dirty))))
      = some [([[7, 8], [0, 0], [0, 0], [0, 0]], [true, false, false, false])] ∧
    ∃ (r1 : Renderer) (s1 : Shader),
      SetConstant caseRenderer "color" [7, 8] = some r1 ∧ r1.mShaders[0]? = some s1 ∧
      (∀ (j : Nat) (c : CPUConstant), caseShader.mCPUConstantBuffers[j]? = some c →
        isCString c._name → c._name ≠ "color" → s1.mCPUConstantBuffers[j]? = some c) ∧
      (∀ (k : Nat) (b : ConstantBuffer), caseShader.mConstantBuffers[k]? = some b →
        (∀ m ∈ caseShader.m_constants, m.1 = k → ∀ c : CPUConstant,
          caseShader.mCPUConstantBuffers[m.2]? = some c →
          isCString c._name ∧ c._name ≠ "color") →
        s1.mConstantBuffers[k]? = some b) :=
  ⟨by unfold isCString; decide, by decide,
   C8_SetConstant_exact_match_frame caseRenderer "color" [7, 8] 0 caseShader (by decide)
     (caseShader_visitable "color" [7, 8] (by decide)) (by unfold isCString; decide)⟩

/-! ## C9: uploads happen in `Apply` -/

/-- The call `SetConstant` issues no device call. -/
theorem SetConstant_no_device_call (r r1 : Renderer) (cName : String) (data : List Nat)
    (h : SetConstant r cName data = some r1) : r1.deviceCalls = r.deviceCalls := by
  unfold SetConstant at h
  split at h
  · cases h
  · split at h
    · cases h
    · split at h <;>
      · simp only [Option.some.injEq] at h
        subst h
        rfl

/-- C9 at the failing input: the constant "viewProj" backs the slots 2 and 5.
`SetConstant("viewProj", M)` raises both dirty flags and calls the device not at
all; the following `Apply()` of a Release build returns the renderer as it is,
with no upload of slot 2 or of slot 5 and both flags still raised, and the
`Apply()` of a Debug build stops on `assert(false)`. -/
theorem C9_Apply_uploads_no_dirty_slot :
    (SetConstant viewProjRenderer "viewProj" [1, 2, 3, 4]).map
        (fun r1 => (r1.deviceCalls,
          r1.mShaders.map (fun s1 => s1.mConstantBuffers.map (fun b => b.dirty))))
      = some ([], [[false, false, true, false, false, true]]) ∧
    ((SetConstant viewProjRenderer "viewProj" [1, 2, 3, 4]).bind (Apply false)).map
        (fun r2 => (r2.deviceCalls.count (DeviceCall.UpdateConstantBuffer 2),
          r2.deviceCalls.count (DeviceCall.UpdateConstantBuffer 5),
          r2.mShaders.map (fun s1 => s1.mConstantBuffers.map (fun b => b.dirty))))
      = some (0, 0, [[false, false, true, false, false, true]]) ∧
    (SetConstant viewProjRenderer "viewProj" [1, 2, 3, 4]).bind (Apply true) = none := by
  decide

/-! ## C10: `SetTexture` queues one command -/

theorem String_mk_cstr (s : String) (h : isCString s) : String.mk (cstr s) = s := by
  rw [cstr_of_isCString s h]
  rfl

/-- C10: `SetTexture(name, handle)`, with a shader selected, `name` a C string
that is a texture binding of that shader, and a handle that passes the
assertion `tex >= 0` of Debug builds, returns the renderer with exactly one
command added at the back of the texture command queue: it carries the given
handle, the binding point that `name` resolves to and slice 0; the commands
queued before keep their order ahead of it and nothing else changes. -/
theorem C10_SetTexture_appends_one_command (dbg : Bool) (r : Renderer) (name : String)
    (tex : TextureID) (idx : Nat) (s : Shader) (hsel : selectedShader r = some (idx, s))
    (hname : isCString name) (hbound : s.HasTextureBinding name = true)
    (htex : dbg = true → 0 ≤ tex) :
    ∃ binding : ShaderBinding, s.GetTextureBinding name = some binding ∧
      SetTexture dbg r name tex =
        some { r with
          mSetTextureCmds := r.mSetTextureCmds ++
            [{ textureIDs := [tex], numTextures := 1, binding := binding, slice := 0,
               bUnorderedAccess := false }] } := by
  have hsome : (s.mTextureBindings.find? (fun b => b.1 == name)).isSome = true := hbound
  obtain ⟨b, hb⟩ := Option.isSome_iff_exists.mp hsome
  have hget : s.GetTextureBinding name = some b.2 := by
    simp only [Shader.GetTextureBinding, hb, Option.map_some']
  refine ⟨b.2, hget, ?_⟩
  have hguard : ¬ (dbg = true ∧ ¬ (0 ≤ tex)) := fun h => h.2 (htex h.1)
  simp only [SetTexture, SetTexture_, hguard, if_false, hsel, String_mk_cstr name hname,
    hbound, if_true, hget]

/-- Witness of C10: binding texture 5 to "diffuseMap" behind a queued command. -/
theorem C10_SetTexture_appends_one_command_witness :
    (SetTexture true queuedRenderer "diffuseMap" 5).map (fun r1 => r1.mSetTextureCmds)
      = some [{ textureIDs := [3], numTextures := 1, binding := { shaderStage := 4, slot := 7 },
                slice := 0, bUnorderedAccess := false },
              { textureIDs := [5], numTextures := 1, binding := { shaderStage := 4, slot := 0 },
                slice := 0, bUnorderedAccess := false }] ∧
    ∃ binding : ShaderBinding, colorShader.GetTextureBinding "diffuseMap" = some binding ∧
      SetTexture true queuedRenderer "diffuseMap" 5 =
        some { queuedRenderer with
          mSetTextureCmds := queuedRenderer.mSetTextureCmds ++
            [{ textureIDs := [5], numTextures := 1, binding := binding, slice := 0,
               bUnorderedAccess := false }] } :=
  ⟨by decide,
   C10_SetTexture_appends_one_command true queuedRenderer "diffuseMap" 5 0 colorShader
     (by decide) (by unfold isCString; decide) (by decide) (fun _ => by decide)⟩

/-! ## C11: binding to an unknown name -/

/-- C11: with a shader selected and `name` a C string, binding to a name the
shader does not declare is a no-op. When `name` is no texture binding,
`SetTexture`, `SetRWTexture` (their handle passing the Debug assertion) and
`SetTextureArray` return a renderer with both command queues and the pipeline
state unchanged; when `name` is no sampler binding, so does `SetSamplerState`.
In a Release build the renderer is returned as it is (a Debug build adds the
error line to the log). -/
theorem C11_unknown_name_binds_nothing (dbg : Bool) (r : Renderer) (name : String)
    (tex : TextureID) (textureIDs : List TextureID) (numTextures : Nat)
    (samplerID : SamplerID) (idx : Nat) (s : Shader)
    (hsel : selectedShader r = some (idx, s)) (hname : isCString name)
    (htex : dbg = true → 0 ≤ tex) :
    (s.HasTextureBinding name = false →
      (∃ r1 : Renderer, SetTexture dbg r name tex = some r1 ∧ SameBindState r r1 ∧
        (dbg = false → r1 = r)) ∧
      (∃ r1 : Renderer, SetRWTexture dbg r name tex = some r1 ∧ SameBindState r r1 ∧
        (dbg = false → r1 = r)) ∧
      (∃ r1 : Renderer, SetTextureArray dbg r name textureIDs numTextures = some r1 ∧
        SameBindState r r1 ∧ (dbg = false → r1 = r))) ∧
    (s.HasSamplerBinding name = false →
      ∃ r1 : Renderer, SetSamplerState dbg r name samplerID = some r1 ∧ SameBindState r r1 ∧
        (dbg = false → r1 = r)) := by
  have hguard : ¬ (dbg = true ∧ ¬ (0 ≤ tex)) := fun h => h.2 (htex h.1)
  have hn := String_mk_cstr name hname
  constructor
  · intro hno
    refine ⟨?_, ?_, ?_⟩
    · simp only [SetTexture, SetTexture_, hguard, if_false, hsel, hn, hno, Bool.false_eq_true]
      cases dbg
      · exact ⟨r, rfl, ⟨rfl, rfl, rfl⟩, fun _ => rfl⟩
      · exact ⟨_, rfl, ⟨rfl, rfl, rfl⟩, fun h => by cases h⟩
    · simp only [SetRWTexture, hguard, if_false, hsel, hn, hno, Bool.false_eq_true]
      cases dbg
      · exact ⟨r, rfl, ⟨rfl, rfl, rfl⟩, fun _ => rfl⟩
      · exact ⟨_, rfl, ⟨rfl, rfl, rfl⟩, fun h => by cases h⟩
    · simp only [SetTextureArray, hsel, hn, hno, Bool.false_eq_true, if_false]
      cases dbg
      · exact ⟨r, rfl, ⟨rfl, rfl, rfl⟩, fun _ => rfl⟩
      · exact ⟨_, rfl, ⟨rfl, rfl, rfl⟩, fun h => by cases h⟩
  · intro hno
    simp only [SetSamplerState, hsel, hn, hno, Bool.false_eq_true, if_false]
    cases dbg
    · exact ⟨r, rfl, ⟨rfl, rfl, rfl⟩, fun _ => rfl⟩
    · exact ⟨_, rfl, ⟨rfl, rfl, rfl⟩, fun h => by cases h⟩

/-- Witness of C11: "nonexistent" is neither a texture nor a sampler binding of
`colorShader`; the queued command stays alone in its queue. -/
theorem C11_unknown_name_binds_nothing_witness :
    colorShader.HasTextureBinding "nonexistent" = false ∧
    colorShader.HasSamplerBinding "nonexistent" = false ∧
    (SetTexture true queuedRenderer "nonexistent" 5).map
        (fun r1 => (r1.mSetTextureCmds.length, r1.mSetSamplerCmds.length, r1.log.length))
      = some (1, 0, 1) ∧
    (colorShader.HasTextureBinding "nonexistent" = false →
      (∃ r1 : Renderer, SetTexture true queuedRenderer "nonexistent" 5 = some r1 ∧
        SameBindState queuedRenderer r1 ∧ (true = false → r1 = queuedRenderer)) ∧
      (∃ r1 : Renderer, SetRWTexture true queuedRenderer "nonexistent" 5 = some r1 ∧
        SameBindState queuedRenderer r1 ∧ (true = false → r1 = queuedRenderer)) ∧
      (∃ r1 : Renderer, SetTextureArray true queuedRenderer "nonexistent" [5, 6] 2 = some r1 ∧
        SameBindState queuedRenderer r1 ∧ (true = false → r1 = queuedRenderer))) ∧
    (colorShader.HasSamplerBinding "nonexistent" = false →
      ∃ r1 : Renderer, SetSamplerState true queuedRenderer "nonexistent" 2 = some r1 ∧
        SameBindState queuedRenderer r1 ∧ (true = false → r1 = queuedRenderer)) :=
  ⟨by decide, by decide, by decide,
   C11_unknown_name_binds_nothing true queuedRenderer "nonexistent" 5 [5, 6] 2 2 0 colorShader
     (by decide) (by unfold isCString; decide) (fun _ => by decide)⟩

/-! ## C12: `Apply` and the command queues -/

/-- C12 at the failing input: a texture bind and a sampler bind are queued
behind the command already waiting. The `Apply()` of a Release build returns
with the two texture commands and the sampler command still queued and no
device call issued, a second `Apply()` finds the same queues, and the `Apply()`
of a Debug build stops on `assert(false)`. -/
theorem C12_Apply_leaves_queues_untouched :
    (((SetTexture false queuedRenderer "diffuseMap" 5).bind
        (fun r1 => SetSamplerState false r1 "linearSampler" 2)).bind (Apply false)).map
        (fun r2 => (r2.mSetTextureCmds.map (fun c => c.textureIDs),
          r2.mSetSamplerCmds.map (fun c => c.samplerID), r2.deviceCalls))
      = some ([[3], [5]], [2], []) ∧
    ((((SetTexture false queuedRenderer "diffuseMap" 5).bind
        (fun r1 => SetSamplerState false r1 "linearSampler" 2)).bind (Apply false)).bind
        (Apply false)).map
        (fun r2 => (r2.mSetTextureCmds.map (fun c => c.textureIDs),
          r2.mSetSamplerCmds.map (fun c => c.samplerID), r2.deviceCalls))
      = some ([[3], [5]], [2], []) ∧
    ((SetTexture true queuedRenderer "diffuseMap" 5).bind
        (fun r1 => SetSamplerState true r1 "linearSampler" 2)).bind (Apply true) = none := by
  decide

/-! ## C13: two separate queues -/

/-- C13: with a shader selected and `name` a C string. If `name` is a sampler
binding, `SetSamplerState` returns the renderer with exactly one command (the
given sampler, the resolved binding) added at the back of the sampler queue and
nothing else changed, the texture queue included. If `name` is a texture
binding, `SetTexture`, `SetRWTexture` (their handle passing the Debug
assertion) and `SetTextureArray` each return the renderer with exactly one
command added at the back of the texture queue and nothing else changed, the
sampler queue included; the command carries slice 0, and the read-write flag is
set for `SetRWTexture` only. -/
theorem C13_queues_are_separate (dbg : Bool) (r : Renderer) (name : String)
    (tex : TextureID) (textureIDs : List TextureID) (numTextures : Nat)
    (samplerID : SamplerID) (idx : Nat) (s : Shader)
    (hsel : selectedShader r = some (idx, s)) (hname : isCString name)
    (htex : dbg = true → 0 ≤ tex) :
    (s.HasSamplerBinding name = true →
      ∃ binding : ShaderBinding, s.GetSamplerBinding name = some binding ∧
        SetSamplerState dbg r name samplerID =
          some { r with mSetSamplerCmds := r.mSetSamplerCmds ++
            [{ samplerID := samplerID, binding := binding }] }) ∧
    (s.HasTextureBinding name = true →
      ∃ binding : ShaderBinding, s.GetTextureBinding name = some binding ∧
        SetTexture dbg r name tex =
          some { r with mSetTextureCmds := r.mSetTextureCmds ++
            [{ textureIDs := [tex], numTextures := 1, binding := binding, slice := 0,
               bUnorderedAccess := false }] } ∧
        SetRWTexture dbg r name tex =
          some { r with mSetTextureCmds := r.mSetTextureCmds ++
            [{ textureIDs := [tex], numTextures := 1, binding := binding, slice := 0,
               bUnorderedAccess := true }] } ∧
        SetTextureArray dbg r name textureIDs numTextures =
          some { r with mSetTextureCmds := r.mSetTextureCmds ++
            [{ textureIDs := textureIDs, numTextures := numTextures, binding := binding,
               slice := 0, bUnorderedAccess := false }] }) := by
  have hguard : ¬ (dbg = true ∧ ¬ (0 ≤ tex)) := fun h => h.2 (htex h.1)
  have hn := String_mk_cstr name hname
  constructor
  · intro hbound
    have hsome : (s.mSamplerBindings.find? (fun b => b.1 == name)).isSome = true := hbound
    obtain ⟨b, hb⟩ := Option.isSome_iff_exists.mp hsome
    have hget : s.GetSamplerBinding name = some b.2 := by
      simp only [Shader.GetSamplerBinding, hb, Option.map_some']
    refine ⟨b.2, hget, ?_⟩
    simp only [SetSamplerState, hsel, hn, hbound, if_true, hget]
  · intro hbound
    have hsome : (s.mTextureBindings.find? (fun b => b.1 == name)).isSome = true := hbound
    obtain ⟨b, hb⟩ := Option.isSome_iff_exists.mp hsome
    have hget : s.GetTextureBinding name = some b.2 := by
      simp only [Shader.GetTextureBinding, hb, Option.map_some']
    refine ⟨b.2, hget, ?_, ?_, ?_⟩
    · simp only [SetTexture, SetTexture_, hguard, if_false, hsel, hn, hbound, if_true, hget]
    · simp only [SetRWTexture, hguard, if_false, hsel, hn, hbound, if_true, hget]
    · simp only [SetTextureArray, hsel, hn, hbound, if_true, hget]

/-- Witness of C13, for the sampler binding "linearSampler": the sampler queue
receives the command, the texture queue keeps its one command. -/
theorem C13_queues_are_separate_witness :
    colorShader.HasSamplerBinding "linearSampler" = true ∧
    (SetSamplerState true queuedRenderer "linearSampler" 2).map
        (fun r1 => (r1.mSetTextureCmds.length, r1.mSetSamplerCmds.length)) = some (1, 1) ∧
    (SetRWTexture true queuedRenderer "diffuseMap" 5).map
        (fun r1 => (r1.mSetTextureCmds.map (fun c => (c.bUnorderedAccess, c.slice)),
          r1.mSetSamplerCmds.length)) = some ([(false, 0), (true, 0)], 0) ∧
    (colorShader.HasSamplerBinding "linearSampler" = true →
      ∃ binding : ShaderBinding, colorShader.GetSamplerBinding "linearSampler" = some binding ∧
        SetSamplerState true queuedRenderer "linearSampler" 2 =
          some { queuedRenderer with mSetSamplerCmds := queuedRenderer.mSetSamplerCmds ++
            [{ samplerID := 2, binding := binding }] }) :=
  ⟨by decide, by decide, by decide,
   (C13_queues_are_separate true queuedRenderer "linearSampler" 5 [5, 6] 2 2 0 colorShader
     (by decide) (by unfold isCString; decide) (fun _ => by decide)).1⟩

/-! ## C14: `ResetPipelineState` -/

/-- C14: `ResetPipelineState()` sets the selected shader to -1 and changes
nothing else: every other field of the pipeline state (vertex and index buffer,
render targets, depth target, rasterizer, blend and depth-stencil state,
viewport, topology), both command queues and the rest of the renderer are as
before. -/
theorem C14_ResetPipelineState_clears_shader_only (r : Renderer) :
    (ResetPipelineState r).mPipelineState.shader = -1 ∧
    (ResetPipelineState r).mPipelineState.vertexBuffer = r.mPipelineState.vertexBuffer ∧
    (ResetPipelineState r).mPipelineState.indexBuffer = r.mPipelineState.indexBuffer ∧
    (ResetPipelineState r).mPipelineState.renderTargets = r.mPipelineState.renderTargets ∧
    (ResetPipelineState r).mPipelineState.depthTargets = r.mPipelineState.depthTargets ∧
    (ResetPipelineState r).mPipelineState.rasterizerState = r.mPipelineState.rasterizerState ∧
    (ResetPipelineState r).mPipelineState.blendState = r.mPipelineState.blendState ∧
    (ResetPipelineState r).mPipelineState.depthStencilState
      = r.mPipelineState.depthStencilState ∧
    (ResetPipelineState r).mPipelineState.viewPort = r.mPipelineState.viewPort ∧
    (ResetPipelineState r).mPipelineState.topology = r.mPipelineState.topology ∧
    (ResetPipelineState r).mSetTextureCmds = r.mSetTextureCmds ∧
    (ResetPipelineState r).mSetSamplerCmds = r.mSetSamplerCmds ∧
    ResetPipelineState r
      = { r with mPipelineState := { r.mPipelineState with shader := -1 } } :=
  ⟨rfl, rfl, rfl, rfl, rfl, rfl, rfl, rfl, rfl, rfl, rfl, rfl, rfl⟩

/-! ## C15: unbinding targets -/

/-- C15: after `UnbindRenderTargets()` the render-target array has its six
slots and every slot equals -1; after `UnbindDepthTarget()` the depth-target
handle equals -1; whatever was bound before, neither call changes any other
field of the pipeline state, nor anything else in the renderer. -/
theorem C15_unbind_sets_targets_to_minus_one (r : Renderer) :
    (UnbindRenderTargets r).mPipelineState.renderTargets.length = 6 ∧
    (∀ x ∈ (UnbindRenderTargets r).mPipelineState.renderTargets, x = -1) ∧
    UnbindRenderTargets r
      = { r with mPipelineState :=
          { r.mPipelineState with
            renderTargets := (UnbindRenderTargets r).mPipelineState.renderTargets } } ∧
    (UnbindRenderTargets r).mPipelineState.depthTargets = r.mPipelineState.depthTargets ∧
    (UnbindRenderTargets r).mPipelineState.shader = r.mPipelineState.shader ∧
    (UnbindDepthTarget r).mPipelineState.depthTargets = -1 ∧
    UnbindDepthTarget r
      = { r with mPipelineState := { r.mPipelineState with depthTargets := -1 } } ∧
    (UnbindDepthTarget r).mPipelineState.renderTargets = r.mPipelineState.renderTargets ∧
    (UnbindDepthTarget r).mPipelineState.shader = r.mPipelineState.shader := by
  refine ⟨rfl, ?_, rfl, rfl, rfl, rfl, rfl, rfl, rfl⟩
  intro x hx
  simp only [UnbindRenderTargets, List.mem_cons, List.mem_singleton, List.not_mem_nil,
    or_false, or_self] at hx
  exact hx

/-! ## C16: unbind, then bind one target -/

/-- C16: for every renderer, whatever its pipeline state, and every valid
render-target handle `k`, `UnbindRenderTargets()` followed by
`BindRenderTarget(k)` returns, and the render-target binding it leaves is the
single slot `k`: the slots holding a non-negative handle are exactly `[k]`, so
no target of an earlier bind remains bound; no other field of the pipeline
state changes. -/
theorem C16_unbind_then_bind_binds_exactly_one (dbg : Bool) (r : Renderer)
    (k : RenderTargetID) (hk0 : 0 ≤ k) (hk : k.toNat < r.mRenderTargets.length) :
    ∃ r1 : Renderer, BindRenderTarget dbg (UnbindRenderTargets r) k = some r1 ∧
      r1.mPipelineState.renderTargets.filter (fun x => decide (0 ≤ x)) = [k] ∧
      r1.mPipelineState.renderTargets = [k] ∧
      r1 = { r with mPipelineState := { r.mPipelineState with renderTargets := [k] } } := by
  have hneg : (-1 : Int) < k := Int.lt_of_lt_of_le (by decide) hk0
  have hrange : -1 < k ∧ k.toNat < (UnbindRenderTargets r).mRenderTargets.length :=
    ⟨hneg, hk⟩
  have hguard : ¬ (dbg = true ∧
      ¬ (-1 < k ∧ k.toNat < (UnbindRenderTargets r).mRenderTargets.length)) :=
    fun h => h.2 hrange
  refine ⟨{ r with mPipelineState := { r.mPipelineState with renderTargets := [k] } },
    ?_, ?_, rfl, rfl⟩
  · simp only [BindRenderTarget, hguard, if_false]
    rfl
  · simp [List.filter, hk0]

/-- Witness of C16: targets 0 and 2 were bound; after unbinding and binding
target 1 only target 1 is bound. -/
theorem C16_unbind_then_bind_binds_exactly_one_witness :
    targetsRenderer.mPipelineState.renderTargets = [0, 2] ∧
    (BindRenderTarget true (UnbindRenderTargets targetsRenderer) 1).map
        (fun r1 => r1.mPipelineState.renderTargets) = some [1] ∧
    ∃ r1 : Renderer, BindRenderTarget true (UnbindRenderTargets targetsRenderer) 1 = some r1 ∧
      r1.mPipelineState.renderTargets.filter (fun x => decide (0 ≤ x)) = [1] ∧
      r1.mPipelineState.renderTargets = [1] ∧
      r1 = { targetsRenderer with
        mPipelineState := { targetsRenderer.mPipelineState with renderTargets := [1] } } :=
  ⟨by decide, by decide,
   C16_unbind_then_bind_binds_exactly_one true targetsRenderer 1 (by decide) (by decide)⟩

/-! ## C17: buffers are registered by kind -/

/-- What `CreateBuffer` does for a known kind. -/
theorem CreateBuffer_spec (r : Renderer) (bufferDesc : BufferDesc) (gpu : Ptr)
    (hkind : bufferDesc.mType ≠ EBufferType.UNKNOWN)
    (hlen : (r.buffersOf bufferDesc.mType).length < 2 ^ 31) :
    (CreateBuffer r bufferDesc gpu).1 = ((r.buffersOf bufferDesc.mType).length : Int) ∧
    (CreateBuffer r bufferDesc gpu).2.buffersOf bufferDesc.mType
      = r.buffersOf bufferDesc.mType ++ [{ mDesc := bufferDesc, mpGPUData := gpu }] ∧
    (∀ K : EBufferType, K ≠ bufferDesc.mType →
      (CreateBuffer r bufferDesc gpu).2.buffersOf K = r.buffersOf K) := by
  unfold CreateBuffer
  cases hty : bufferDesc.mType
  · rw [hty] at hlen
    simp only [Renderer.buffersOf] at hlen
    refine ⟨?_, ?_, ?_⟩
    · simp only [Renderer.called, List.length_append, List.length_singleton,
        Nat.add_sub_cancel, static_cast_int_of_lt _ hlen, Renderer.buffersOf]
    · simp only [Renderer.called, Renderer.buffersOf]
    · intro K hK
      cases K <;> first | exact absurd rfl hK | rfl
  · rw [hty] at hlen
    simp only [Renderer.buffersOf] at hlen
    refine ⟨?_, ?_, ?_⟩
    · simp only [Renderer.called, List.length_append, List.length_singleton,
        Nat.add_sub_cancel, static_cast_int_of_lt _ hlen, Renderer.buffersOf]
    · simp only [Renderer.called, Renderer.buffersOf]
    · intro K hK
      cases K <;> first | exact absurd rfl hK | rfl
  · rw [hty] at hlen
    simp only [Renderer.buffersOf] at hlen
    refine ⟨?_, ?_, ?_⟩
    · simp only [Renderer.called, List.length_append, List.length_singleton,
        Nat.add_sub_cancel, static_cast_int_of_lt _ hlen, Renderer.buffersOf]
    · simp only [Renderer.called, Renderer.buffersOf]
    · intro K hK
      cases K <;> first | exact absurd rfl hK | rfl
  · exact absurd hty hkind

/-- C17: `CreateBuffer` with a descriptor of kind vertex, index or
read-write-compute (the registry of that kind holding fewer than 2^31 buffers)
returns the previous length of that kind's registry, appends the new buffer to
that registry, and leaves the registries of the other kinds unchanged.
Consequently a buffer of another kind, created next into a registry of the same
length, receives the same handle value. -/
theorem C17_CreateBuffer_registers_by_kind (r : Renderer) (bufferDesc : BufferDesc)
    (gpu : Ptr) (hkind : bufferDesc.mType ≠ EBufferType.UNKNOWN)
    (hlen : (r.buffersOf bufferDesc.mType).length < 2 ^ 31) :
    (CreateBuffer r bufferDesc gpu).1 = ((r.buffersOf bufferDesc.mType).length : Int) ∧
    (CreateBuffer r bufferDesc gpu).2.buffersOf bufferDesc.mType
      = r.buffersOf bufferDesc.mType ++ [{ mDesc := bufferDesc, mpGPUData := gpu }] ∧
    (∀ K : EBufferType, K ≠ bufferDesc.mType →
      (CreateBuffer r bufferDesc gpu).2.buffersOf K = r.buffersOf K) ∧
    (∀ (desc2 : BufferDesc) (gpu2 : Ptr), desc2.mType ≠ EBufferType.UNKNOWN →
      desc2.mType ≠ bufferDesc.mType →
      (r.buffersOf desc2.mType).length = (r.buffersOf bufferDesc.mType).length →
      (CreateBuffer (CreateBuffer r bufferDesc gpu).2 desc2 gpu2).1
        = (CreateBuffer r bufferDesc gpu).1) := by
  obtain ⟨h1, h2, h3⟩ := CreateBuffer_spec r bufferDesc gpu hkind hlen
  refine ⟨h1, h2, h3, ?_⟩
  intro desc2 gpu2 hk2 hne hsame
  have hkeep := h3 desc2.mType hne
  have hlen2 : ((CreateBuffer r bufferDesc gpu).2.buffersOf desc2.mType).length < 2 ^ 31 := by
    rw [hkeep, hsame]
    exact hlen
  obtain ⟨g1, _, _⟩ := CreateBuffer_spec (CreateBuffer r bufferDesc gpu).2 desc2 gpu2 hk2 hlen2
  rw [g1, hkeep, hsame, h1]

/-- Witness of C17: the first vertex buffer and the first index buffer both
receive the handle 0. -/
theorem C17_CreateBuffer_registers_by_kind_witness :
    (CreateBuffer Renderer.blank
        { mType := EBufferType.VERTEX_BUFER, mElementCount := 3, mStride := 12 } (some 60)).1
      = 0 ∧
    (CreateBuffer
        (CreateBuffer Renderer.blank
          { mType := EBufferType.VERTEX_BUFER, mElementCount := 3, mStride := 12 } (some 60)).2
        { mType := EBufferType.INDEX_BUFFER, mElementCount := 3, mStride := 4 } (some 61)).1
      = 0 ∧
    (CreateBuffer Renderer.blank
        { mType := EBufferType.VERTEX_BUFER, mElementCount := 3, mStride := 12 }
        (some 60)).2.buffersOf EBufferType.VERTEX_BUFER
      = Renderer.blank.buffersOf EBufferType.VERTEX_BUFER ++
        [{ mDesc := { mType := EBufferType.VERTEX_BUFER, mElementCount := 3, mStride := 12 },
           mpGPUData := some 60 }] ∧
    (∀ K : EBufferType, K ≠ EBufferType.VERTEX_BUFER →
      (CreateBuffer Renderer.blank
        { mType := EBufferType.VERTEX_BUFER, mElementCount := 3, mStride := 12 }
        (some 60)).2.buffersOf K = Renderer.blank.buffersOf K) :=
  ⟨by decide, by decide,
   (C17_CreateBuffer_registers_by_kind Renderer.blank
      { mType := EBufferType.VERTEX_BUFER, mElementCount := 3, mStride := 12 } (some 60)
      (by decide) (by decide)).2.1,
   (C17_CreateBuffer_registers_by_kind Renderer.blank
      { mType := EBufferType.VERTEX_BUFER, mElementCount := 3, mStride := 12 } (some 60)
      (by decide) (by decide)).2.2.1⟩

/-! ## C18: failed creation of a rasterizer state or a render target -/

/-- C18: when the device fails to create the backing object,
`AddRasterizerState` and `AddRenderTarget(texture, viewDesc)` return -1 and
leave every registry as it was (nothing is appended); only the device call is
recorded and the error logged. -/
theorem C18_failed_state_creation_returns_minus_one (r : Renderer) (textureObj : Texture) :
    (AddRasterizerState r none).1 = -1 ∧
    (AddRasterizerState r none).2.mRasterizerStates = r.mRasterizerStates ∧
    (AddRasterizerState r none).2
      = { r with
          deviceCalls := r.deviceCalls ++ [DeviceCall.CreateRasterizerState],
          log := r.log ++
            [{ level := LogLevel.Error, text := "Cannot create Rasterizer State" }] } ∧
    (AddRenderTarget r textureObj none).1 = -1 ∧
    (AddRenderTarget r textureObj none).2.mRenderTargets = r.mRenderTargets ∧
    (AddRenderTarget r textureObj none).2
      = { r with
          deviceCalls := r.deviceCalls ++ [DeviceCall.CreateRenderTargetView],
          log := r.log ++ [{ level := LogLevel.Error, text := "Render Target View" }] } :=
  ⟨rfl, rfl, rfl, rfl, rfl, rfl⟩

/-! ## C19: failed creation of a depth-stencil state -/

/-- C19 at the failing input: when the device fails to create the
depth-stencil state, both overloads of `AddDepthStencilState` append nothing
to the registry, but the handle they return is 0 (`return false`), not -1. -/
theorem C19_failed_depth_stencil_state_returns_zero (r : Renderer)
    (bEnableDepth bEnableStencil : Bool) :
    (AddDepthStencilState r bEnableDepth bEnableStencil none).1 = 0 ∧
    (AddDepthStencilState r bEnableDepth bEnableStencil none).1 ≠ -1 ∧
    (AddDepthStencilState r bEnableDepth bEnableStencil none).2.mDepthStencilStates
      = r.mDepthStencilStates ∧
    (AddDepthStencilState_Desc r none).1 = 0 ∧
    (AddDepthStencilState_Desc r none).1 ≠ -1 ∧
    (AddDepthStencilState_Desc r none).2.mDepthStencilStates = r.mDepthStencilStates :=
  ⟨rfl, (show (0 : Int) ≠ -1 by decide), rfl, rfl, (show (0 : Int) ≠ -1 by decide), rfl⟩

/-! ## C20: failed creation of a 2D texture -/

/-- C20 at the failing input: the device leaves the backing resource null.
In every build, on a registry without released slot `CreateTexture2D` still
appends a slot (whose backing resource is null) and returns its index 1; on a
registry with a released slot it overwrites the first released slot and
returns its index 1. In neither case is -1 returned or the registry left
alone. (With a named descriptor a build that sets debug names does not return
at all: it stops on the null resource.) -/
theorem C20_failed_texture_creation_still_stores :
    (∀ debugNames : Bool,
      (CreateTexture2D debugNames backBufferRegistry TextureDesc.unnamed
          Tex2DOutcome.failed).map (fun c => (c.1, c.2.mTextures.map (fun t => (t._id, t._tex2D))))
        = some (1, [(0, some 1), (1, none)])) ∧
    recycledRegistry.mTextures.map (fun t => (t._id, t._tex2D, t._width))
      = [(0, some 1, 0), (-1, none, 0), (2, some 1, 0), (-1, none, 0), (4, some 1, 0)] ∧
    (∀ debugNames : Bool,
      (CreateTexture2D debugNames recycledRegistry TextureDesc.unnamed
          Tex2DOutcome.failed).map
            (fun c => (c.1, c.2.mTextures.map (fun t => (t._id, t._tex2D, t._width))))
        = some (1, [(0, some 1, 0), (1, none, 256), (2, some 1, 0), (-1, none, 0),
                    (4, some 1, 0)])) ∧
    (CreateTexture2D false backBufferRegistry TextureDesc.plain Tex2DOutcome.failed).map
      Prod.fst = some 1 ∧
    (CreateTexture2D true backBufferRegistry TextureDesc.plain Tex2DOutcome.failed).map
      Prod.fst = none :=
  ⟨fun d => by cases d <;> decide, by decide, fun d => by cases d <;> decide, by decide,
   by decide⟩
/-! ## C21: `ReloadShaders` -/

theorem ReloadShaders.loop_result (poll : Nat → ReloadOutcome) (l : List Shader) :
    ∀ (i : Nat) (st : ReloadState),
      ReloadShaders.loop poll i l st =
        { shaders := st.shaders ++
            List.zipWith (fun j s => if (poll j).updated then (poll j).reloaded else s)
              (List.range' i l.length) l,
          reloadedShaderCount := st.reloadedShaderCount +
            ((((List.range' i l.length).filter
              (fun j => (poll j).updated && (poll j).success)).length : Nat) : Int),
          reloadedShaderNames := st.reloadedShaderNames ++
            ((List.range' i l.length).filter
              (fun j => (poll j).updated && (poll j).success)).map
              (fun j => (poll j).reloaded.mName),
          reloadCalls := st.reloadCalls ++
            (List.range' i l.length).filter (fun j => (poll j).updated) } := by
  induction l with
  | nil =>
    intro i st
    simp [ReloadShaders.loop]
  | cons s rest ih =>
    intro i st
    simp only [ReloadShaders.loop, List.length_cons, List.range'_succ, List.zipWith_cons_cons,
      List.filter_cons]
    cases hu : (poll i).updated
    · simp only [Bool.false_eq_true, if_false, Bool.false_and]
      rw [ih]
      simp
    · cases hs : (poll i).success
      · simp only [if_true, Bool.not_false, Bool.and_false, Bool.false_eq_true, if_false]
        rw [ih]
        simp
      · simp only [if_true, Bool.not_true, Bool.false_eq_true, if_false, Bool.and_self]
        rw [ih]
        simp only [List.append_assoc, List.singleton_append, List.length_cons, List.map_cons,
          ReloadState.mk.injEq, true_and, and_true]
        push_cast
        omega

theorem foldl_logged (names : List String) (r : Renderer) :
    names.foldl (fun acc name => acc.logged LogLevel.Info ("\t" ++ name)) r
      = { r with log := r.log ++
          names.map (fun name => { level := LogLevel.Info, text := "\t" ++ name }) } := by
  induction names generalizing r with
  | nil => simp
  | cons n ns ih =>
    simp only [List.foldl_cons, List.map_cons]
    rw [ih]
    simp [Renderer.logged]

/-- C21: `ReloadShaders()` calls `Reload` on exactly the shaders whose
`HasSourceFileBeenUpdated()` is true, in registry order. With `ok` the registry
positions of the shaders that were updated and whose `Reload` succeeded: if
`ok` is empty the log receives the single line "No updates have been made to
shader source files: no shaders have been loaded"; otherwise it receives the
line "Reloaded n Shaders:" with `n` the number of positions in `ok`, followed
by one line per position of `ok`, in registry order, carrying the name of that
shader. -/
theorem C21_ReloadShaders_reloads_updated_and_logs (r : Renderer)
    (poll : Nat → ReloadOutcome) :
    (ReloadShaders r poll).2
      = (List.range r.mShaders.length).filter (fun i => (poll i).updated) ∧
    (ReloadShaders r poll).1.mShaders
      = List.zipWith (fun j s => if (poll j).updated then (poll j).reloaded else s)
          (List.range r.mShaders.length) r.mShaders ∧
    (ReloadShaders r poll).1.log
      = (if (List.range r.mShaders.length).filter
              (fun i => (poll i).updated && (poll i).success) = [] then
          r.log ++ [LogEntry.mk LogLevel.Info
            "No updates have been made to shader source files: no shaders have been loaded"]
         else
          r.log ++
            [LogEntry.mk LogLevel.Info
              ("Reloaded " ++ toString ((((List.range r.mShaders.length).filter
                  (fun i => (poll i).updated && (poll i).success)).length : Nat) : Int)
                  ++ " Shaders:")] ++
            ((List.range r.mShaders.length).filter
              (fun i => (poll i).updated && (poll i).success)).map
              (fun i => LogEntry.mk LogLevel.Info ("\t" ++ (poll i).reloaded.mName))) := by
  have hloop := ReloadShaders.loop_result poll r.mShaders 0
    { shaders := [], reloadedShaderCount := 0, reloadedShaderNames := [], reloadCalls := [] }
  rw [← List.range_eq_range'] at hloop
  simp only [List.nil_append, Int.zero_add] at hloop
  unfold ReloadShaders
  simp only [hloop]
  by_cases hok : (List.range r.mShaders.length).filter
      (fun i => (poll i).updated && (poll i).success) = []
  · simp only [hok, List.length_nil, Nat.cast_zero, if_true, Renderer.logged, and_self]
  · have hlen : ((((List.range r.mShaders.length).filter
        (fun i => (poll i).updated && (poll i).success)).length : Nat) : Int) ≠ 0 := by
      intro h
      apply hok
      apply List.eq_nil_of_length_eq_zero
      exact_mod_cast h
    simp only [hlen, hok, if_false]
    rw [foldl_logged]
    simp only [Renderer.logged, List.map_map, true_and]
    rfl

/-! ## C22: the release order of `Exit` -/

theorem releases_class (c : ResourceClass) (flags : List Bool) :
    ∀ e ∈ releases c flags, e.1 = c := by
  intro e he
  unfold releases at he
  rw [List.mem_filterMap] at he
  obtain ⟨p, _, hp⟩ := he
  split at hp
  · simp only [Option.some.injEq] at hp
    rw [← hp]
  · cases hp

theorem releases_then (c : ResourceClass) (flags : List Bool)
    (rest : List (ResourceClass × Nat)) (k : Nat) (hk : c.rank ≤ k)
    (h : ReleasedInOrder rest ∧ ∀ e ∈ rest, k ≤ e.1.rank) :
    ReleasedInOrder (releases c flags ++ rest) ∧
      ∀ e ∈ releases c flags ++ rest, c.rank ≤ e.1.rank := by
  constructor
  · unfold ReleasedInOrder
    rw [List.pairwise_append]
    refine ⟨?_, h.1, ?_⟩
    · rw [List.pairwise_iff_forall_sublist]
      intro a b hab
      have ha := releases_class c flags a (hab.subset (by simp))
      have hb := releases_class c flags b (hab.subset (by simp))
      rw [ha, hb]
    · intro a ha b hb
      rw [releases_class c flags a ha]
      exact Nat.le_trans hk (h.2 b hb)
  · intro e he
    rcases List.mem_append.mp he with h1 | h1
    · rw [releases_class c flags e h1]
    · exact Nat.le_trans hk (h.2 e h1)

/-- C22, as stated, fails: `Exit` on a renderer holding one object of every
class and one queued texture bind makes its first release call on a buffer,
makes no call on the command queues, and leaves the queued bind in its
queue. -/
theorem C22_counterexample_queues_not_released :
    fullRenderer.mSetTextureCmds ≠ [] ∧
    (Exit fullRenderer true).1.mSetTextureCmds = fullRenderer.mSetTextureCmds ∧
    (Exit fullRenderer true).2.1.map Prod.fst
      = [ResourceClass.Buffers, ResourceClass.Shaders, ResourceClass.Textures,
         ResourceClass.Textures, ResourceClass.Textures, ResourceClass.Samplers,
         ResourceClass.RenderTargets, ResourceClass.RenderTargets,
         ResourceClass.RenderTargets, ResourceClass.RasterizerStates,
         ResourceClass.DepthStencilStates, ResourceClass.BlendStates,
         ResourceClass.DepthTargets, ResourceClass.Device] := by
  decide

/-- C22, amended: `Exit()` releases the buffers, then the shaders, the
textures, the samplers, the render targets, the fixed-function states
(rasterizer, depth-stencil, blend), the depth targets, and shuts the device
down last: no class is released before one that precedes it in that order,
nothing is released after the device, and afterwards the buffer, shader and
texture registries are empty, every remaining view or state pointer is null and
the device pointer is null. The two command queues are not released: no call
is made on them and they are left as they were. -/
theorem C22_Exit_releases_in_order (r : Renderer) (m_Direct3D : Bool) :
    ReleasedInOrder (Exit r m_Direct3D).2.1 ∧
    (∃ pre : List (ResourceClass × Nat),
      (Exit r true).2.1 = pre ++ [(ResourceClass.Device, 0)] ∧
      ∀ e ∈ pre, e.1.rank < ResourceClass.Device.rank) ∧
    (∀ e ∈ (Exit r m_Direct3D).2.1, e.1 ≠ ResourceClass.Queues) ∧
    (Exit r m_Direct3D).1.mSetTextureCmds = r.mSetTextureCmds ∧
    (Exit r m_Direct3D).1.mSetSamplerCmds = r.mSetSamplerCmds ∧
    (Exit r m_Direct3D).1.mVertexBuffers = [] ∧ (Exit r m_Direct3D).1.mIndexBuffers = [] ∧
    (Exit r m_Direct3D).1.mUABuffers = [] ∧ (Exit r m_Direct3D).1.mShaders = [] ∧
    (Exit r m_Direct3D).1.mTextures = [] ∧
    (∀ s ∈ (Exit r m_Direct3D).1.mSamplers, s._samplerState = none) ∧
    (∀ rt ∈ (Exit r m_Direct3D).1.mRenderTargets, rt.pRenderTargetView = none) ∧
    (∀ p ∈ (Exit r m_Direct3D).1.mRasterizerStates, p = none) ∧
    (∀ p ∈ (Exit r m_Direct3D).1.mDepthStencilStates, p = none) ∧
    (∀ b ∈ (Exit r m_Direct3D).1.mBlendStates, b.ptr = none) ∧
    (∀ dt ∈ (Exit r m_Direct3D).1.mDepthTargets, dt.pDepthStencilView = none) ∧
    (Exit r m_Direct3D).2.2 = false := by
  have hdev : ∀ d : Bool,
      ReleasedInOrder (if d then [(ResourceClass.Device, 0)] else []) ∧
      ∀ e ∈ (if d then [(ResourceClass.Device, 0)] else []), 7 ≤ e.1.rank := by
    intro d
    cases d
    · exact ⟨List.Pairwise.nil, fun e he => by cases he⟩
    · refine ⟨List.pairwise_singleton _ _, fun e he => ?_⟩
      have : e = (ResourceClass.Device, 0) := by simpa using he
      rw [this]
      exact Nat.le_refl 7
  have hchain : ∀ d : Bool, ReleasedInOrder (Exit r d).2.1 ∧
      ∀ e ∈ (Exit r d).2.1, ResourceClass.Buffers.rank ≤ e.1.rank := by
    intro d
    simp only [Exit, List.append_assoc]
    exact releases_then _ _ _ 0 (by decide) <| releases_then _ _ _ 0 (by decide) <|
      releases_then _ _ _ 1 (by decide) <| releases_then _ _ _ 2 (by decide) <|
      releases_then _ _ _ 3 (by decide) <| releases_then _ _ _ 4 (by decide) <|
      releases_then _ _ _ 5 (by decide) <| releases_then _ _ _ 5 (by decide) <|
      releases_then _ _ _ 5 (by decide) <| releases_then _ _ _ 6 (by decide) <|
      releases_then _ _ _ 7 (by decide) (hdev d)
  refine ⟨(hchain m_Direct3D).1, ?_, ?_, rfl, rfl, rfl, rfl, rfl, rfl, rfl, ?_, ?_, ?_, ?_, ?_, ?_,
    rfl⟩
  · refine ⟨_, rfl, ?_⟩
    intro e he
    simp only [List.mem_append] at he
    have hlt : ∀ (c : ResourceClass) (flags : List Bool), c.rank < 7 →
        e ∈ releases c flags → e.1.rank < ResourceClass.Device.rank := by
      intro c flags hc hmem
      rw [releases_class c flags e hmem]
      exact hc
    rcases he with ((((((((((h | h) | h) | h) | h) | h) | h) | h) | h) | h) | h)
    all_goals exact hlt _ _ (by decide) h
  · intro e he hq
    simp only [Exit, List.mem_append] at he
    have hne : ∀ (c : ResourceClass) (flags : List Bool), c ≠ ResourceClass.Queues →
        e ∈ releases c flags → False := by
      intro c flags hc hmem
      exact hc ((releases_class c flags e hmem).symm.trans hq)
    rcases he with (((((((((((h | h) | h) | h) | h) | h) | h) | h) | h) | h) | h) | h)
    any_goals exact hne _ _ (by decide) h
    cases m_Direct3D
    · cases h
    · have : e = (ResourceClass.Device, 0) := by simpa using h
      rw [this] at hq
      cases hq
  · intro s hs
    simp only [Exit, Renderer.logged, List.mem_map] at hs
    obtain ⟨s0, _, rfl⟩ := hs
    rfl
  · intro rt hrt
    simp only [Exit, Renderer.logged, List.mem_map] at hrt
    obtain ⟨x, _, rfl⟩ := hrt
    rfl
  · intro p hp
    simp only [Exit, Renderer.logged, List.mem_map] at hp
    obtain ⟨x, _, rfl⟩ := hp
    rfl
  · intro p hp
    simp only [Exit, Renderer.logged, List.mem_map] at hp
    obtain ⟨x, _, rfl⟩ := hp
    rfl
  · intro b hb
    simp only [Exit, Renderer.logged, List.mem_map] at hb
    obtain ⟨x, _, rfl⟩ := hb
    rfl
  · intro dt hdt
    simp only [Exit, Renderer.logged, List.mem_map] at hdt
    obtain ⟨x, _, rfl⟩ := hdt
    rfl

/-! ## C23: the handles returned by `AddDepthTarget` -/

theorem foldl_range_nested {σ : Type} (g : σ → Nat → σ) (f a : Nat) (s : σ) :
    (List.range a).foldl
        (fun st i => (List.range f).foldl (fun st face => g st (i * f + face)) st) s
      = (List.range (a * f)).foldl g s := by
  induction a with
  | zero => simp
  | succ a ih =>
    rw [List.range_succ, List.foldl_append, ih, Nat.succ_mul, List.range_add,
      List.foldl_append, List.foldl_map]
    rfl

theorem createdBefore_succ (dsv : Nat → Option Ptr) (k : Nat) :
    createdBefore dsv (k + 1) = createdBefore dsv k + (if (dsv k).isSome then 1 else 0) := by
  unfold createdBefore
  rw [List.range_succ, List.filter_append, List.length_append]
  cases h : (dsv k).isSome <;> simp [List.filter_cons, h]

theorem createdBefore_le (dsv : Nat → Option Ptr) (k : Nat) : createdBefore dsv k ≤ k := by
  unfold createdBefore
  exact Nat.le_trans (List.length_filter_le _ _) (by simp)

theorem createdBefore_all (dsv : Nat → Option Ptr) (n : Nat)
    (h : ∀ k, k < n → (dsv k).isSome = true) : ∀ k, k ≤ n → createdBefore dsv k = k := by
  intro k
  induction k with
  | zero => intro _; rfl
  | succ k ih =>
    intro hk
    rw [createdBefore_succ, ih (by omega), h k (by omega)]
    rfl

/-- The state of the loops of `AddDepthTarget` after the first `k` views. -/
theorem AddDepthTarget.views_spec (textureObj : Texture) (dsv : Nat → Option Ptr)
    (r0 : Renderer) (n : Nat) (hfit : r0.mDepthTargets.length + n < 2 ^ 31) :
    ∀ k, k ≤ n →
      ((List.range k).foldl (AddDepthTarget.view textureObj dsv)
          (r0, List.replicate n (-1))).2.length = n ∧
      (∀ j, j < k →
        ((List.range k).foldl (AddDepthTarget.view textureObj dsv)
            (r0, List.replicate n (-1))).2[j]?
          = some (if (dsv j).isSome
              then ((r0.mDepthTargets.length + createdBefore dsv j : Nat) : Int) else -1)) ∧
      (∀ j, k ≤ j → j < n →
        ((List.range k).foldl (AddDepthTarget.view textureObj dsv)
            (r0, List.replicate n (-1))).2[j]? = some (-1)) ∧
      (∃ added : List DepthTarget,
        ((List.range k).foldl (AddDepthTarget.view textureObj dsv)
            (r0, List.replicate n (-1))).1.mDepthTargets = r0.mDepthTargets ++ added ∧
        added.length = createdBefore dsv k ∧ ∀ d ∈ added, d.texture = textureObj) ∧
      ((List.range k).foldl (AddDepthTarget.view textureObj dsv)
          (r0, List.replicate n (-1))).1.mTextures = r0.mTextures := by
  intro k
  induction k with
  | zero =>
    intro _
    refine ⟨by simp, fun j hj => absurd hj (Nat.not_lt_zero j), ?_, ⟨[], by simp, rfl, ?_⟩, rfl⟩
    · intro j _ hj
      simp [List.getElem?_replicate, hj]
    · intro d hd
      cases hd
  | succ k ih =>
    intro hk
    obtain ⟨hlen, hdone, htodo, ⟨added, hreg, hal, hat⟩, htex⟩ := ih (by omega)
    rw [List.range_succ, List.foldl_append]
    generalize (List.range k).foldl (AddDepthTarget.view textureObj dsv)
      (r0, List.replicate n (-1)) = st at hlen hdone htodo hreg htex
    simp only [List.foldl_cons, List.foldl_nil]
    rw [createdBefore_succ]
    cases hv : dsv k with
    | none =>
      simp only [AddDepthTarget.view, hv, Renderer.logged, Renderer.called]
      refine ⟨hlen, ?_, ?_, ⟨added, hreg, by simpa using hal, hat⟩, htex⟩
      · intro j hj
        by_cases hjk : j = k
        · subst hjk
          rw [htodo j (Nat.le_refl j) (by omega), hv]
          rfl
        · exact hdone j (by omega)
      · intro j hj1 hj2
        exact htodo j (by omega) hj2
    | some view =>
      simp only [AddDepthTarget.view, hv, Renderer.called]
      have hcb := createdBefore_le dsv k
      have hcast : static_cast_int
          ((st.1.mDepthTargets ++
            [DepthTarget.mk textureObj view]).length - 1)
          = ((r0.mDepthTargets.length + createdBefore dsv k : Nat) : Int) := by
        rw [hreg]
        simp only [List.length_append, List.length_singleton, Nat.add_sub_cancel, hal]
        exact static_cast_int_of_lt _ (by omega)
      rw [hcast]
      refine ⟨by rw [List.length_set]; exact hlen, ?_, ?_,
        ⟨added ++ [{ texture := textureObj, pDepthStencilView := view }], ?_, ?_, ?_⟩, htex⟩
      · intro j hj
        rw [List.getElem?_set]
        by_cases hjk : k = j
        · subst hjk
          rw [if_pos rfl, if_pos (by omega), hv]
          rfl
        · rw [if_neg hjk]
          exact hdone j (by omega)
      · intro j hj1 hj2
        rw [List.getElem?_set, if_neg (by omega)]
        exact htodo j (by omega) hj2
      · simp only [hreg, List.append_assoc]
      · simp [hal]
      · intro d hd
        rcases List.mem_append.mp hd with h1 | h1
        · exact hat d h1
        · have : d = { texture := textureObj, pDepthStencilView := view } := by simpa using h1
          rw [this]

/-- The loops of `AddDepthTarget` visit the view indices in increasing order. -/
theorem AddDepthTarget_eq (debugNames : Bool) (r : Renderer)
    (depthTargetDesc : DepthTargetDesc)
    (texDev : Tex2DOutcome) (dsv : Nat → Option Ptr) (a : Nat) (textureObj : Texture)
    (ha : depthTargetDesc.textureDesc.arraySize = (a : Int))
    (hret : debugNames = true → depthTargetDesc.textureDesc.texFileName ≠ "" →
      texDev.tex2D ≠ none)
    (hget : GetTextureObject (CreateTexture2D.stored r depthTargetDesc.textureDesc texDev).2
      (CreateTexture2D.stored r depthTargetDesc.textureDesc texDev).1 = some textureObj)
    (hfit : a * (if depthTargetDesc.textureDesc.bIsCubeMap then 6 else 1) < 2 ^ 31) :
    AddDepthTarget debugNames r depthTargetDesc texDev dsv
      = some
        (((List.range (a * (if depthTargetDesc.textureDesc.bIsCubeMap then 6 else 1))).foldl
            (AddDepthTarget.view textureObj dsv)
            ((CreateTexture2D.stored r depthTargetDesc.textureDesc texDev).2,
              List.replicate (a * (if depthTargetDesc.textureDesc.bIsCubeMap then 6 else 1))
                (-1))).2,
         ((List.range (a * (if depthTargetDesc.textureDesc.bIsCubeMap then 6 else 1))).foldl
            (AddDepthTarget.view textureObj dsv)
            ((CreateTexture2D.stored r depthTargetDesc.textureDesc texDev).2,
              List.replicate (a * (if depthTargetDesc.textureDesc.bIsCubeMap then 6 else 1))
                (-1))).1) := by
  unfold AddDepthTarget
  simp only [CreateTexture2D_eq_some debugNames r depthTargetDesc.textureDesc texDev hret,
    hget, ha]
  cases hc : depthTargetDesc.textureDesc.bIsCubeMap
  · rw [hc] at hfit
    simp only [Bool.false_eq_true, if_false, Nat.mul_one, Int.mul_one] at hfit ⊢
    rw [if_neg (by omega)]
    simp only [Int.toNat_ofNat]
    have h := foldl_range_nested (AddDepthTarget.view textureObj dsv) 1 a
      ((CreateTexture2D.stored r depthTargetDesc.textureDesc texDev).2, List.replicate a (-1))
    simp only [Nat.mul_one] at h
    rw [← h]
  · rw [hc] at hfit
    simp only [if_true] at hfit ⊢
    rw [if_neg (by omega)]
    have h6 : ((a : Int) * 6).toNat = a * 6 := by omega
    simp only [h6, Nat.mul_div_cancel _ (show 0 < 6 by decide)]
    rw [foldl_range_nested (AddDepthTarget.view textureObj dsv) 6 a]

/-- C23: `AddDepthTarget(desc)` returns a list of exactly `arraySize × (6 if
cubemap else 1)` handles. Position `k` of the list holds -1 when the creation
of view `k` fails, else the previous length of the depth-target registry plus
the number of earlier views that were created; the registry keeps its old
entries and grows by one entry per created view, each over the one texture
just created. When every view is created the handles are the consecutive
numbers starting at the previous length of the registry, pairwise distinct,
and the registry grows by exactly that many entries. Stated for the calls
that get past the debug name of the texture creation: in a build that sets
debug names (Debug or PROFILE) a named descriptor needs the device to have
created the resource. -/
theorem C23_AddDepthTarget_handles (debugNames : Bool) (r : Renderer)
    (depthTargetDesc : DepthTargetDesc)
    (texDev : Tex2DOutcome) (dsv : Nat → Option Ptr) (a : Nat)
    (ha : depthTargetDesc.textureDesc.arraySize = (a : Int))
    (hret : debugNames = true → depthTargetDesc.textureDesc.texFileName ≠ "" →
      texDev.tex2D ≠ none)
    (htex : r.mTextures.length < 2 ^ 31)
    (hfit : r.mDepthTargets.length
      + a * (if depthTargetDesc.textureDesc.bIsCubeMap then 6 else 1) < 2 ^ 31) :
    ∃ (ids : List DepthTargetID) (r1 : Renderer) (added : List DepthTarget),
      AddDepthTarget debugNames r depthTargetDesc texDev dsv = some (ids, r1) ∧
      ids.length = a * (if depthTargetDesc.textureDesc.bIsCubeMap then 6 else 1) ∧
      (∀ k, k < a * (if depthTargetDesc.textureDesc.bIsCubeMap then 6 else 1) →
        ids[k]? = some (if (dsv k).isSome
          then ((r.mDepthTargets.length + createdBefore dsv k : Nat) : Int) else -1)) ∧
      r1.mDepthTargets = r.mDepthTargets ++ added ∧
      added.length
        = createdBefore dsv (a * (if depthTargetDesc.textureDesc.bIsCubeMap then 6 else 1)) ∧
      (∀ d ∈ added, some d.texture = GetTextureObject r1
        (CreateTexture2D.stored r depthTargetDesc.textureDesc texDev).1) ∧
      ((∀ k, k < a * (if depthTargetDesc.textureDesc.bIsCubeMap then 6 else 1) →
          (dsv k).isSome = true) →
        ids = (List.range (a * (if depthTargetDesc.textureDesc.bIsCubeMap then 6 else 1))).map
          (fun k => ((r.mDepthTargets.length + k : Nat) : Int)) ∧
        ids.Nodup ∧
        r1.mDepthTargets.length = r.mDepthTargets.length
          + a * (if depthTargetDesc.textureDesc.bIsCubeMap then 6 else 1)) := by
  obtain ⟨k0, tex, hk0, hslot, hget, _, _⟩ :=
    CreateTexture2D.stored_get r depthTargetDesc.textureDesc texDev htex
  have hdt := (CreateTexture2D.stored_frame r depthTargetDesc.textureDesc texDev).1
  have heq := AddDepthTarget_eq debugNames r depthTargetDesc texDev dsv a tex ha hret hget
    (by omega)
  generalize a * (if depthTargetDesc.textureDesc.bIsCubeMap then 6 else 1) = n at hfit heq ⊢
  obtain ⟨hlen, hdone, _, ⟨added, hreg, hal, hat⟩, htx⟩ :=
    AddDepthTarget.views_spec tex dsv
      (CreateTexture2D.stored r depthTargetDesc.textureDesc texDev).2 n (by rw [hdt]; exact hfit)
      n (Nat.le_refl n)
  rw [hdt] at hdone hreg
  refine ⟨_, _, added, heq, hlen, hdone, hreg, hal, ?_, ?_⟩
  · intro d hd
    rw [hat d hd, ← hget]
    unfold GetTextureObject
    rw [htx]
  · intro hall
    have hids : ((List.range n).foldl (AddDepthTarget.view tex dsv)
        ((CreateTexture2D.stored r depthTargetDesc.textureDesc texDev).2,
          List.replicate n (-1))).2
        = (List.range n).map (fun k => ((r.mDepthTargets.length + k : Nat) : Int)) := by
      apply List.ext_getElem?
      intro j
      by_cases hj : j < n
      · rw [hdone j hj, hall j hj, if_pos rfl, createdBefore_all dsv n hall j (by omega),
          List.getElem?_map, List.getElem?_range hj]
        rfl
      · rw [List.getElem?_eq_none (by omega), List.getElem?_eq_none (by simp; omega)]
    refine ⟨hids, ?_, ?_⟩
    · rw [hids]
      refine (List.nodup_range n).map ?_
      intro x y hxy
      have : ((r.mDepthTargets.length + x : Nat) : Int)
          = ((r.mDepthTargets.length + y : Nat) : Int) := hxy
      omega
    · rw [hreg, List.length_append, hal, createdBefore_all dsv n hall n (Nat.le_refl n)]

/-- Witness of C23: two shadow cube maps in a Debug build, the view of slice 3
failing. -/
theorem C23_AddDepthTarget_handles_witness :
    ∃ (ids : List DepthTargetID) (r1 : Renderer),
      AddDepthTarget true targetsRenderer shadowCubesDesc Tex2DOutcome.ok sliceThreeFails
        = some (ids, r1) ∧
      ids.length = 12 ∧ ids[3]? = some (-1) ∧
      ids[4]? = some ((targetsRenderer.mDepthTargets.length + 3 : Nat) : Int) ∧
      r1.mDepthTargets.length = targetsRenderer.mDepthTargets.length + 11 := by
  obtain ⟨ids, r1, added, h, hlen, hk, hreg, hal, _, _⟩ :=
    C23_AddDepthTarget_handles true targetsRenderer shadowCubesDesc Tex2DOutcome.ok
      sliceThreeFails 2 rfl (fun _ _ => by decide) (by decide) (by decide)
  refine ⟨ids, r1, h, hlen, hk 3 (by decide), hk 4 (by decide), ?_⟩
  rw [hreg, List.length_append, hal]
  rfl

/-! ## C24: the binary-search lookup against the linear lookup -/

/-- C24 fails on the code: on constant lists sorted by name the binary-search
variant of `SetConstant` (a) indexes `m_constants` at 2^63 - 1 when the name
sorts before the first of two constants, whatever the number of iterations
allowed, where the linear variant returns with the shader unchanged; (b) for
a name that is absent and sorts between two constants, gives up on a
neighbouring index and overwrites that constant and marks its slot dirty,
where the linear variant changes nothing; (c) for a name that is present and
data equal to the shadow, leaves the dirty flag clear where the linear variant
sets it. -/
theorem C24_binary_search_departs_from_linear_scan :
    SortedByName viewProjShader ∧ SortedByName sortedShader ∧
    (∀ fuel : Nat, BinarySearch (fuel + 2) "a" viewProjShader
      = SearchResult.outOfRange (2 ^ 63 - 1)) ∧
    (∀ fuel : Nat, SetConstant_BinarySearch fuel viewProjRenderer "a" [1, 2, 3, 4] = none) ∧
    (SetConstant viewProjRenderer "a" [1, 2, 3, 4]).map (fun r => r.mShaders)
      = some [viewProjShader] ∧
    (∀ fuel : Nat,
      (SetConstant_BinarySearch (fuel + 1) sortedRenderer "blue" [1, 2, 3, 4]).map
          (fun r => r.mShaders)
        = some [{ sortedShader with
            mCPUConstantBuffers :=
              [{ _name := "ambient", _size := 4, _data := [1, 2, 3, 4] },
               { _name := "color", _size := 4, _data := [5, 5, 5, 5] },
               { _name := "tint", _size := 4, _data := [0, 0, 0, 0] }],
            mConstantBuffers :=
              [{ dirty := true, data := some 10 }, { dirty := false, data := some 11 }] }]) ∧
    (SetConstant sortedRenderer "blue" [1, 2, 3, 4]).map (fun r => r.mShaders)
      = some [sortedShader] ∧
    (∀ fuel : Nat,
      (SetConstant_BinarySearch (fuel + 1) sortedRenderer "color" [5, 5, 5, 5]).map
          (fun r => r.mShaders)
        = some [sortedShader]) ∧
    (SetConstant sortedRenderer "color" [5, 5, 5, 5]).map (fun r => r.mShaders)
      = some [{ sortedShader with
          mConstantBuffers :=
            [{ dirty := true, data := some 10 }, { dirty := false, data := some 11 }] }] := by
  refine ⟨by unfold SortedByName; decide, by unfold SortedByName; decide, fun fuel => ?_,
    fun fuel => ?_, by decide, fun fuel => ?_, by decide, fun fuel => ?_, by decide⟩
  · rfl
  · rcases fuel with _ | _ | fuel <;> rfl
  · rfl
  · rfl

/-! ## C25: where `RecycleDepthTarget` puts the new texture -/

theorem RecycleDepthTarget.view_none (texSlot dtSlot : Nat) (dsv : Ptr → Nat → Option Ptr)
    (l : List Nat) :
    l.foldl (RecycleDepthTarget.view texSlot dtSlot dsv) none = none := by
  induction l with
  | nil => rfl
  | cons x xs ih => exact ih

/-- One round of the view loop of `RecycleDepthTarget` leaves the texture
registry and the length of the depth-target registry as they were. -/
theorem RecycleDepthTarget.view_frame (texSlot dtSlot : Nat) (dsv : Ptr → Nat → Option Ptr)
    (r0 r2 : Renderer) (i : Nat)
    (h : RecycleDepthTarget.view texSlot dtSlot dsv (some r0) i = some r2) :
    r2.mTextures = r0.mTextures ∧ r2.mDepthTargets.length = r0.mDepthTargets.length := by
  unfold RecycleDepthTarget.view at h
  simp only [] at h
  cases ht : r0.mTextures[texSlot]? with
  | none => simp [ht] at h
  | some t =>
    cases hd : r0.mDepthTargets[dtSlot]? with
    | none => simp [ht, hd] at h
    | some dt =>
      simp only [ht, hd] at h
      cases hv : dsv t._tex2D i with
      | none =>
        simp only [hv, Option.some.injEq] at h
        rw [← h]
        exact ⟨rfl, rfl⟩
      | some view =>
        simp only [hv, Option.some.injEq] at h
        rw [← h]
        exact ⟨rfl, by simp [Renderer.called]⟩

/-- The view loop of `RecycleDepthTarget`, when it ends, leaves the texture
registry and the length of the depth-target registry as they were. -/
theorem RecycleDepthTarget.views_frame (texSlot dtSlot : Nat) (dsv : Ptr → Nat → Option Ptr)
    (l : List Nat) :
    ∀ r0 r2 : Renderer,
      l.foldl (RecycleDepthTarget.view texSlot dtSlot dsv) (some r0) = some r2 →
      r2.mTextures = r0.mTextures ∧ r2.mDepthTargets.length = r0.mDepthTargets.length := by
  induction l with
  | nil =>
    intro r0 r2 h
    simp only [List.foldl_nil, Option.some.injEq] at h
    rw [h]
    exact ⟨rfl, rfl⟩
  | cons x xs ih =>
    intro r0 r2 h
    rw [List.foldl_cons] at h
    cases hs : RecycleDepthTarget.view texSlot dtSlot dsv (some r0) x with
    | none =>
      rw [hs, RecycleDepthTarget.view_none] at h
      cases h
    | some r1 =>
      rw [hs] at h
      obtain ⟨h1, h2⟩ := RecycleDepthTarget.view_frame texSlot dtSlot dsv r0 r1 x hs
      obtain ⟨h3, h4⟩ := ih r1 r2 h
      exact ⟨h3.trans h1, h4.trans h2⟩

/-- The view loop of `RecycleDepthTarget` ends when the texture slot and the
depth-target slot exist. -/
theorem RecycleDepthTarget.views_end (texSlot dtSlot : Nat) (dsv : Ptr → Nat → Option Ptr)
    (l : List Nat) :
    ∀ r0 : Renderer, texSlot < r0.mTextures.length → dtSlot < r0.mDepthTargets.length →
      ∃ r2 : Renderer,
        l.foldl (RecycleDepthTarget.view texSlot dtSlot dsv) (some r0) = some r2 := by
  induction l with
  | nil => exact fun r0 _ _ => ⟨r0, rfl⟩
  | cons x xs ih =>
    intro r0 ht hd
    rw [List.foldl_cons]
    have hs : ∃ r1, RecycleDepthTarget.view texSlot dtSlot dsv (some r0) x = some r1 := by
      unfold RecycleDepthTarget.view
      simp only [List.getElem?_eq_getElem ht, List.getElem?_eq_getElem hd]
      cases dsv (r0.mTextures[texSlot])._tex2D x with
      | none => exact ⟨_, rfl⟩
      | some view => exact ⟨_, rfl⟩
    obtain ⟨r1, hs⟩ := hs
    obtain ⟨h1, h2⟩ := RecycleDepthTarget.view_frame texSlot dtSlot dsv r0 r1 x hs
    rw [hs]
    exact ih r1 (by rw [h1]; exact ht) (by rw [h2]; exact hd)

/-- Releasing slot `k` of a registry with no released slot before `k` makes
`k` the first released slot. -/
theorem RecycleDepthTarget.release_first (r : Renderer) (k d : Nat) (t : Texture)
    (dt : DepthTarget)
    (hfirst : ∀ j, j < k → ∀ u : Texture, r.mTextures[j]? = some u → u._id ≠ -1)
    (hk : k < r.mTextures.length) :
    find_if (fun tex1 : Texture => tex1._id == -1)
      (RecycleDepthTarget.release r k d t dt).mTextures = k := by
  refine find_if_eq_of_first _ _ k t.Release ?_ rfl ?_
  · simp only [RecycleDepthTarget.release]
    rw [List.getElem?_set, if_pos rfl, if_pos hk]
  · intro j hj u hu
    simp only [RecycleDepthTarget.release] at hu
    rw [List.getElem?_set, if_neg (by omega)] at hu
    simpa using hfirst j hj u hu

/-- C25: on a registry with no released slot before the texture of the depth
target (the registries the calls of the renderer produce hold no released slot
at all), for a depth target whose view exists and whose texture handle is in
range, `RecycleDepthTarget(id, desc)` returns true, leaves the length of the
texture registry and of the depth-target registry unchanged, and stores the
newly created texture at the texture handle the depth target referred to
before the call; every other texture slot is left as it was. A Debug build
asserts that the array size is 1, and the texture creation must get past its
debug name. -/
theorem C25_RecycleDepthTarget_reuses_the_released_slot (dbg profile : Bool) (r : Renderer)
    (d k : Nat) (dt : DepthTarget) (newDepthTargetDesc : DepthTargetDesc)
    (texDev : Tex2DOutcome) (dsv : Ptr → Nat → Option Ptr)
    (hlen : r.mTextures.length < 2 ^ 31)
    (hdt : r.mDepthTargets[d]? = some dt) (hview : dt.pDepthStencilView ≠ none)
    (hid : dt.texture._id = (k : Int)) (hk : k < r.mTextures.length)
    (hnone : ∀ j, j < k → ∀ u : Texture, r.mTextures[j]? = some u → u._id ≠ -1)
    (hdbg : dbg = true → newDepthTargetDesc.textureDesc.arraySize = 1)
    (hret : (dbg || profile) = true → newDepthTargetDesc.textureDesc.texFileName ≠ "" →
      texDev.tex2D ≠ none) :
    GetDepthTargetTexture r (d : Int) = some (k : Int) ∧
    ∃ (r1 : Renderer) (tex : Texture),
      RecycleDepthTarget dbg profile r (d : Int) newDepthTargetDesc texDev dsv
        = some (true, r1) ∧
      r1.mTextures.length = r.mTextures.length ∧
      r1.mDepthTargets.length = r.mDepthTargets.length ∧
      r1.mTextures[k]? = some tex ∧ tex._id = (k : Int) ∧
      tex._name = newDepthTargetDesc.textureDesc.texFileName ∧
      tex._width = newDepthTargetDesc.textureDesc.width ∧
      tex._height = newDepthTargetDesc.textureDesc.height ∧
      tex._tex2D = texDev.tex2D ∧
      ∀ j, j ≠ k → r1.mTextures[j]? = r.mTextures[j]? := by
  have hdl := (List.getElem?_eq_some.mp hdt).1
  have hgd : GetDepthTargetTexture r (d : Int) = some (k : Int) := by
    unfold GetDepthTargetTexture
    rw [if_pos (Int.ofNat_zero_le d)]
    simp only [Int.toNat_ofNat, hdt, Option.map_some', hid]
  have hgt : GetTextureObject r (k : Int) = some r.mTextures[k] := by
    unfold GetTextureObject
    simp only [Int.toNat_ofNat]
    rw [if_pos ⟨Int.ofNat_zero_le k, hk⟩, List.getElem?_eq_getElem hk]
  obtain ⟨v, hv⟩ : ∃ v, dt.pDepthStencilView = some v := by
    cases h : dt.pDepthStencilView with
    | none => exact absurd h hview
    | some v => exact ⟨v, rfl⟩
  have hfirst := RecycleDepthTarget.release_first r k d r.mTextures[k] dt hnone hk
  have hlen1 : (RecycleDepthTarget.release r k d r.mTextures[k] dt).mTextures.length
      = r.mTextures.length := by simp [RecycleDepthTarget.release]
  have hdl1 : (RecycleDepthTarget.release r k d r.mTextures[k] dt).mDepthTargets.length
      = r.mDepthTargets.length := by simp [RecycleDepthTarget.release]
  obtain ⟨k1, tex, _, hslot, htid, hname, hw, hh, ht2, hothers, hk1, hlen2⟩ :=
    CreateTexture2D.stored_spec (RecycleDepthTarget.release r k d r.mTextures[k] dt)
      newDepthTargetDesc.textureDesc texDev (by rw [hlen1]; exact hlen)
  have hkk : k1 = k := hk1.trans hfirst
  rw [hkk] at hslot htid hothers hlen2
  rw [hlen1, if_pos hk] at hlen2
  have hframe := (CreateTexture2D.stored_frame
    (RecycleDepthTarget.release r k d r.mTextures[k] dt) newDepthTargetDesc.textureDesc texDev).1
  obtain ⟨r2, hr2⟩ := RecycleDepthTarget.views_end k d dsv
    (List.range newDepthTargetDesc.textureDesc.arraySize.toNat)
    (CreateTexture2D.stored (RecycleDepthTarget.release r k d r.mTextures[k] dt)
      newDepthTargetDesc.textureDesc texDev).2
    (by rw [hlen2]; exact hk) (by rw [hframe, hdl1]; exact hdl)
  obtain ⟨htx, hdtl⟩ := RecycleDepthTarget.views_frame k d dsv _ _ r2 hr2
  have hrun : RecycleDepthTarget dbg profile r (d : Int) newDepthTargetDesc texDev dsv
      = some (true, r2) := by
    unfold RecycleDepthTarget
    have hguard : ¬ (dbg = true ∧ newDepthTargetDesc.textureDesc.arraySize ≠ 1) :=
      fun h => h.2 (hdbg h.1)
    simp only [hguard, if_false, hgd, hgt, Int.toNat_ofNat, hdt, hv,
      CreateTexture2D_eq_some (dbg || profile) _ newDepthTargetDesc.textureDesc texDev hret,
      hr2]
  refine ⟨hgd, r2, tex, hrun, by rw [htx, hlen2], by rw [hdtl, hframe, hdl1], ?_, htid, hname,
    hw, hh, ht2, ?_⟩
  · rw [htx]
    exact hslot
  · intro j hj
    rw [htx, hothers j hj]
    simp only [RecycleDepthTarget.release]
    rw [List.getElem?_set, if_neg (fun h => hj h.symm)]

/-- Witness of C25: a Debug build recycles depth target 0, which is over
texture 1, on a registry of three live textures. -/
theorem C25_RecycleDepthTarget_reuses_the_released_slot_witness :
    targetsRenderer.mDepthTargets[0]?
      = some { texture := Texture.named 1 "gbufferA", pDepthStencilView := some 50 } ∧
    GetDepthTargetTexture targetsRenderer ((0 : Nat) : Int) = some ((1 : Nat) : Int) ∧
    ∃ (r1 : Renderer) (tex : Texture),
      RecycleDepthTarget true false targetsRenderer ((0 : Nat) : Int) windowDepthDesc
        Tex2DOutcome.ok viewOverResource = some (true, r1) ∧
      r1.mTextures.length = targetsRenderer.mTextures.length ∧
      r1.mDepthTargets.length = targetsRenderer.mDepthTargets.length ∧
      r1.mTextures[1]? = some tex ∧ tex._id = ((1 : Nat) : Int) ∧
      tex._name = windowDepthDesc.textureDesc.texFileName ∧
      tex._width = windowDepthDesc.textureDesc.width ∧
      tex._height = windowDepthDesc.textureDesc.height ∧
      tex._tex2D = Tex2DOutcome.ok.tex2D ∧
      ∀ j, j ≠ 1 → r1.mTextures[j]? = targetsRenderer.mTextures[j]? :=
  ⟨rfl,
   C25_RecycleDepthTarget_reuses_the_released_slot true false targetsRenderer 0 1
     { texture := Texture.named 1 "gbufferA", pDepthStencilView := some 50 }
     windowDepthDesc Tex2DOutcome.ok viewOverResource (by decide) rfl (by decide) rfl
     (by decide)
     (fun j hj u hu => by
       have hj0 : j = 0 := by omega
       subst hj0
       have hu0 : u = Texture.named 0 "" := (Option.some.inj hu).symm
       rw [hu0]
       decide)
     (fun _ => rfl) (fun _ h => absurd rfl h)⟩

/-- The closed run behind the witness of C25: the new texture lands in the slot
that `RecycleDepthTarget` has just released and the view is created over it. -/
theorem RecycleDepthTarget_reuses_its_slot :
    GetDepthTargetTexture targetsRenderer 0 = some 1 ∧
    ∃ r1 : Renderer,
      RecycleDepthTarget true false targetsRenderer 0 windowDepthDesc Tex2DOutcome.ok
        viewOverResource = some (true, r1) ∧
      (r1.mTextures[1]?).map (fun t => (t._id, t._tex2D)) = some (1, Tex2DOutcome.ok.tex2D) ∧
      (r1.mDepthTargets[0]?).map (fun dt => dt.pDepthStencilView)
        = viewOverResource Tex2DOutcome.ok.tex2D 0 ∧
      r1.log = [] := by
  refine ⟨by decide, _, rfl, ?_, ?_, ?_⟩ <;> decide

/-- Why the hypothesis on earlier slots is needed: on a registry whose slot 1
is released already (a registry that no sequence of calls produces),
`CreateTexture2D` stores the new texture in slot 1, not at handle 2 of the
depth target; slot 2 is left released and the view is requested over its null
resource. -/
theorem RecycleDepthTarget_with_earlier_released_slot :
    GetDepthTargetTexture resizeRenderer 0 = some 2 ∧
    ∃ r1 : Renderer,
      RecycleDepthTarget true false resizeRenderer 0 windowDepthDesc Tex2DOutcome.ok
        viewOverResource = some (true, r1) ∧
      r1.mTextures.length = resizeRenderer.mTextures.length ∧
      r1.mDepthTargets.length = resizeRenderer.mDepthTargets.length ∧
      r1.mTextures[2]? = some (Texture.named 2 "").Release ∧
      (r1.mTextures[1]?).map (fun t => (t._id, t._tex2D)) = some (1, Tex2DOutcome.ok.tex2D) ∧
      (r1.mDepthTargets[0]?).map (fun dt => dt.pDepthStencilView) = some none ∧
      r1.log = [LogEntry.mk LogLevel.Error "Depth Stencil Target View"] := by
  refine ⟨by decide, _, rfl, ?_, ?_, ?_, ?_, ?_, ?_⟩ <;> decide
/-! ## C26: the pipeline-state setters are independent -/

theorem Setter.run_eq (dbg : Bool) (r : Renderer) (s : Setter) (h : s.inRange r = true) :
    s.run dbg r = some { r with mPipelineState := s.write r.mPipelineState } := by
  cases s
  case SetVertexBuffer => rfl
  case SetIndexBuffer => rfl
  case SetViewport => rfl
  case SetViewport_D3D11 => rfl
  all_goals
    simp only [Setter.inRange, VQEngine.inRange, decide_eq_true_eq] at h
    simp only [Setter.run, Setter.write, VQEngine.SetRasterizerState, VQEngine.SetBlendState,
      VQEngine.SetDepthStencilState, VQEngine.BindRenderTarget, VQEngine.BindDepthTarget]
    exact if_neg (fun hn => hn.2 h)

theorem Setter.write_comm (p : PipelineState) (s t : Setter) (h : s.field ≠ t.field) :
    t.write (s.write p) = s.write (t.write p) := by
  cases s <;> cases t <;> first | rfl | exact absurd rfl h

theorem Setter.write_sameExcept (p : PipelineState) (s : Setter) :
    PipelineState.sameExcept s.field p (s.write p) := by
  cases s <;> refine ⟨rfl, rfl, ?_, ?_, ?_, ?_, ?_, ?_, ?_, ?_⟩ <;> intro h <;>
    first | rfl | exact absurd rfl h

theorem Setter.inRange_write (r : Renderer) (p : PipelineState) (t : Setter) :
    t.inRange { r with mPipelineState := p } = t.inRange r := by
  cases t <;> rfl

/-- C26: each of `SetVertexBuffer`, `SetIndexBuffer`, `SetViewport` (both
overloads), `SetRasterizerState`, `SetBlendState`, `SetDepthStencilState`,
`BindRenderTarget` and `BindDepthTarget`, called with an in-range handle,
returns, leaves every field of the pipeline state other than its own as it
was, and leaves the rest of the renderer as it was; and two such calls that
write different fields give the same renderer in either order. -/
theorem C26_setters_are_independent (dbg : Bool) (r : Renderer) (s t : Setter)
    (hs : s.inRange r = true) (ht : t.inRange r = true) :
    (∃ r1 : Renderer, s.run dbg r = some r1 ∧
      PipelineState.sameExcept s.field r.mPipelineState r1.mPipelineState ∧
      { r1 with mPipelineState := r.mPipelineState } = r) ∧
    (s.field ≠ t.field →
      ∃ r2 : Renderer, (s.run dbg r).bind (t.run dbg) = some r2 ∧
        (t.run dbg r).bind (s.run dbg) = some r2) := by
  refine ⟨⟨_, Setter.run_eq dbg r s hs, Setter.write_sameExcept _ s, rfl⟩, fun hne => ?_⟩
  have h1 := Setter.run_eq dbg { r with mPipelineState := s.write r.mPipelineState } t
    (by rw [Setter.inRange_write]; exact ht)
  have h2 := Setter.run_eq dbg { r with mPipelineState := t.write r.mPipelineState } s
    (by rw [Setter.inRange_write]; exact hs)
  refine ⟨{ r with mPipelineState := t.write (s.write r.mPipelineState) }, ?_, ?_⟩
  · rw [Setter.run_eq dbg r s hs, Option.some_bind, h1]
  · rw [Setter.run_eq dbg r t ht, Option.some_bind, h2,
      Setter.write_comm r.mPipelineState s t hne]

theorem C26_setters_are_independent_witness :
    ∃ r2 : Renderer,
      ((Setter.SetRasterizerState 0).run true fullRenderer).bind
          ((Setter.BindRenderTarget 1).run true) = some r2 ∧
      ((Setter.BindRenderTarget 1).run true fullRenderer).bind
          ((Setter.SetRasterizerState 0).run true) = some r2 :=
  (C26_setters_are_independent true fullRenderer (Setter.SetRasterizerState 0)
    (Setter.BindRenderTarget 1) (by decide) (by decide)).2 (by decide)

/-! ## C27: the mip count of the mip-generation path -/

theorem ilog2.go_spec : ∀ (fuel n : Nat), n ≤ fuel → 1 ≤ n →
    2 ^ ilog2.go fuel n ≤ n ∧ n < 2 ^ (ilog2.go fuel n + 1) := by
  intro fuel
  induction fuel with
  | zero =>
    intro n h0 h1
    omega
  | succ fuel ih =>
    intro n hf h1
    unfold ilog2.go
    by_cases h2 : 2 ≤ n
    · rw [if_pos h2]
      obtain ⟨ha, hb⟩ := ih (n / 2) (by omega) (by omega)
      generalize ilog2.go fuel (n / 2) = g at ha hb
      have e1 : 2 ^ (g + 1) = 2 * 2 ^ g := by rw [pow_succ, Nat.mul_comm]
      have e2 : 2 ^ (g + 1 + 1) = 2 * 2 ^ (g + 1) := by rw [pow_succ, Nat.mul_comm]
      generalize 2 ^ (g + 1 + 1) = z at e2 ⊢
      generalize 2 ^ (g + 1) = y at e1 e2 hb ⊢
      generalize 2 ^ g = x at e1 ha
      omega
    · rw [if_neg h2]
      have : n = 1 := by omega
      subst this
      exact ⟨by decide, by decide⟩

/-- The function `ilog2` gives the integer part of the base-2 logarithm. -/
theorem ilog2_spec (n : Nat) (h : 1 ≤ n) : 2 ^ ilog2 n ≤ n ∧ n < 2 ^ (ilog2 n + 1) :=
  ilog2.go_spec n n (Nat.le_refl n) h

theorem ilog2_eq_of_bounds (n k : Nat) (h1 : 2 ^ k ≤ n) (h2 : n < 2 ^ (k + 1)) :
    ilog2 n = k := by
  have hn : 1 ≤ n := Nat.le_trans Nat.one_le_two_pow h1
  obtain ⟨ha, hb⟩ := ilog2_spec n hn
  rcases Nat.lt_trichotomy (ilog2 n) k with h | h | h
  · have := Nat.pow_le_pow_right (show 0 < 2 by decide) (show ilog2 n + 1 ≤ k from h)
    omega
  · exact h
  · have := Nat.pow_le_pow_right (show 0 < 2 by decide) (show k + 1 ≤ ilog2 n from h)
    omega

/-- Above 2^53 the conversion to `double` rounds as well: 2^54 - 1 becomes
2^54, whose logarithm is 54, while the integer part of the logarithm of
2^54 - 1 is 53. -/
theorem mipLevels_conversion_rounds :
    to_double (2 ^ 54 - 1) = 2 ^ 54 ∧ mipLevels (2 ^ 54 - 1) (2 ^ 54 - 1) = some 54 ∧
    2 ^ 53 ≤ 2 ^ 54 - 1 ∧ 2 ^ 54 - 1 < 2 ^ (53 + 1) := by
  have hd : to_double (2 ^ 54 - 1) = 2 ^ 54 := by
    unfold to_double
    rw [if_neg (by decide), ilog2_eq_of_bounds (2 ^ 54 - 1) 53 (by decide) (by decide)]
    decide
  have hk : ilog2 (2 ^ 54) = 54 := ilog2_eq_of_bounds _ _ (Nat.le_refl _) (by decide)
  have hl : log2_size_t (2 ^ 54 - 1) = some 54 := by
    unfold log2_size_t
    rw [if_neg (by decide), hd]
    unfold log2_truncated
    simp only [hk, if_true]
  refine ⟨hd, ?_, by decide, by decide⟩
  unfold mipLevels
  rw [hl]
  rfl

theorem CreateTexture2D_D3D11_idsOk (strict : Bool) (r : Renderer) (tex : Texture)
    (calls : List DeviceCall)
    (hlen : r.mTextures.length < 2 ^ 31) (hinv : IdsOk strict r.mTextures) :
    IdsOk strict (CreateTexture2D_D3D11 r tex calls).2.mTextures := by
  simp only [CreateTexture2D_D3D11, Nat.add_sub_cancel]
  exact IdsOk_append strict _ _ hinv (static_cast_int_of_lt _ hlen)

theorem CreateHDRTexture_idsOk (strict debugNames : Bool) (r : Renderer) (n fileRoot : String)
    (load : Option HDRLoad)
    (dev : Tex2DOutcome) (hlen : r.mTextures.length < 2 ^ 31) (hinv : IdsOk strict r.mTextures)
    (id : TextureID) (r1 : Renderer)
    (hrun : CreateHDRTexture debugNames r n fileRoot load dev = some (id, r1)) :
    IdsOk strict r1.mTextures := by
  unfold CreateHDRTexture at hrun
  simp only [] at hrun
  split at hrun
  · split at hrun
    · cases hrun
      exact hinv
    · cases hrun
  · cases load with
    | none =>
      cases hrun
      exact hinv
    | some img =>
      simp only [] at hrun
      split at hrun
      · cases hrun
      · rename_i created hc
        have hc2 := CreateTexture2D_idsOk strict debugNames r _ dev hlen hinv created hc
        split at hrun
        · have h2 := congrArg Prod.snd (Option.some.inj hrun)
          simp only [] at h2
          rw [← h2]
          exact hc2
        · have h2 := congrArg Prod.snd (Option.some.inj hrun)
          simp only [] at h2
          rw [← h2]
          exact hc2

theorem CreateCubemapFromFaceTextures_idsOk (strict dbg : Bool) (r : Renderer)
    (textureFiles : List String) (dev : CubemapOutcome)
    (hlen : r.mTextures.length < 2 ^ 31) (hinv : IdsOk strict r.mTextures) :
    IdsOk strict (CreateCubemapFromFaceTextures dbg r textureFiles dev).2.mTextures := by
  rcases CreateCubemapFromFaceTextures_spec dbg r textureFiles dev hlen with
    ⟨_, h⟩ | ⟨tex, _, _, _, _, _, h, _, _, hid⟩
  · rw [h]
    exact hinv
  · rw [h]
    exact IdsOk_append strict _ _ hinv hid

theorem foldl_keeps {α β γ : Type} (f : β → α → β) (g : β → γ)
    (h : ∀ b a, g (f b a) = g b) (l : List α) (b : β) : g (l.foldl f b) = g b := by
  induction l generalizing b with
  | nil => rfl
  | cons a l ih =>
    rw [List.foldl_cons, ih, h]

theorem AddDepthTarget.view_mTextures (textureObj : Texture) (dsv : Nat → Option Ptr)
    (st : Renderer × List DepthTargetID) (k : Nat) :
    (AddDepthTarget.view textureObj dsv st k).1.mTextures = st.1.mTextures := by
  unfold AddDepthTarget.view
  cases dsv k <;> rfl

/-- The textures after `AddDepthTarget` are those left by its one call of
`CreateTexture2D`. -/
theorem AddDepthTarget_mTextures (debugNames : Bool) (r : Renderer)
    (depthTargetDesc : DepthTargetDesc)
    (texDev : Tex2DOutcome) (dsv : Nat → Option Ptr) (ids : List DepthTargetID)
    (r1 : Renderer)
    (hrun : AddDepthTarget debugNames r depthTargetDesc texDev dsv = some (ids, r1)) :
    r1.mTextures = (CreateTexture2D.stored r depthTargetDesc.textureDesc texDev).2.mTextures := by
  unfold AddDepthTarget at hrun
  simp only [] at hrun
  by_cases hg : depthTargetDesc.textureDesc.arraySize
        * (if depthTargetDesc.textureDesc.bIsCubeMap = true then 6 else 1) < 0 ∨
      2 ^ 31 ≤ depthTargetDesc.textureDesc.arraySize
        * (if depthTargetDesc.textureDesc.bIsCubeMap = true then 6 else 1)
  · rw [if_pos hg] at hrun
    cases hrun
  · rw [if_neg hg] at hrun
    cases hc : CreateTexture2D debugNames r depthTargetDesc.textureDesc texDev with
    | none =>
      rw [hc] at hrun
      cases hrun
    | some created =>
      rw [hc] at hrun
      simp only [] at hrun
      have hcs := (CreateTexture2D_of_some debugNames r _ texDev created hc).1
      cases hget : GetTextureObject created.2 created.1 with
      | none =>
        rw [hget] at hrun
        cases hrun
      | some textureObj =>
        rw [hget] at hrun
        have h2 := congrArg Prod.snd (Option.some.inj hrun)
        simp only [] at h2
        rw [← h2, ← hcs]
        exact foldl_keeps _ (fun st : Renderer × List DepthTargetID => st.1.mTextures)
          (fun b i => foldl_keeps _ (fun st : Renderer × List DepthTargetID => st.1.mTextures)
            (fun b1 face => AddDepthTarget.view_mTextures textureObj dsv b1 _) _ b) _ _

/-- The textures after the descriptor overload of `AddRenderTarget` are those
left by its call of `CreateTexture2D`. -/
theorem AddRenderTarget_Desc_mTextures (debugNames : Bool) (r : Renderer)
    (textureDesc : TextureDesc) (texDev : Tex2DOutcome) (dev : Option Ptr)
    (id : RenderTargetID) (r1 : Renderer)
    (hrun : AddRenderTarget_Desc debugNames r textureDesc texDev dev = some (id, r1)) :
    r1.mTextures = (CreateTexture2D.stored r textureDesc texDev).2.mTextures := by
  unfold AddRenderTarget_Desc at hrun
  cases hc : CreateTexture2D debugNames r textureDesc texDev with
  | none =>
    rw [hc] at hrun
    cases hrun
  | some created =>
    rw [hc] at hrun
    simp only [] at hrun
    have hcs := (CreateTexture2D_of_some debugNames r _ texDev created hc).1
    cases hget : GetTextureObject created.2 created.1 with
    | none =>
      rw [hget] at hrun
      cases hrun
    | some textureObj =>
      rw [hget] at hrun
      simp only [] at hrun
      cases dev with
      | none =>
        have h2 := congrArg Prod.snd (Option.some.inj hrun)
        simp only [] at h2
        rw [← h2, ← hcs]
        rfl
      | some rtv =>
        have h2 := congrArg Prod.snd (Option.some.inj hrun)
        simp only [] at h2
        rw [← h2, ← hcs]
        rfl

/-- A call of `RecycleDepthTarget` that returns has released one texture that
the registry held and has then run `CreateTexture2D`; the view loop leaves the
textures alone. -/
theorem RecycleDepthTarget_of_some (dbg profile : Bool) (r : Renderer)
    (depthTargetID : DepthTargetID) (newDepthTargetDesc : DepthTargetDesc)
    (texDev : Tex2DOutcome) (dsv : Ptr → Nat → Option Ptr) (ok : Bool) (r1 : Renderer)
    (hrun : RecycleDepthTarget dbg profile r depthTargetID newDepthTargetDesc texDev dsv
      = some (ok, r1)) :
    ∃ (k : Nat) (t : Texture) (dt : DepthTarget),
      r.mTextures[k]? = some t ∧
      r1.mTextures = (CreateTexture2D.stored
        (RecycleDepthTarget.release r k depthTargetID.toNat t dt)
        newDepthTargetDesc.textureDesc texDev).2.mTextures := by
  unfold RecycleDepthTarget at hrun
  simp only [] at hrun
  split at hrun
  · cases hrun
  · cases hg : GetDepthTargetTexture r depthTargetID with
    | none =>
      rw [hg] at hrun
      cases hrun
    | some texID =>
      rw [hg] at hrun
      simp only [] at hrun
      cases hto : GetTextureObject r texID with
      | none =>
        rw [hto] at hrun
        cases hrun
      | some t =>
        cases hd : r.mDepthTargets[depthTargetID.toNat]? with
        | none =>
          rw [hto, hd] at hrun
          cases hrun
        | some dt =>
          rw [hto, hd] at hrun
          simp only [] at hrun
          cases hv : dt.pDepthStencilView with
          | none =>
            rw [hv] at hrun
            cases hrun
          | some v =>
            rw [hv] at hrun
            simp only [] at hrun
            have hslot : r.mTextures[texID.toNat]? = some t := by
              unfold GetTextureObject at hto
              split at hto
              · exact hto
              · cases hto
            cases hc : CreateTexture2D (dbg || profile)
                (RecycleDepthTarget.release r texID.toNat depthTargetID.toNat t dt)
                newDepthTargetDesc.textureDesc texDev with
            | none =>
              rw [hc] at hrun
              cases hrun
            | some created =>
              rw [hc] at hrun
              simp only [] at hrun
              have hcs := (CreateTexture2D_of_some _ _ _ texDev created hc).1
              cases hf : (List.range newDepthTargetDesc.textureDesc.arraySize.toNat).foldl
                  (RecycleDepthTarget.view texID.toNat depthTargetID.toNat dsv)
                  (some created.2) with
              | none =>
                rw [hf] at hrun
                cases hrun
              | some r2 =>
                rw [hf] at hrun
                have h2 := congrArg Prod.snd (Option.some.inj hrun)
                simp only [] at h2
                refine ⟨texID.toNat, t, dt, hslot, ?_⟩
                rw [← h2, (RecycleDepthTarget.views_frame _ _ dsv _ _ r2 hf).1, hcs]

/-- The call `RecycleDepthTarget` keeps the id invariant, also in its strict
form: the slot it releases is the first released one, and `CreateTexture2D`
fills it again. -/
theorem RecycleDepthTarget_idsOk (strict dbg profile : Bool) (r : Renderer)
    (depthTargetID : DepthTargetID) (newDepthTargetDesc : DepthTargetDesc)
    (texDev : Tex2DOutcome) (dsv : Ptr → Nat → Option Ptr) (ok : Bool) (r1 : Renderer)
    (hlen : r.mTextures.length < 2 ^ 31) (hinv : IdsOk strict r.mTextures)
    (hrun : RecycleDepthTarget dbg profile r depthTargetID newDepthTargetDesc texDev dsv
      = some (ok, r1)) :
    IdsOk strict r1.mTextures := by
  obtain ⟨k, t, dt, hslot, hreg⟩ := RecycleDepthTarget_of_some dbg profile r depthTargetID
    newDepthTargetDesc texDev dsv ok r1 hrun
  have hk := (List.getElem?_eq_some.mp hslot).1
  have hlen1 : (RecycleDepthTarget.release r k depthTargetID.toNat t dt).mTextures.length
      = r.mTextures.length := by simp [RecycleDepthTarget.release]
  rw [hreg]
  cases strict with
  | false =>
    refine CreateTexture2D.stored_idsOk false _ _ texDev (by rw [hlen1]; exact hlen) ?_
    intro i u hu
    simp only [RecycleDepthTarget.release] at hu
    rw [List.getElem?_set] at hu
    by_cases hik : k = i
    · rw [if_pos hik, if_pos hk] at hu
      rw [← Option.some.inj hu]
      exact Or.inr ⟨rfl, rfl⟩
    · rw [if_neg hik] at hu
      exact hinv i u hu
  | true =>
    have hidx := (IdsOk_true_iff _).mp hinv
    have hfirst := RecycleDepthTarget.release_first r k depthTargetID.toNat t dt
      (fun j _ u hu => IdIsIndex_no_released _ hidx u (List.mem_iff_getElem?.mpr ⟨j, hu⟩)) hk
    obtain ⟨k1, tex, _, hs, htid, _, _, _, _, hothers, hk1, _⟩ :=
      CreateTexture2D.stored_spec (RecycleDepthTarget.release r k depthTargetID.toNat t dt)
        newDepthTargetDesc.textureDesc texDev (by rw [hlen1]; exact hlen)
    have hkk : k1 = k := hk1.trans hfirst
    rw [hkk] at hs htid hothers
    intro i u hu
    by_cases hik : i = k
    · rw [hik, hs] at hu
      rw [← Option.some.inj hu, hik]
      exact Or.inl htid
    · rw [hothers i hik] at hu
      simp only [RecycleDepthTarget.release] at hu
      rw [List.getElem?_set, if_neg (fun h => hik h.symm)] at hu
      exact hinv i u hu

/-- What `Initialize` leaves in the texture registry of a constructed
renderer: every slot stores its own index, and on success slot 0 holds the
back-buffer texture with id 0. -/
theorem Initialize_idsOk (strict debugNames : Bool) (r : Renderer) (w h : Int)
    (desc0 : TextureDesc) (dev : InitOutcome)
    (ok : Bool) (r1 : Renderer) (hempty : r.mTextures = [])
    (hrun : Initialize debugNames r w h desc0 dev = some (ok, r1)) :
    IdsOk strict r1.mTextures ∧
    (ok = true → ∃ t : Texture, r1.mTextures[0]? = some t ∧ t._id = 0 ∧
      some t._tex2D = dev.backBuffer) := by
  have hnil : IdsOk strict ([] : List Texture) := IdsOk_nil strict
  unfold Initialize at hrun
  simp only [] at hrun
  split at hrun
  · cases hrun
    rw [hempty]
    exact ⟨hnil, fun hc => absurd hc (by decide)⟩
  · split at hrun
    · cases hrun
      refine ⟨?_, fun hc => absurd hc (by decide)⟩
      show IdsOk strict r.mTextures
      rw [hempty]
      exact hnil
    · rename_i backBufferPtr hbb
      split at hrun
      · cases hrun
        refine ⟨?_, fun hc => absurd hc (by decide)⟩
        show IdsOk strict r.mTextures
        rw [hempty]
        exact hnil
      · split at hrun
        · cases hrun
        · rename_i ids r2 hadd
          split at hrun
          · cases hrun
          · split at hrun
            · cases hrun
            · cases hrun
              have htex := AddDepthTarget_mTextures _ _ _ _ _ _ _ hadd
              simp only [Renderer.called, hempty, List.nil_append] at htex
              rw [CreateTexture2D.stored_no_released _ _ _ (by
                intro t ht
                have : t = { Texture.new with
                    _tex2D := backBufferPtr, _id := 0, _srv := dev.backBufferSrv } := by
                  simpa using ht
                rw [this]
                exact (show (0 : Int) ≠ -1 by decide))] at htex
              simp only [Renderer.called, List.length_singleton] at htex
              have hfold := foldl_logged_mTextures dev.rasterizerErrors r2
              refine ⟨?_, fun _ => ⟨{ Texture.new with
                  _tex2D := backBufferPtr, _id := 0, _srv := dev.backBufferSrv }, ?_, rfl, ?_⟩⟩
              · show IdsOk strict
                  (dev.rasterizerErrors.foldl (fun acc e => acc.logged LogLevel.Error e)
                    r2).mTextures
                rw [hfold, htex]
                refine IdsOk_append strict _ _ (IdsOk_append strict _ _ hnil rfl) ?_
                exact static_cast_int_of_lt 1 (by decide)
              · show (dev.rasterizerErrors.foldl (fun acc e => acc.logged LogLevel.Error e)
                    r2).mTextures[0]? = _
                rw [hfold, htex]
                rfl
              · rw [hbb]

/-- Every call that writes the texture registry keeps the id invariant, in
both its forms: with `strict = true`, every slot of a reachable registry
stores its own index. -/
theorem Reachable_idsOk (strict : Bool) (r : Renderer) (hr : Reachable r) :
    IdsOk strict r.mTextures := by
  induction hr with
  | init debugNames r w h desc0 dev ok r1 hempty hrun =>
    exact (Initialize_idsOk strict debugNames r w h desc0 dev ok r1 hempty hrun).1
  | fromFile dbg profile r n fileRoot bGenerateMips load dev id r1 _ hlen hrun ih =>
    exact (CreateTextureFromFile_post strict dbg profile r n fileRoot bGenerateMips load dev
      hlen ih id r1 hrun).1
  | tex2D debugNames r texDesc dev id r1 _ hlen hrun ih =>
    exact CreateTexture2D_idsOk strict debugNames r texDesc dev hlen ih (id, r1) hrun
  | tex2D_D3D11 r tex calls _ hlen ih =>
    exact CreateTexture2D_D3D11_idsOk strict r tex calls hlen ih
  | hdr debugNames r n fileRoot load dev id r1 _ hlen hrun ih =>
    exact CreateHDRTexture_idsOk strict debugNames r n fileRoot load dev hlen ih id r1 hrun
  | cubemap dbg r textureFiles dev _ hlen ih =>
    exact CreateCubemapFromFaceTextures_idsOk strict dbg r textureFiles dev hlen ih
  | renderTarget debugNames r textureDesc texDev dev id r1 _ hlen hrun ih =>
    rw [AddRenderTarget_Desc_mTextures debugNames r textureDesc texDev dev id r1 hrun]
    exact CreateTexture2D.stored_idsOk strict r textureDesc texDev hlen ih
  | depthTarget debugNames r depthTargetDesc texDev dsv ids r1 _ hlen hrun ih =>
    rw [AddDepthTarget_mTextures debugNames r depthTargetDesc texDev dsv ids r1 hrun]
    exact CreateTexture2D.stored_idsOk strict r depthTargetDesc.textureDesc texDev hlen ih
  | recycle dbg profile r depthTargetID newDepthTargetDesc texDev dsv ok r1 _ hlen hrun ih =>
    exact RecycleDepthTarget_idsOk strict dbg profile r depthTargetID newDepthTargetDesc texDev
      dsv ok r1 hlen ih hrun
  | exit r m_Direct3D _ _ => exact IdsOk_nil strict
  | other r r1 _ hsame ih =>
    rw [hsame]
    exact ih

/-- No sequence of calls leaves a released slot in the texture registry: in a
reachable state every slot stores its own index. -/
theorem Reachable_idIsIndex (r : Renderer) (hr : Reachable r) : IdIsIndex r.mTextures :=
  (IdsOk_true_iff _).mp (Reachable_idsOk true r hr)

/-- C28: in every renderer state reached from a constructed renderer by
`Initialize` and then by calls of `CreateTextureFromFile`, of either
`CreateTexture2D` overload, of `CreateHDRTexture` and of
`CreateCubemapFromFaceTextures` (each made while the registry has fewer than
2^31 slots), and also by the other writers of the registry (`AddRenderTarget`,
`AddDepthTarget`, `RecycleDepthTarget`, `Exit`), every slot `i` of the texture
registry stores an id equal to `i` or to -1: `Initialize` establishes this and
each of the calls keeps it. -/
theorem C28_registry_invariant (r : Renderer) (hr : Reachable r) :
    RegistryInv r.mTextures :=
  (IdsOk_false_iff _).mp (Reachable_idsOk false r hr)

/-- Witness of C28: a texture created right after `Initialize`. -/
theorem C28_registry_invariant_witness :
    Initialize true Renderer.blank 1280 720 TextureDesc.zero InitOutcome.ok
      = some (true, startedRenderer) ∧
    startedRenderer.mTextures.length = 2 ∧
    RegistryInv
      (CreateTexture2D.stored startedRenderer TextureDesc.plain Tex2DOutcome.ok).2.mTextures :=
  ⟨rfl, rfl,
   C28_registry_invariant _
    (Reachable.tex2D true startedRenderer TextureDesc.plain Tex2DOutcome.ok _ _
      (Reachable.init true Renderer.blank 1280 720 TextureDesc.zero InitOutcome.ok true
        startedRenderer rfl rfl)
      (by decide) rfl)⟩
/-! ## C29: from a file name to a handle and back -/

/-- Why the mip path needs a registry without released slot: on a registry
whose slots 1 and 3 are released (a registry that no sequence of calls
produces), the mip-generating call for the new name "c.png" stores the texture
in slot 1 but returns 4, the id of the last slot; the call without mip
generation returns 5, the slot that holds "c.png". -/
theorem CreateTextureFromFile_mips_on_released_slots :
    (∀ t ∈ recycledRegistry.mTextures, t._name ≠ "c.png") ∧
    (∃ r1 : Renderer,
      CreateTextureFromFile false false recycledRegistry "c.png" "Data/Textures/" true
        (some ImageLoad.ok) Tex2DOutcome.ok = some (4, r1) ∧
      (r1.mTextures[4]?).map (fun t => t._name) = some "b.png" ∧
      (r1.mTextures[1]?).map (fun t => (t._name, t._id)) = some ("c.png", 1) ∧
      (GetTexture r1 "c.png").map Prod.fst = some 1) ∧
    (∃ r2 : Renderer,
      CreateTextureFromFile false false recycledRegistry "c.png" "Data/Textures/" false
        (some ImageLoad.ok) Tex2DOutcome.ok = some (5, r2) ∧
      (r2.mTextures[5]?).map (fun t => (t._name, t._id)) = some ("c.png", 5) ∧
      (GetTexture r2 "c.png").map Prod.fst = some 5) := by
  refine ⟨by decide, ⟨_, rfl, ?_, ?_, ?_⟩, ⟨_, rfl, ?_, ?_⟩⟩ <;> decide

/-- The registries with released slots used above are states that no sequence
of calls produces. -/
theorem released_registries_unreachable :
    ¬ Reachable recycledRegistry ∧ ¬ Reachable resizeRenderer :=
  ⟨fun h => absurd (Reachable_idIsIndex _ h 1 Texture.released rfl) (by decide),
   fun h => absurd (Reachable_idIsIndex _ h 1 Texture.released rfl) (by decide)⟩
/-! ## C30: a file that cannot be loaded -/

/-- C30, as stated, fails: the name made of two double quotes is non-empty and
held by no slot of the registry, its file cannot be loaded, slot 0 stores the
id 0, yet `CreateTextureFromFile` returns -1 (the guard of source line 721
answers before the file is looked for). -/
theorem C30_counterexample_quoted_name_returns_minus_one :
    quotedEmpty ≠ "" ∧
    (∀ t ∈ backBufferRegistry.mTextures, t._name ≠ quotedEmpty) ∧
    (backBufferRegistry.mTextures[0]?).map (fun t => t._id) = some 0 ∧
    (CreateTextureFromFile false false backBufferRegistry quotedEmpty "Data/Textures/" false
        none Tex2DOutcome.ok).map Prod.fst = some (-1) := by
  decide

/-- C30, amended: when the name is neither empty nor the two-quote string and
is held by no slot, and the image file cannot be loaded, `CreateTextureFromFile`
on a non-empty registry returns the id stored in slot 0, leaves the texture
registry as it was, asks nothing of the device and logs the error; and right
after a successful `Initialize` of a constructed renderer slot 0 is the
back-buffer texture, with id 0. -/
theorem C30_unloadable_file_returns_slot_zero (dbg profile : Bool) (r : Renderer)
    (n fileRoot : String) (bGenerateMips : Bool) (dev : Tex2DOutcome) (t0 : Texture)
    (hne : n ≠ "") (hq : n ≠ quotedEmpty)
    (hfresh : ∀ t ∈ r.mTextures, t._name ≠ n) (h0 : r.mTextures[0]? = some t0) :
    (∃ r1 : Renderer,
      CreateTextureFromFile dbg profile r n fileRoot bGenerateMips none dev
        = some (t0._id, r1) ∧
      r1.mTextures = r.mTextures ∧ r1.deviceCalls = r.deviceCalls ∧
      r1.log = r.log
        ++ (if dbg then [LogEntry.mk LogLevel.Info ("\tLoading Texture: " ++ (fileRoot ++ n))]
            else [])
        ++ [LogEntry.mk LogLevel.Error ("Cannot load texture file: " ++ n ++ "\n")]) ∧
    (∀ (debugNames : Bool) (r0 : Renderer) (w h : Int) (desc0 : TextureDesc)
        (idev : InitOutcome),
      r0.mTextures = [] → Initialize debugNames r0 w h desc0 idev = some (true, r) →
      t0._id = 0 ∧ some t0._tex2D = idev.backBuffer) := by
  have hfind : find_if (fun tex : Texture => tex._name == n) r.mTextures
      = r.mTextures.length := find_if_eq_length _ _ (fun x hx => by simpa using hfresh x hx)
  constructor
  · simp only [CreateTextureFromFile, guard_false n hne hq, Bool.false_eq_true, if_false]
    rw [hfind]
    simp only [ne_eq, not_true_eq_false, if_false]
    cases dbg
    · simp only [Bool.false_eq_true, if_false, Renderer.logged, h0, List.append_nil]
      exact ⟨_, rfl, rfl, rfl, rfl⟩
    · simp only [if_true, Renderer.logged, h0, List.append_assoc]
      exact ⟨_, rfl, rfl, rfl, rfl⟩
  · intro debugNames r0 w h desc0 idev hempty hrun
    obtain ⟨t, ht, hid, hbb⟩ :=
      (Initialize_idsOk false debugNames r0 w h desc0 idev true r hempty hrun).2 rfl
    rw [h0] at ht
    cases ht
    exact ⟨hid, hbb⟩

/-- Witness of C30 (amended): a missing file right after `Initialize`. -/
theorem C30_unloadable_file_returns_slot_zero_witness :
    ∃ r1 : Renderer,
      CreateTextureFromFile true false startedRenderer "missing.png" "Data/Textures/" false none
        Tex2DOutcome.ok = some (0, r1) ∧
      r1.mTextures = startedRenderer.mTextures := by
  obtain ⟨⟨r1, h1, h2, _, _⟩, hinit⟩ :=
    C30_unloadable_file_returns_slot_zero true false startedRenderer "missing.png"
      "Data/Textures/" false Tex2DOutcome.ok
      { Texture.new with _tex2D := some 1, _id := 0, _srv := some 2 }
      (by decide) (by decide) (by decide) rfl
  exact ⟨r1, h1, h2⟩

end VQEngine
